import Mathlib

/-!
# Clothy: order placement, cart and address stores

A shallow embedding of the request handlers of `src/backend/server.js`
(checkout `POST /api/orders`, the cart routes, the address routes, the listings
of orders and addresses, and the admin cascade delete of a user) and of the cart
functions of the client in `src/frontend/script.js`, together with the
properties of the specification that concern them.

Conventions of the embedding

* A request body is JSON, so every field the handlers destructure is a `JsVal`;
  a field that is missing from the body is `JsVal.undefined`.
* JavaScript numbers are modelled as the doubles with an integer value: the
  handlers only compare a number with `0`, copy it, add one to a quantity, and
  multiply a price by a quantity for display; the product is rounded to the
  nearest double (`roundToDouble`), and a sum or product of magnitude up to 2^53
  is exact. Numbers with a fractional part are outside the model.
* A collection of the document store is the list of its documents in insertion
  order; a document records the values the driver writes for what the handler
  hands to it, `null` for a field that is `undefined` (`JsVal.stored`).
* What a request sees of the world outside this repository (the `ObjectId`
  constructor of the driver, the identifiers it generates, the clock, the
  language runtime's conversions of non-primitive values, and the store's
  equality filter on values that are not strings) is an `Env`.
  Driver calls themselves are assumed to succeed.
* Requests run one after the other; for product names that are strings the
  unique index on the cart never rejects an insert then, because the cart
  handler inserts a line only after finding none with that owner and name.
-/

namespace Clothy

/-! ## JavaScript values -/

/-- A JavaScript value as it can arrive in a parsed JSON body. -/
inductive JsVal where
  | undefined : JsVal
  | null : JsVal
  | bool (b : Bool) : JsVal
  | num (n : Int) : JsVal
  | str (s : String) : JsVal
  | arr (xs : List JsVal) : JsVal
  | obj (fields : List (String × JsVal)) : JsVal

namespace JsVal

instance : Inhabited JsVal := ⟨JsVal.undefined⟩

/-- The language's `ToBoolean`: `undefined`, `null`, `false`, `0` and the empty string
are falsy, everything else (every array and object included) is truthy. -/
def truthy : JsVal → Bool
  | undefined => false
  | null => false
  | bool b => b
  | num n => n != 0
  | str s => s.data != []
  | arr _ => true
  | obj _ => true

/-- The expression `a || b`. -/
def or (a b : JsVal) : JsVal := if a.truthy then a else b

/-- The test `Array.isArray(v)`. -/
def isArray : JsVal → Bool
  | arr _ => true
  | _ => false

/-- The test `typeof v === 'string'`. -/
def isString : JsVal → Bool
  | str _ => true
  | _ => false

/-- The test `v === s` for a string literal `s`. -/
def strictEqStr (v : JsVal) (s : String) : Bool :=
  match v with
  | str t => t == s
  | _ => false

/-- The property read `v.k` for the keys the handlers read from a submitted item
(`name`, `price`, `quantity`), none of which is a built-in property of a string,
number, boolean or array. `none` is the `TypeError` thrown on `null` and `undefined`. -/
def getProp (v : JsVal) (k : String) : Option JsVal :=
  match v with
  | undefined => none
  | null => none
  | obj fields => some ((fields.lookup k).getD undefined)
  | _ => some undefined

/-- The value the driver writes for a field value the handler hands to it in a document
or in a `$set`: `undefined` is written as `null` (the client is created without
`ignoreUndefined`), every other value as it is. The values a handler takes from a parsed
JSON body hold no `undefined` inside them; only a field the body lacks is `undefined`. -/
def stored : JsVal → JsVal
  | undefined => null
  | v => v

end JsVal

/-- The value of `s.length`: the number of UTF-16 code units of the string. -/
def jsLength (s : String) : Nat :=
  (s.data.map (fun c => if c.val < 0x10000 then 1 else 2)).sum

/-- The test `/^\d+$/.test(s)`: the string is a non-empty run of the digits `0`..`9`. -/
def allDigits (s : String) : Bool :=
  s.data != [] && s.data.all Char.isDigit

/-! ## Documents and the store -/

/-- An `ObjectId` of the document store, as the number its twelve bytes denote. -/
abbrev ObjectId := Nat

/-- The environment of one request. -/
structure Env where
  /-- The constructor `new ObjectId(x)`; `none` when it throws. -/
  objectId : JsVal → Option ObjectId
  /-- The runtime's `ToNumber` on a string, array or object: `none` when the conversion
  throws, `some none` for `NaN`. -/
  toNumber : JsVal → Option (Option Int)
  /-- The value of `new Date()`. -/
  now : Nat
  /-- The identifiers the driver gives to the documents this request inserts, in order. -/
  genId : Nat → ObjectId
  /-- The store's test whether a stored field value satisfies the equality filter on a
  query value, for a pair that is not two strings. -/
  filterMatches : JsVal → JsVal → Bool
  /-- The runtime's `ToString` on a value that is not a string; `none` when it throws. -/
  toText : JsVal → Option String
  /-- The store's descending sort order on two field values that are not both booleans:
  whether the first sorts at or before the second. -/
  sortsBefore : JsVal → JsVal → Bool
  /-- The call `jwt.verify(token, JWT_SECRET)`: the `id` of the signed payload, `none`
  when the token is rejected. -/
  verifyToken : String → Option JsVal
  /-- The `message` of the error the `catch` block of the handler receives when a call
  of this request throws. -/
  errorMessage : String

/-- A document of the `users` collection (the fields the cart route reads). -/
structure User where
  _id : ObjectId
  firstName : JsVal
  lastName : JsVal
  email : JsVal

/-- A document of the `products` collection, the catalog. -/
structure Product where
  _id : ObjectId
  name : JsVal
  category : JsVal
  price : JsVal
  image : JsVal
  description : JsVal
  stock : JsVal
  createdAt : Nat

/-- A document of the `cart` collection. -/
structure CartLine where
  _id : ObjectId
  userId : ObjectId
  username : JsVal
  productName : JsVal
  price : JsVal
  quantity : JsVal
  createdAt : Nat
  updatedAt : Option Nat

/-- A document of the `addresses` collection. The field `address` is never written by
this server; the checkout reads it before `street`. -/
structure Address where
  _id : ObjectId
  userId : ObjectId
  type : JsVal
  name : JsVal
  email : JsVal
  house : JsVal
  street : JsVal
  city : JsVal
  state : JsVal
  zipCode : JsVal
  country : JsVal
  phone : JsVal
  isDefault : JsVal
  createdAt : Nat
  updatedAt : Option Nat
  address : JsVal

/-- The `shippingAddress` object embedded in an order. -/
structure Snapshot where
  name : JsVal
  email : JsVal
  phone : JsVal
  house : JsVal
  street : JsVal
  city : JsVal
  state : JsVal
  zipCode : JsVal
  country : JsVal

/-- A document of the `orders` collection. -/
structure Order where
  _id : ObjectId
  userId : ObjectId
  totalAmount : JsVal
  status : JsVal
  shippingAddress : Option Snapshot
  paymentMethod : JsVal
  utrNumber : JsVal
  createdAt : Nat

/-- An order item as the checkout handler builds it, before the driver gives it an id. -/
structure OrderItemFields where
  orderId : ObjectId
  productName : JsVal
  price : JsVal
  quantity : JsVal

/-- A document of the `order_items` collection. -/
structure OrderItem extends OrderItemFields where
  _id : ObjectId

/-- The document store. -/
structure Db where
  users : List User
  products : List Product
  cart : List CartLine
  addresses : List Address
  orders : List Order
  orderItems : List OrderItem

/-- What a handler sends back: 200 with a message, 201 with a message and an id, 200
with a message and an id, or an error status with its text. -/
inductive Response where
  | ok (message : String) : Response
  | created (message : String) (id : ObjectId) : Response
  | okWithId (message : String) (id : ObjectId) : Response
  | error (status : Nat) (error : String) : Response

/-! ## Checkout: `POST /api/orders` -/

/-- The fields the checkout handler destructures from `req.body`. -/
structure OrderBody where
  items : JsVal
  totalAmount : JsVal
  shippingAddressId : JsVal
  paymentMethod : JsVal
  utrNumber : JsVal

/-- The comparison `v <= 0`. `none` when converting `v` to a number throws. -/
def leZero (env : Env) (v : JsVal) : Option Bool :=
  match v with
  | JsVal.undefined => some false
  | JsVal.null => some true
  | JsVal.bool b => some (!b)
  | JsVal.num n => some (decide (n ≤ 0))
  | w =>
    match env.toNumber w with
    | none => none
    | some none => some false
    | some (some n) => some (decide (n ≤ 0))

/-- The outcome of the validation block of the checkout handler. -/
inductive Validation where
  | ok : Validation
  | reject (error : String) : Validation
  | throws : Validation

/-- The number of elements of an array value (`items.length`). -/
def arrayLength : JsVal → Nat
  | JsVal.arr xs => xs.length
  | _ => 0

/-- The UTR test of the checkout handler (server.js 517-524). -/
def validateUtr (body : OrderBody) : Validation :=
  if body.paymentMethod.strictEqStr "upi" then
    if !body.utrNumber.truthy then
      Validation.reject "UTR number is required for UPI payments"
    else
      match body.utrNumber with
      | JsVal.str s =>
        if jsLength s != 12 || !allDigits s then
          Validation.reject "UTR number must be exactly 12 digits"
        else Validation.ok
      | _ => Validation.reject "UTR number must be exactly 12 digits"
  else Validation.ok

/-- The validation block of the checkout handler (server.js 503-524). -/
def validateOrder (env : Env) (body : OrderBody) : Validation :=
  if !body.items.truthy || !body.items.isArray || arrayLength body.items == 0 then
    Validation.reject "Items are required"
  else if !body.totalAmount.truthy then
    Validation.reject "Valid total amount is required"
  else
    match leZero env body.totalAmount with
    | none => Validation.throws
    | some true => Validation.reject "Valid total amount is required"
    | some false =>
      if !body.paymentMethod.truthy then
        Validation.reject "Payment method is required"
      else validateUtr body

/-- The elements of an array value. -/
def arrayElems : JsVal → List JsVal
  | JsVal.arr xs => xs
  | _ => []

/-- The address lookup of the checkout handler (server.js 526-532): by id only, the owner
is not part of the query. The outer `none` is the `ObjectId` constructor throwing; the
inner one is `null`, no address found or no id supplied. -/
def lookupShippingAddress (env : Env) (db : Db) (shippingAddressId : JsVal) :
    Option (Option Address) :=
  if shippingAddressId.truthy then
    match env.objectId shippingAddressId with
    | none => none
    | some a => some (db.addresses.find? (fun x => x._id == a))
  else some none

/-- The snapshot object built from a found address (server.js 539-549). -/
def snapshotOf (a : Address) : Snapshot :=
  { name := a.name.or (JsVal.str "")
    email := a.email.or (JsVal.str "")
    phone := a.phone.or (JsVal.str "")
    house := a.house.or (JsVal.str "")
    street := (a.address.or a.street).or (JsVal.str "")
    city := a.city.or (JsVal.str "")
    state := a.state.or (JsVal.str "")
    zipCode := a.zipCode.or (JsVal.str "")
    country := a.country.or (JsVal.str "IN") }

/-- The arrow function of `items.map` (server.js 562-567); `none` when reading a property
of the item throws. -/
def mapItem (orderId : ObjectId) (item : JsVal) : Option OrderItemFields :=
  match item.getProp "name", item.getProp "price", item.getProp "quantity" with
  | some name, some price, some quantity =>
    some { orderId := orderId, productName := name, price := price, quantity := quantity }
  | _, _, _ => none

/-- The call `items.map(...)`; `none` when the callback throws on some element. -/
def mapItems (orderId : ObjectId) : List JsVal → Option (List OrderItemFields)
  | [] => some []
  | item :: rest =>
    match mapItem orderId item, mapItems orderId rest with
    | some x, some xs => some (x :: xs)
    | _, _ => none

/-- The synthetic cash-on-delivery line (server.js 571-576). -/
def codCharge (orderId : ObjectId) : OrderItemFields :=
  { orderId := orderId
    productName := JsVal.str "Cash on Delivery Charge"
    price := JsVal.num 10
    quantity := JsVal.num 1 }

/-- An order item as the driver writes it: a field the handler left `undefined` is
written as `null`. -/
def storedItem (x : OrderItemFields) : OrderItemFields :=
  { orderId := x.orderId
    productName := x.productName.stored
    price := x.price.stored
    quantity := x.quantity.stored }

/-- The documents `insertMany` stores: the given ones as the driver writes them, in
order, each with the next generated id. -/
def withIds (gen : Nat → ObjectId) : Nat → List OrderItemFields → List OrderItem
  | _, [] => []
  | k, x :: xs => { storedItem x with _id := gen k } :: withIds gen (k + 1) xs

/-- The response of the `catch` block of the checkout handler (server.js 590-593): the
fixed text followed by the message of the caught error. -/
def orderServerError (env : Env) : Response :=
  Response.error 500 ("Error creating order: " ++ env.errorMessage)

/-- The handler of `POST /api/orders` (server.js 498-594). `reqUserId` is `req.user.id`. -/
def postOrders (env : Env) (db : Db) (reqUserId : JsVal) (body : OrderBody) :
    Response × Db :=
  match validateOrder env body with
  | Validation.reject e => (Response.error 400 e, db)
  | Validation.throws => (orderServerError env, db)
  | Validation.ok =>
    match lookupShippingAddress env db body.shippingAddressId with
    | none => (orderServerError env, db)
    | some shippingAddress =>
      match env.objectId reqUserId with
      | none => (orderServerError env, db)
      | some uid =>
        let orderId := env.genId 0
        let newOrder : Order :=
          { _id := orderId
            userId := uid
            totalAmount := body.totalAmount
            status := JsVal.str "pending"
            shippingAddress := shippingAddress.map snapshotOf
            paymentMethod := body.paymentMethod
            utrNumber :=
              if body.paymentMethod.strictEqStr "upi" then body.utrNumber else JsVal.null
            createdAt := env.now }
        let db1 : Db := { db with orders := db.orders ++ [newOrder] }
        match mapItems orderId (arrayElems body.items) with
        | none => (orderServerError env, db1)
        | some mapped =>
          let orderItems :=
            if body.paymentMethod.strictEqStr "cod" then mapped ++ [codCharge orderId]
            else mapped
          let db2 : Db :=
            { db1 with orderItems := db1.orderItems ++ withIds env.genId 1 orderItems }
          let db3 : Db := { db2 with cart := db2.cart.filter (fun l => l.userId != uid) }
          (Response.created "Order created successfully" orderId, db3)

/-! ## Address routes -/

/-- The fields the address handlers destructure from `req.body`. -/
structure AddressBody where
  type : JsVal
  name : JsVal
  email : JsVal
  house : JsVal
  street : JsVal
  city : JsVal
  state : JsVal
  zipCode : JsVal
  country : JsVal
  phone : JsVal
  isDefault : JsVal

/-- The effect of `updateOne` with a `$set`: the first document matching `p` is replaced
by its image under `f`. -/
def updateFirst {α : Type} (p : α → Bool) (f : α → α) : List α → List α
  | [] => []
  | x :: xs => if p x then f x :: xs else x :: updateFirst p f xs

/-- The handler of `POST /api/user/addresses` (server.js 611-680). -/
def postAddress (env : Env) (db : Db) (reqUserId : JsVal) (body : AddressBody) :
    Response × Db :=
  match env.objectId reqUserId with
  | none => (Response.error 500 "Error adding address", db)
  | some uid =>
    let swept :=
      if body.isDefault.truthy then
        db.addresses.map
          (fun a => if a.userId == uid then { a with isDefault := JsVal.bool false } else a)
      else db.addresses
    let newAddress : Address :=
      { _id := env.genId 0
        userId := uid
        type := body.type.stored
        name := body.name.stored
        email := body.email.stored
        house := body.house.stored
        street := body.street.stored
        city := body.city.stored
        state := body.state.stored
        zipCode := body.zipCode.stored
        country := body.country.stored
        phone := body.phone.stored
        isDefault := body.isDefault.or (JsVal.bool false)
        createdAt := env.now
        updatedAt := none
        address := JsVal.undefined }
    (Response.created "Address added successfully" (env.genId 0),
      { db with addresses := swept ++ [newAddress] })

/-- The handler of `PUT /api/user/addresses/:id` (server.js 682-723). -/
def putAddress (env : Env) (db : Db) (reqUserId : JsVal) (paramId : String)
    (body : AddressBody) : Response × Db :=
  match env.objectId (JsVal.str paramId) with
  | none => (Response.error 500 "Error updating address", db)
  | some addressId =>
    match env.objectId reqUserId with
    | none => (Response.error 500 "Error updating address", db)
    | some uid =>
      let swept :=
        if body.isDefault.truthy then
          db.addresses.map
            (fun a =>
              if a.userId == uid && a._id != addressId then
                { a with isDefault := JsVal.bool false }
              else a)
        else db.addresses
      let hit : Address → Bool := fun a => a._id == addressId && a.userId == uid
      let updated :=
        updateFirst hit
          (fun a =>
            { a with
              type := body.type.stored
              name := body.name.stored
              email := body.email.stored
              house := body.house.stored
              street := body.street.stored
              city := body.city.stored
              state := body.state.stored
              zipCode := body.zipCode.stored
              country := body.country.stored
              phone := body.phone.stored
              isDefault := body.isDefault.or (JsVal.bool false)
              updatedAt := some env.now })
          swept
      if swept.any hit then
        (Response.ok "Address updated successfully", { db with addresses := updated })
      else (Response.error 404 "Address not found", { db with addresses := updated })

/-- The handler of `DELETE /api/user/addresses/:id` (server.js 725-742). -/
def deleteAddress (env : Env) (db : Db) (reqUserId : JsVal) (paramId : String) :
    Response × Db :=
  match env.objectId (JsVal.str paramId) with
  | none => (Response.error 500 "Error deleting address", db)
  | some addressId =>
    match env.objectId reqUserId with
    | none => (Response.error 500 "Error deleting address", db)
    | some uid =>
      let hit : Address → Bool := fun a => a._id == addressId && a.userId == uid
      if db.addresses.any hit then
        (Response.ok "Address deleted successfully",
          { db with addresses := db.addresses.eraseP hit })
      else (Response.error 404 "Address not found", { db with addresses := db.addresses.eraseP hit })

/-- The sweep of the update handler (server.js 688-693): `isDefault` becomes `false` on
the addresses of owner `u` other than `addressId`. -/
def sweepSiblings (u addressId : ObjectId) (addresses : List Address) : List Address :=
  addresses.map
    (fun a =>
      if a.userId == u && a._id != addressId then { a with isDefault := JsVal.bool false }
      else a)

/-- The `$set` of the update handler (server.js 695-708) applied to one address. -/
def applyAddressBody (body : AddressBody) (now : Nat) (a : Address) : Address :=
  { a with
    type := body.type.stored
    name := body.name.stored
    email := body.email.stored
    house := body.house.stored
    street := body.street.stored
    city := body.city.stored
    state := body.state.stored
    zipCode := body.zipCode.stored
    country := body.country.stored
    phone := body.phone.stored
    isDefault := body.isDefault.or (JsVal.bool false)
    updatedAt := some now }

/-! ## Cart routes -/

/-- The fields the cart handler destructures from `req.body`. -/
structure CartBody where
  productName : JsVal
  price : JsVal
  quantity : JsVal

/-- The characters `String.prototype.trim` strips: the white space and line terminators
of the language. -/
def isJsSpace (c : Char) : Bool :=
  c.toNat == 9 || c.toNat == 10 || c.toNat == 11 || c.toNat == 12 || c.toNat == 13 ||
    c.toNat == 32 || c.toNat == 160 || c.toNat == 5760 ||
    (decide (8192 ≤ c.toNat) && decide (c.toNat ≤ 8202)) ||
    c.toNat == 8232 || c.toNat == 8233 || c.toNat == 8239 || c.toNat == 8287 ||
    c.toNat == 12288 || c.toNat == 65279

/-- The method `s.trim()`. -/
def jsTrim (s : String) : String :=
  String.mk ((s.data.dropWhile isJsSpace).reverse.dropWhile isJsSpace).reverse

/-- The operand `(v || '')` as the text that `+` concatenates; `none` when converting it
throws. -/
def textOr (env : Env) (v : JsVal) : Option String :=
  match v.or (JsVal.str "") with
  | JsVal.str s => some s
  | w => env.toText w

/-- The display name the cart handler writes on a line (server.js 341): first and last
name joined by a blank and trimmed, else the email, else `Unknown`. -/
def usernameOf (env : Env) (user : User) : Option JsVal :=
  match textOr env user.firstName, textOr env user.lastName with
  | some f, some l =>
    some (((JsVal.str (jsTrim (f ++ " " ++ l))).or user.email).or (JsVal.str "Unknown"))
  | _, _ => none

/-- The store's test whether a stored field satisfies the equality filter on `q`: two
strings match when they are equal; every other pair is decided by the store. -/
def fieldMatches (env : Env) (stored q : JsVal) : Bool :=
  match stored, q with
  | JsVal.str t, JsVal.str s => t == s
  | _, _ => env.filterMatches stored q

/-- The update `$inc` of `quantity` by 1; `none` when the stored quantity is not a
number, on which the store refuses the update. The sum is the one the store computes
for a quantity below 2^53 in magnitude. -/
def incQuantity : JsVal → Option JsVal
  | JsVal.num n => some (JsVal.num (n + 1))
  | _ => none

/-- The parameter default `quantity = 1` of the destructuring: it applies when the body
has no `quantity`. -/
def quantityOrOne : JsVal → JsVal
  | JsVal.undefined => JsVal.num 1
  | q => q

/-- The handler of `POST /api/cart` (server.js 326-379). -/
def postCart (env : Env) (db : Db) (reqUserId : JsVal) (body : CartBody) : Response × Db :=
  match env.objectId reqUserId with
  | none => (Response.error 500 "Error updating cart", db)
  | some uid =>
    match db.users.find? (fun u => u._id == uid) with
    | none => (Response.error 404 "User not found", db)
    | some user =>
      match usernameOf env user with
      | none => (Response.error 500 "Error updating cart", db)
      | some username =>
        let hit : CartLine → Bool :=
          fun l => l.userId == uid && fieldMatches env l.productName body.productName.stored
        match db.cart.find? hit with
        | some existingItem =>
          match incQuantity existingItem.quantity with
          | none => (Response.error 500 "Error updating cart", db)
          | some q =>
            (Response.ok "Cart updated successfully",
              { db with
                cart :=
                  updateFirst hit
                    (fun l =>
                      { l with quantity := q, username := username,
                               updatedAt := some env.now })
                    db.cart })
        | none =>
          let newItem : CartLine :=
            { _id := env.genId 0
              userId := uid
              username := username
              productName := body.productName.stored
              price := body.price.stored
              quantity := quantityOrOne body.quantity
              createdAt := env.now
              updatedAt := none }
          (Response.okWithId "Item added to cart successfully" (env.genId 0),
            { db with cart := db.cart ++ [newItem] })

/-- The handler of `DELETE /api/cart/:id` (server.js 381-398). -/
def deleteCartItem (env : Env) (db : Db) (reqUserId : JsVal) (paramId : String) :
    Response × Db :=
  match env.objectId (JsVal.str paramId) with
  | none => (Response.error 500 "Error removing item", db)
  | some itemId =>
    match env.objectId reqUserId with
    | none => (Response.error 500 "Error removing item", db)
    | some uid =>
      let hit : CartLine → Bool := fun l => l._id == itemId && l.userId == uid
      if db.cart.any hit then
        (Response.ok "Item removed from cart successfully",
          { db with cart := db.cart.eraseP hit })
      else (Response.error 404 "Item not found", { db with cart := db.cart.eraseP hit })

/-- The handler of `DELETE /api/cart` (server.js 400-407). -/
def deleteCart (env : Env) (db : Db) (reqUserId : JsVal) : Response × Db :=
  match env.objectId reqUserId with
  | none => (Response.error 500 "Error clearing cart", db)
  | some uid =>
    (Response.ok "Cart cleared successfully",
      { db with cart := db.cart.filter (fun l => l.userId != uid) })

/-! ## Read routes -/

/-- What a route that answers with data sends back: 200 with the data, or an error status
with its text. -/
inductive Reply (α : Type) where
  | json (body : α) : Reply α
  | error (status : Nat) (error : String) : Reply α

/-- One step of the sort: `x` goes before the first element it sorts at or before. -/
def insertBy {α : Type} (le : α → α → Bool) (x : α) : List α → List α
  | [] => [x]
  | y :: ys => if le x y then x :: y :: ys else y :: insertBy le x ys

/-- The cursor method `sort`: the documents in the order `le`; documents that compare
equal stay in their stored order. -/
def sortBy {α : Type} (le : α → α → Bool) : List α → List α
  | [] => []
  | x :: xs => insertBy le x (sortBy le xs)

/-- The descending order of the store on `isDefault`: on booleans `true` comes before
`false`. -/
def defaultBefore (env : Env) (x y : JsVal) : Bool :=
  match x, y with
  | JsVal.bool a, JsVal.bool b => a || !b
  | _, _ => env.sortsBefore x y

/-- The sort specification `isDefault: -1, createdAt: -1` (server.js 602): `a` sorts at or
before `b`. -/
def addressBefore (env : Env) (a b : Address) : Bool :=
  defaultBefore env a.isDefault b.isDefault &&
    (!defaultBefore env b.isDefault a.isDefault || decide (b.createdAt ≤ a.createdAt))

/-- The handler of `GET /api/user/addresses` (server.js 598-609). -/
def getAddresses (env : Env) (db : Db) (reqUserId : JsVal) : Reply (List Address) :=
  match env.objectId reqUserId with
  | none => Reply.error 500 "Database error"
  | some uid =>
    Reply.json (sortBy (addressBefore env) (db.addresses.filter (fun a => a.userId == uid)))

/-- The runtime's `ToNumber`: `none` when the conversion throws, `some none` for `NaN`. -/
def toNumber (env : Env) (v : JsVal) : Option (Option Int) :=
  match v with
  | JsVal.undefined => some none
  | JsVal.null => some (some 0)
  | JsVal.bool b => some (some (if b then 1 else 0))
  | JsVal.num n => some (some n)
  | w => env.toNumber w

/-- How many times a natural number of at most `fuel` + 53 binary digits must be halved
to have at most 53 binary digits. -/
def excessBits : Nat → Nat → Nat
  | 0, _ => 0
  | fuel + 1, a => if a < 2 ^ 53 then 0 else excessBits fuel (a / 2) + 1

/-- The double-precision number nearest to an integer, ties going to the even
significand; `none` when that is an infinity. Integers up to 2^53 in magnitude are
doubles themselves; a larger one keeps its 53 leading binary digits, rounded, and
overflows when the rounded value reaches 2^1024. -/
def roundToDouble (m : Int) : Option Int :=
  if m.natAbs ≤ 2 ^ 53 then some m
  else
    let shift := excessBits 972 m.natAbs
    let q := m.natAbs / 2 ^ shift
    let r := m.natAbs % 2 ^ shift
    let up := decide (2 ^ shift < 2 * r) || (2 * r == 2 ^ shift && q % 2 == 1)
    let q' := if up then q + 1 else q
    if 971 < shift ∨ (shift = 971 ∧ q' = 2 ^ 53) then none
    else some (m.sign * ((q' * 2 ^ shift : Nat) : Int))

/-- The product of two numbers in double precision, as the JSON answer carries it: the
exact product rounded to the nearest double; `none`, which the answer carries as `null`,
when an operand is `NaN` or the product is an infinity. -/
def doubleProduct : Option Int → Option Int → Option Int
  | some x, some y => roundToDouble (x * y)
  | _, _ => none

/-- The product `a * b`: `none` when a conversion throws. -/
def jsMul (env : Env) (a b : JsVal) : Option (Option Int) :=
  match toNumber env a, toNumber env b with
  | some x, some y => some (doubleProduct x y)
  | _, _ => none

/-- An order item as `GET /api/orders` returns it; a `total` that is not a finite number
is `none`, the `null` of the JSON answer. -/
structure OrderItemView where
  _id : ObjectId
  productName : JsVal
  name : JsVal
  price : JsVal
  quantity : JsVal
  total : Option Int

/-- An order as `GET /api/orders` returns it: the document and its items. -/
structure OrderView where
  order : Order
  items : List OrderItemView

/-- The arrow function of `orderItems.map` (server.js 481-488). -/
def itemView (env : Env) (item : OrderItem) : Option OrderItemView :=
  match jsMul env item.price item.quantity with
  | none => none
  | some total =>
    some { _id := item._id, productName := item.productName, name := item.productName
           price := item.price, quantity := item.quantity, total := total }

/-- The views of a list of items; `none` when computing a total throws. -/
def itemViews (env : Env) : List OrderItem → Option (List OrderItemView)
  | [] => some []
  | item :: rest =>
    match itemView env item, itemViews env rest with
    | some v, some vs => some (v :: vs)
    | _, _ => none

/-- The views of a list of orders (server.js 474-490), each with the items whose
`orderId` is its id; `none` when computing a total throws. -/
def orderViews (env : Env) (db : Db) : List Order → Option (List OrderView)
  | [] => some []
  | order :: rest =>
    match itemViews env (db.orderItems.filter (fun i => i.orderId == order._id)),
        orderViews env db rest with
    | some items, some vs => some ({ order := order, items := items } :: vs)
    | _, _ => none

/-- The handler of `GET /api/orders` (server.js 466-496). -/
def getOrders (env : Env) (db : Db) (reqUserId : JsVal) : Reply (List OrderView) :=
  match env.objectId reqUserId with
  | none => Reply.error 500 "Database error"
  | some uid =>
    match orderViews env db
        (sortBy (fun a b => decide (b.createdAt ≤ a.createdAt))
          (db.orders.filter (fun o => o.userId == uid))) with
    | none => Reply.error 500 "Database error"
    | some views => Reply.json views

/-! ## Admin: cascade delete of a user -/

/-- The `deletedItems` object of the answer. -/
structure DeletedCounts where
  cartItems : Nat
  addresses : Nat
  orders : Nat
  orderItems : Nat

/-- The handler of `DELETE /api/admin/users/:id` (server.js 1057-1116); the answer
carries the message `User deleted successfully` and the counts. -/
def deleteAdminUser (env : Env) (db : Db) (paramId : String) : Reply DeletedCounts × Db :=
  match env.objectId (JsVal.str paramId) with
  | none => (Reply.error 500 "Error deleting user", db)
  | some userId =>
    match db.users.find? (fun u => u._id == userId) with
    | none => (Reply.error 404 "User not found", db)
    | some _ =>
      let cartDeleted := (db.cart.filter (fun l => l.userId == userId)).length
      let db1 : Db := { db with cart := db.cart.filter (fun l => l.userId != userId) }
      let addressesDeleted := (db1.addresses.filter (fun a => a.userId == userId)).length
      let db2 : Db :=
        { db1 with addresses := db1.addresses.filter (fun a => a.userId != userId) }
      let orderIds := (db2.orders.filter (fun o => o.userId == userId)).map (fun o => o._id)
      let orderItemsDeleted :=
        if orderIds.length > 0 then
          (db2.orderItems.filter (fun i => orderIds.contains i.orderId)).length
        else 0
      let db3 : Db :=
        if orderIds.length > 0 then
          { db2 with orderItems := db2.orderItems.filter (fun i => !orderIds.contains i.orderId) }
        else db2
      let ordersDeleted := (db3.orders.filter (fun o => o.userId == userId)).length
      let db4 : Db := { db3 with orders := db3.orders.filter (fun o => o.userId != userId) }
      let userDeleted := db4.users.any (fun u => u._id == userId)
      let db5 : Db := { db4 with users := db4.users.eraseP (fun u => u._id == userId) }
      if userDeleted then
        (Reply.json
          { cartItems := cartDeleted, addresses := addressesDeleted
            orders := ordersDeleted, orderItems := orderItemsDeleted }, db5)
      else (Reply.error 404 "User not found", db5)

/-! ## Authentication and the routes -/

/-- The piece `authHeader.split(' ')[1]`: what stands between the first blank and the
next one; `none` when the header has no blank. -/
def secondPiece (header : List Char) : Option (List Char) :=
  match header.dropWhile (fun c => c != ' ') with
  | [] => none
  | _ :: rest => some (rest.takeWhile (fun c => c != ' '))

/-- The middleware `authenticateToken` (server.js 164-187): the answer that ends the
request, or `req.user.id` for the handler that follows. -/
def authenticateToken (env : Env) (authorization : Option String) : Except Response JsVal :=
  match authorization with
  | none => Except.error (Response.error 401 "Access token required")
  | some header =>
    match secondPiece header.data with
    | none => Except.error (Response.error 401 "Access token required")
    | some [] => Except.error (Response.error 401 "Access token required")
    | some token =>
      if "admin-mock-token-".data.isPrefixOf token then Except.ok (JsVal.str "admin")
      else
        match env.verifyToken (String.mk token) with
        | none => Except.error (Response.error 403 "Invalid token")
        | some id => Except.ok id

/-- The route `app.delete('/api/cart', authenticateToken, ...)` (server.js 400): the
middleware, then the handler. -/
def deleteCartRoute (env : Env) (db : Db) (authorization : Option String) : Response × Db :=
  match authenticateToken env authorization with
  | Except.error r => (r, db)
  | Except.ok id => deleteCart env db id

/-- The route `app.delete('/api/admin/users/:id', ...)` (server.js 1057): it is
registered with the handler alone, so the handler runs whatever the request carries in
its `Authorization` header. -/
def deleteAdminUserRoute (env : Env) (db : Db) (_authorization : Option String)
    (paramId : String) : Reply DeletedCounts × Db :=
  deleteAdminUser env db paramId

/-! ## Invariants of the stores -/

/-- The relation between a stored order item and the item as listed: the same id, name,
price and quantity, and, when price and quantity are numbers, `null` counting as 0, as
total their product in double precision: the double nearest to the product, which is the
product itself when that is at most 2^53 in magnitude. -/
def IsViewOf (item : OrderItem) (v : OrderItemView) : Prop :=
  v._id = item._id ∧ v.productName = item.productName ∧ v.name = item.productName ∧
    v.price = item.price ∧ v.quantity = item.quantity ∧
    ∀ p q : Int, (item.price = JsVal.num p ∨ (item.price = JsVal.null ∧ p = 0)) →
      (item.quantity = JsVal.num q ∨ (item.quantity = JsVal.null ∧ q = 0)) →
      v.total = roundToDouble (p * q) ∧
        ((p * q).natAbs ≤ 2 ^ 53 → v.total = some (p * q))

/-- The cart holds at most one line per owner and product name. -/
def CartUnique (cart : List CartLine) : Prop :=
  cart.Pairwise (fun a b => ¬ (a.userId = b.userId ∧ a.productName = b.productName))

/-- Every product name in the cart is a string. -/
def NamesAreStrings (cart : List CartLine) : Prop :=
  ∀ l ∈ cart, ∃ t : String, l.productName = JsVal.str t

/-- Every quantity in the cart is a number that is at least 1. -/
def QuantitiesPositive (cart : List CartLine) : Prop :=
  ∀ l ∈ cart, ∃ n : Int, l.quantity = JsVal.num n ∧ 1 ≤ n

/-- The test `v === true`. -/
def JsVal.isTrue : JsVal → Bool
  | JsVal.bool b => b
  | _ => false

/-- The addresses of owner `u` whose `isDefault` is `true`. -/
def defaultsOf (u : ObjectId) (addresses : List Address) : List Address :=
  addresses.filter (fun a => a.userId == u && a.isDefault.isTrue)

/-- Every owner has at most one address whose `isDefault` is `true`. -/
def OneDefaultPerOwner (addresses : List Address) : Prop :=
  ∀ u : ObjectId, (defaultsOf u addresses).length ≤ 1

/-- No two addresses of the store have the same `_id`. -/
def AddressIdsUnique (addresses : List Address) : Prop :=
  (addresses.map (fun a => a._id)).Nodup

/-! ## A concrete environment for the examples -/

/-- The value of a hexadecimal digit. -/
def hexDigit (c : Char) : Option Nat :=
  if 48 ≤ c.toNat ∧ c.toNat ≤ 57 then some (c.toNat - 48)
  else if 97 ≤ c.toNat ∧ c.toNat ≤ 102 then some (c.toNat - 87)
  else if 65 ≤ c.toNat ∧ c.toNat ≤ 70 then some (c.toNat - 55)
  else none

/-- The number denoted by a run of hexadecimal digits, continuing from `acc`. -/
def hexValue : List Char → Nat → Option Nat
  | [], acc => some acc
  | c :: cs, acc =>
    match hexDigit c with
    | none => none
    | some d => hexValue cs (16 * acc + d)

/-- An `ObjectId` constructor for the examples: a string of 24 hexadecimal digits denotes
an id, and the constructor throws on every other value. -/
def hexObjectId : JsVal → Option ObjectId
  | JsVal.str s => if s.data.length = 24 then hexValue s.data 0 else none
  | _ => none

/-- The environment of the examples: clock at 1000, generated ids 100, 101, ..., and a
number conversion that finds no number in any string, array or object; outside strings
its store filter matches nothing and its text conversion throws; two tokens verify, one
for user 161 and one for user 162. -/
def sampleEnv : Env :=
  { objectId := hexObjectId
    toNumber := fun _ => some none
    now := 1000
    genId := fun k => 100 + k
    filterMatches := fun _ _ => false
    toText := fun _ => none
    sortsBefore := fun _ _ => true
    verifyToken := fun t => if t = "alice-token" then some (JsVal.str "0000000000000000000000a1")
      else if t = "bob-token" then some (JsVal.str "0000000000000000000000a2") else none
    errorMessage := "call failed" }

/-- The item of the scenario of the specification: two tees at 300. -/
def teeItem : JsVal :=
  JsVal.obj [("name", JsVal.str "Tee"), ("price", JsVal.num 300), ("quantity", JsVal.num 2)]

/-- A checkout body with the scenario item, total 600, and the given payment fields. -/
def teeBody (paymentMethod utrNumber : JsVal) : OrderBody :=
  { items := JsVal.arr [teeItem]
    totalAmount := JsVal.num 600
    shippingAddressId := JsVal.undefined
    paymentMethod := paymentMethod
    utrNumber := utrNumber }

/-- The principal of the examples, `req.user.id` of a signed-in user (id 161). -/
def aliceId : JsVal := JsVal.str "0000000000000000000000a1"

/-- A cart line of the examples. -/
def sampleLine (id owner : ObjectId) (product : String) : CartLine :=
  { _id := id
    userId := owner
    username := JsVal.str "shopper"
    productName := JsVal.str product
    price := JsVal.num 300
    quantity := JsVal.num 1
    createdAt := 10
    updatedAt := none }

/-- An address of the examples, owned by user 162 and stored with the empty string as
country, as `POST /api/user/addresses` stores a body whose `country` is empty. -/
def bobAddress : Address :=
  { _id := 7
    userId := 162
    type := JsVal.str "home"
    name := JsVal.str "Bob"
    email := JsVal.str "bob@example.com"
    house := JsVal.str "12"
    street := JsVal.str "Hill Road"
    city := JsVal.str "Pune"
    state := JsVal.str "MH"
    zipCode := JsVal.str "411001"
    country := JsVal.str ""
    phone := JsVal.str "9999999999"
    isDefault := JsVal.bool true
    createdAt := 5
    updatedAt := none
    address := JsVal.undefined }

/-- The store of the examples: user 161 is registered and has two cart lines, user 162 one cart line and
one address; the catalog lists the tee at 999; no order has been placed. -/
def sampleDb : Db :=
  { users :=
      [{ _id := 161, firstName := JsVal.str "Alice", lastName := JsVal.str "Rao"
         email := JsVal.str "alice@example.com" }]
    products :=
      [{ _id := 50, name := JsVal.str "Tee", category := JsVal.str "T-Shirts"
         price := JsVal.num 999, image := JsVal.str "", description := JsVal.str ""
         stock := JsVal.num 4, createdAt := 1 }]
    cart := [sampleLine 1 161 "Tee", sampleLine 2 162 "Jeans", sampleLine 3 161 "Shirt"]
    addresses := [bobAddress]
    orders := []
    orderItems := [] }

/-- A card checkout of the scenario item by user 161 that names the address of user 162
as its shipping address. -/
def bobAddressBody : OrderBody :=
  { items := JsVal.arr [teeItem]
    totalAmount := JsVal.num 600
    shippingAddressId := JsVal.str "000000000000000000000007"
    paymentMethod := JsVal.str "card"
    utrNumber := JsVal.undefined }

/-- The store of the examples with nothing in any cart. -/
def emptyCartDb : Db := { sampleDb with cart := [] }

/-- An add request for a tee at 300 with the given quantity argument. -/
def teeCartBody (quantity : JsVal) : CartBody :=
  { productName := JsVal.str "Tee", price := JsVal.num 300, quantity := quantity }

/-- An add request for a cap at 150 with the given quantity argument. -/
def capCartBody (quantity : JsVal) : CartBody :=
  { productName := JsVal.str "Cap", price := JsVal.num 150, quantity := quantity }

/-- The line the first add of a tee by user 161 inserts under `sampleEnv`. -/
def firstTeeLine : CartLine :=
  { _id := 100
    userId := 161
    username := JsVal.str "Alice Rao"
    productName := JsVal.str "Tee"
    price := JsVal.num 300
    quantity := JsVal.num 1
    createdAt := 1000
    updatedAt := none }

/-- The store of the examples after user 161 has added one tee to an empty cart. -/
def oneTeeDb : Db := { sampleDb with cart := [firstTeeLine] }

/-- The principal that owns the address of the examples (id 162). -/
def bobId : JsVal := JsVal.str "0000000000000000000000a2"

/-- An address body of the examples with the given `isDefault`. -/
def officeBody (isDefault : JsVal) : AddressBody :=
  { type := JsVal.str "work"
    name := JsVal.str "Bob"
    email := JsVal.str "bob@example.com"
    house := JsVal.str "4"
    street := JsVal.str "Mill Lane"
    city := JsVal.str "Pune"
    state := JsVal.str "MH"
    zipCode := JsVal.str "411002"
    country := JsVal.str "IN"
    phone := JsVal.str "9999999999"
    isDefault := isDefault }

/-- The address of the examples with another id, owner and `isDefault`. -/
def addressOf (id owner : ObjectId) (isDefault : Bool) : Address :=
  { bobAddress with _id := id, userId := owner, isDefault := JsVal.bool isDefault }

/-- A store in which user 162 has the default address 7 and the address 8, and user 161
has the default address 9. -/
def threeAddressDb : Db :=
  { sampleDb with addresses := [addressOf 7 162 true, addressOf 8 162 false, addressOf 9 161 true] }

/-! ## The client cart mirror (`src/frontend/script.js`)

The mirror is the array `cart` of the page, which every function also writes to local
storage. Drawing the page and showing notifications are not part of the model. -/

/-- An entry of the client's `cart` array. -/
structure Entry where
  id : JsVal
  name : JsVal
  price : JsVal
  quantity : JsVal
  username : JsVal

/-- The outcome of a `fetch` as the client tests it: `response.ok` with the parsed body,
a response that is not OK, or a thrown error (of the fetch or of reading the body). -/
inductive FetchResult where
  | ok (body : JsVal) : FetchResult
  | notOk : FetchResult
  | throws : FetchResult

/-- The test `response.ok` on a fetch that did not throw. -/
def FetchResult.isOk : FetchResult → Bool
  | FetchResult.ok _ => true
  | _ => false

/-- What a client function finds around it: the two storages, the clock, and the
outcome of each request it may issue. -/
structure Browser where
  /-- The value of `localStorage.getItem('token')`. -/
  localToken : Option String
  /-- The value of `sessionStorage.getItem('token')`. -/
  sessionToken : Option String
  /-- Whether reading the display name from the stored `userData` throws. -/
  userDataThrows : Bool
  /-- The outcome of `POST /api/cart`. -/
  postCart : FetchResult
  /-- The outcome of `DELETE /api/cart/:id`. -/
  deleteLine : FetchResult
  /-- The outcome of `DELETE /api/cart`. -/
  deleteCart : FetchResult
  /-- The outcome of `GET /api/cart`. -/
  getCart : FetchResult
  /-- The value of `Date.now()`. -/
  now : Int
  /-- The runtime's `toString` on an array or object; `none` when it throws. -/
  toText : JsVal → Option String

/-- A request the client issues to the server cart store. -/
inductive Request where
  | postCart (productName price : JsVal) : Request
  | deleteLine (id : String) : Request
  | deleteCart : Request
  | getCart : Request

/-- The effect of a client function: the requests it issued, in order, and the mirror
it leaves. -/
structure Run where
  requests : List Request
  cart : List Entry

/-- The expression `localStorage.getItem('token') || sessionStorage.getItem('token')`. -/
def storedToken (b : Browser) : Option String :=
  match b.localToken with
  | some t => if t.data != [] then some t else b.sessionToken
  | none => b.sessionToken

/-- Whether `token` is truthy: a credential is present. -/
def hasToken (b : Browser) : Bool :=
  match storedToken b with
  | some t => t.data != []
  | none => false

/-- The arrow function of `dbCart.map` (script.js 28-34); `none` when reading a property
of the line throws. -/
def entryOfLine (item : JsVal) : Option Entry :=
  match item.getProp "_id", item.getProp "productName", item.getProp "price",
      item.getProp "quantity", item.getProp "username" with
  | some id, some name, some price, some quantity, some username =>
    some { id := id, name := name, price := price, quantity := quantity, username := username }
  | _, _, _, _, _ => none

/-- The call `dbCart.map(...)`; `none` when the callback throws on some line. -/
def entriesOfLines : List JsVal → Option (List Entry)
  | [] => some []
  | item :: rest =>
    match entryOfLine item, entriesOfLines rest with
    | some e, some es => some (e :: es)
    | _, _ => none

/-- The function `syncCartWithDatabase` (script.js 4-52). -/
def syncCartWithDatabase (b : Browser) (cart : List Entry) : Run :=
  if !hasToken b then { requests := [], cart := [] }
  else
    match b.getCart with
    | FetchResult.ok (JsVal.arr items) =>
      match entriesOfLines items with
      | some entries => { requests := [Request.getCart], cart := entries }
      | none => { requests := [Request.getCart], cart := cart }
    | _ => { requests := [Request.getCart], cart := cart }

/-- The entry the local path of `addToCart` pushes (script.js 156). -/
def guestEntry (name price : JsVal) (now : Int) : Entry :=
  { id := JsVal.num now, name := name, price := price
    quantity := JsVal.undefined, username := JsVal.undefined }

/-- The function `addToCart` (script.js 112-160). -/
def addToCart (b : Browser) (cart : List Entry) (name price : JsVal) : Run :=
  if hasToken b then
    if b.userDataThrows then { requests := [], cart := cart ++ [guestEntry name price b.now] }
    else
      match b.postCart with
      | FetchResult.ok _ =>
        { requests := Request.postCart name price :: (syncCartWithDatabase b cart).requests
          cart := (syncCartWithDatabase b cart).cart }
      | _ =>
        { requests := [Request.postCart name price]
          cart := cart ++ [guestEntry name price b.now] }
  else { requests := [], cart := cart ++ [guestEntry name price b.now] }

/-- The call `id.toString()`; `none` when it throws. -/
def idText (b : Browser) (id : JsVal) : Option String :=
  match id with
  | JsVal.undefined => none
  | JsVal.null => none
  | JsVal.str s => some s
  | JsVal.num n => some (toString n)
  | JsVal.bool v => some (if v then "true" else "false")
  | w => b.toText w

/-- The comparison `a === b`. An array or object is only identical to itself, and a stored
id, which comes from parsed JSON, is never the object passed as argument. -/
def strictEq : JsVal → JsVal → Bool
  | JsVal.undefined, JsVal.undefined => true
  | JsVal.null, JsVal.null => true
  | JsVal.bool a, JsVal.bool b => a == b
  | JsVal.num a, JsVal.num b => a == b
  | JsVal.str a, JsVal.str b => a == b
  | _, _ => false

/-- The value of the longest run of digits of the base at the start of the text; `none`
when the text does not start with such a digit. -/
def leadingDigits (base : Nat) (cs : List Char) : Option Nat :=
  match cs.takeWhile
      (fun c => match hexDigit c with
        | some d => decide (d < base)
        | none => false) with
  | [] => none
  | ds => some (ds.foldl (fun acc c => base * acc + (hexDigit c).getD 0) 0)

/-- The unsigned part of `parseInt`: hexadecimal after `0x` or `0X`, decimal otherwise. -/
def parseUnsigned : List Char → Option Nat
  | '0' :: 'x' :: rest => leadingDigits 16 rest
  | '0' :: 'X' :: rest => leadingDigits 16 rest
  | cs => leadingDigits 10 cs

/-- The function `parseInt` on a text; `none` is `NaN`. -/
def parseIntJs (cs : List Char) : Option Int :=
  match cs.dropWhile isJsSpace with
  | '-' :: rest => (parseUnsigned rest).map (fun n => -(n : Int))
  | '+' :: rest => (parseUnsigned rest).map (fun n => (n : Int))
  | rest => (parseUnsigned rest).map (fun n => (n : Int))

/-- The filter `cart.filter((item, i) => i !== index)`. -/
def removeIndex (cart : List Entry) (index : Option Int) : List Entry :=
  match index with
  | some (Int.ofNat k) => cart.eraseIdx k
  | _ => cart

/-- The local path of `removeFromCart` (script.js 193-212). -/
def removeLocally (cart : List Entry) (id : JsVal) (text : String) : List Entry :=
  if "temp-".data.isPrefixOf text.data then
    removeIndex cart (parseIntJs (text.data.drop 5))
  else cart.filter (fun item => !strictEq item.id id)

/-- The function `removeFromCart` (script.js 162-212); `none` when `id.toString()`
throws. -/
def removeFromCart (b : Browser) (cart : List Entry) (id : JsVal) : Option Run :=
  match idText b id with
  | none => none
  | some text =>
    if hasToken b && !"temp-".data.isPrefixOf text.data then
      match b.deleteLine with
      | FetchResult.ok _ =>
        some
          { requests := Request.deleteLine text :: (syncCartWithDatabase b cart).requests
            cart := (syncCartWithDatabase b cart).cart }
      | _ =>
        some { requests := [Request.deleteLine text], cart := removeLocally cart id text }
    else some { requests := [], cart := removeLocally cart id text }

/-- The function `clearCart` (script.js 214-243). -/
def clearCart (b : Browser) (cart : List Entry) : Run :=
  if hasToken b then
    match b.deleteCart with
    | FetchResult.ok _ =>
      { requests := Request.deleteCart :: (syncCartWithDatabase b cart).requests
        cart := (syncCartWithDatabase b cart).cart }
    | _ => { requests := [Request.deleteCart], cart := [] }
  else { requests := [], cart := [] }

/-- The argument the Remove button of `displayCart` passes (script.js 279-288): the text
of `item.id`, or of `temp-` followed by the index when the id is falsy. -/
def removeArg (b : Browser) (item : Entry) (index : Nat) : Option String :=
  idText b (item.id.or (JsVal.str ("temp-" ++ toString index)))

/-- A visitor without a credential, at clock 1000; every request would fail. -/
def guestBrowser : Browser :=
  { localToken := none
    sessionToken := none
    userDataThrows := false
    postCart := FetchResult.throws
    deleteLine := FetchResult.throws
    deleteCart := FetchResult.throws
    getCart := FetchResult.throws
    now := 1000
    toText := fun _ => none }

/-- The cart line of the server as the client receives it in JSON. -/
def teeLineJson : JsVal :=
  JsVal.obj
    [("_id", JsVal.str "000000000000000000000064"), ("userId", JsVal.str "0000000000000000000000a1"),
     ("username", JsVal.str "Alice Rao"), ("productName", JsVal.str "Tee"),
     ("price", JsVal.num 300), ("quantity", JsVal.num 2)]

/-- A signed-in visitor whose requests all succeed; the server cart holds two tees. -/
def memberBrowser : Browser :=
  { guestBrowser with
    localToken := some "alice-token"
    postCart := FetchResult.ok JsVal.null
    deleteLine := FetchResult.ok JsVal.null
    deleteCart := FetchResult.ok JsVal.null
    getCart := FetchResult.ok (JsVal.arr [teeLineJson]) }

/-- An entry a guest added earlier, with a number as id. -/
def guestTee : Entry := guestEntry (JsVal.str "Tee") (JsVal.num 300) 1000

/-- A store in which user 162 has three addresses: address 7 from time 5, the default
address 8 from time 6, and address 9 from time 9; user 161 has the default address 4. -/
def listingDb : Db :=
  { sampleDb with
    addresses :=
      [{ addressOf 7 162 false with createdAt := 5 },
       { addressOf 4 161 true with createdAt := 7 },
       { addressOf 8 162 true with createdAt := 6 },
       { addressOf 9 162 false with createdAt := 9 }] }

/-- A store in which user 161 has two cart lines, the address 4 and the order 30 with
two items, and user 162 has a cart line, an address and the order 31 with one item. -/
def shopDb : Db :=
  { sampleDb with
    users :=
      [{ _id := 161, firstName := JsVal.str "Alice", lastName := JsVal.str "Rao"
         email := JsVal.str "alice@example.com" },
       { _id := 162, firstName := JsVal.str "Bob", lastName := JsVal.str "Das"
         email := JsVal.str "bob@example.com" }]
    addresses := [addressOf 4 161 true, bobAddress]
    orders :=
      [{ _id := 30, userId := 161, totalAmount := JsVal.num 610, status := JsVal.str "pending"
         shippingAddress := none, paymentMethod := JsVal.str "cod", utrNumber := JsVal.null
         createdAt := 20 },
       { _id := 31, userId := 162, totalAmount := JsVal.num 900, status := JsVal.str "pending"
         shippingAddress := none, paymentMethod := JsVal.str "card", utrNumber := JsVal.null
         createdAt := 21 },
       { _id := 32, userId := 161, totalAmount := JsVal.num 150, status := JsVal.str "pending"
         shippingAddress := none, paymentMethod := JsVal.str "card", utrNumber := JsVal.null
         createdAt := 25 }]
    orderItems :=
      [{ _id := 40, orderId := 30, productName := JsVal.str "Tee", price := JsVal.num 300
         quantity := JsVal.num 2 },
       { _id := 41, orderId := 30, productName := JsVal.str "Cash on Delivery Charge"
         price := JsVal.num 10, quantity := JsVal.num 1 },
       { _id := 42, orderId := 31, productName := JsVal.str "Jeans", price := JsVal.num 900
         quantity := JsVal.num 1 },
       { _id := 43, orderId := 32, productName := JsVal.str "Cap", price := JsVal.num 150
         quantity := JsVal.num 1 }] }

/-- A checkout body whose one submitted item is `null`, total 600, with the given
payment method. -/
def nullItemBody (paymentMethod : JsVal) : OrderBody :=
  { items := JsVal.arr [JsVal.null]
    totalAmount := JsVal.num 600
    shippingAddressId := JsVal.undefined
    paymentMethod := paymentMethod
    utrNumber := JsVal.undefined }

/-- A card checkout of the scenario item whose `shippingAddressId` is the text `xyz`. -/
def badAddressBody : OrderBody :=
  { items := JsVal.arr [teeItem]
    totalAmount := JsVal.num 600
    shippingAddressId := JsVal.str "xyz"
    paymentMethod := JsVal.str "card"
    utrNumber := JsVal.undefined }

/-- A submitted item that carries a name only. -/
def bareCapItem : JsVal := JsVal.obj [("name", JsVal.str "Cap")]

/-- A checkout body with the scenario item followed by the item that carries a name
only, total 600, with the given payment method. -/
def teeAndBareCapBody (paymentMethod : JsVal) : OrderBody :=
  { items := JsVal.arr [teeItem, bareCapItem]
    totalAmount := JsVal.num 600
    shippingAddressId := JsVal.undefined
    paymentMethod := paymentMethod
    utrNumber := JsVal.undefined }

/-- The store of the examples after user 161 has added a tee to an empty cart with the
text `2` as quantity: the one line carries that text. -/
def textQuantityDb : Db :=
  { sampleDb with cart := [{ firstTeeLine with quantity := JsVal.str "2" }] }

/-- The environment of the examples with the store's filter on a query value of the form
`{"$ne": s}` for a string `s`, the operator "not equal": a stored value satisfies it
when it is not the string `s`. -/
def neFilterEnv : Env :=
  { sampleEnv with
    filterMatches := fun stored q =>
      match q with
      | JsVal.obj [(key, JsVal.str s)] => key == "$ne" && !stored.strictEqStr s
      | _ => false }

/-- An add request whose product name is the object `{"$ne": "zzz"}`, price 150. -/
def neCartBody : CartBody :=
  { productName := JsVal.obj [("$ne", JsVal.str "zzz")]
    price := JsVal.num 150
    quantity := JsVal.undefined }

/-- The store `shopDb` with other order items: order 30 of user 161 holds three pieces
at 9007199254740991, and order 32 of user 161 holds a cap stored without a price. -/
def largePriceDb : Db :=
  { shopDb with
    orderItems :=
      [{ _id := 40, orderId := 30, productName := JsVal.str "Tee"
         price := JsVal.num 9007199254740991, quantity := JsVal.num 3 },
       { _id := 43, orderId := 32, productName := JsVal.str "Cap", price := JsVal.null
         quantity := JsVal.num 2 }] }

/-- The environment of the examples with the runtime's conversion of an object that
carries a property `toString` of its own: such a property, coming from JSON, is not a
function, and the conversion to a number throws. -/
def throwingEnv : Env :=
  { sampleEnv with
    toNumber := fun v =>
      match v with
      | JsVal.obj fields => if fields.any (fun f => f.1 == "toString") then none else some none
      | _ => some none }

/-- A card checkout of one tee whose price is the object `{"toString": null}`. -/
def objectPriceBody : OrderBody :=
  { items :=
      JsVal.arr
        [JsVal.obj
          [("name", JsVal.str "Tee"), ("price", JsVal.obj [("toString", JsVal.null)]),
           ("quantity", JsVal.num 1)]]
    totalAmount := JsVal.num 300
    shippingAddressId := JsVal.undefined
    paymentMethod := JsVal.str "card"
    utrNumber := JsVal.undefined }

/-! ## Lemmas on values -/

theorem JsVal.strictEqStr_iff (v : JsVal) (s : String) :
    v.strictEqStr s = true ↔ v = JsVal.str s := by
  cases v <;> simp [JsVal.strictEqStr]

theorem digit_below_surrogates (c : Char) (h : c.isDigit = true) : c.val < 0x10000 := by
  simp only [Char.isDigit, Bool.and_eq_true, decide_eq_true_eq] at h
  have h2 := h.2
  rw [UInt32.le_def, BitVec.le_def] at h2
  rw [UInt32.lt_def, BitVec.lt_def]
  exact Nat.lt_of_le_of_lt h2 (by decide)

theorem unitSum_of_digits (cs : List Char) (h : ∀ c ∈ cs, c.isDigit = true) :
    (cs.map (fun c => if c.val < 0x10000 then 1 else 2)).sum = cs.length := by
  induction cs with
  | nil => rfl
  | cons c cs ih =>
    have hc := digit_below_surrogates c (h c (List.mem_cons_self c cs))
    have ih2 := ih (fun d hd => h d (List.mem_cons_of_mem c hd))
    simp only [List.map_cons, List.sum_cons, List.length_cons, if_pos hc, ih2]
    omega

theorem jsLength_of_digits (s : String) (h : ∀ c ∈ s.data, c.isDigit = true) :
    jsLength s = s.length := by
  unfold jsLength
  rw [unitSum_of_digits s.data h]
  rfl

/-- The UTR test accepts a string exactly when it has twelve characters, all digits. -/
theorem utr_string_ok_iff (s : String) :
    (jsLength s != 12 || !allDigits s) = false ↔
      s.length = 12 ∧ ∀ c ∈ s.data, c.isDigit = true := by
  constructor
  · intro h
    simp only [Bool.or_eq_false_iff, bne_eq_false_iff_eq, Bool.not_eq_false_eq_eq_true,
      allDigits, Bool.and_eq_true, List.all_eq_true] at h
    obtain ⟨hlen, _, hall⟩ := h
    exact ⟨by rw [← jsLength_of_digits s hall]; exact hlen, hall⟩
  · rintro ⟨hlen, hall⟩
    have hne : s.data ≠ [] := by
      intro h0
      have : s.length = 0 := by
        show s.data.length = 0
        rw [h0]; rfl
      omega
    simp only [Bool.or_eq_false_iff, bne_eq_false_iff_eq, Bool.not_eq_false_eq_eq_true,
      allDigits, Bool.and_eq_true, List.all_eq_true]
    refine ⟨by rw [jsLength_of_digits s hall]; exact hlen, ?_, hall⟩
    simpa using hne

/-- With valid items and a positive numeric total, validation is down to the payment
fields. -/
theorem validateOrder_of_items_total (env : Env) (body : OrderBody) (xs : List JsVal)
    (n : Int) (hitems : body.items = JsVal.arr xs) (hne : xs ≠ [])
    (htot : body.totalAmount = JsVal.num n) (hpos : 0 < n) :
    validateOrder env body =
      if !body.paymentMethod.truthy then Validation.reject "Payment method is required"
      else validateUtr body := by
  have hlen : xs.length ≠ 0 := by
    intro h
    exact hne (List.length_eq_zero.mp h)
  have hn0 : n ≠ 0 := by omega
  have hle : ¬ n ≤ 0 := by omega
  simp [validateOrder, hitems, htot, JsVal.truthy, JsVal.isArray, arrayLength, leZero,
    hlen, hn0, hle]

/-! ## Checkout validation -/

/-- C2: for a checkout with non-empty items, a positive total and payment method
`upi`, validation passes if and only if `utrNumber` is a string of exactly twelve
characters, all of them decimal digits. -/
theorem C2_upi_utr_twelve_digits (env : Env) (body : OrderBody) (xs : List JsVal) (n : Int)
    (hitems : body.items = JsVal.arr xs) (hne : xs ≠ [])
    (htot : body.totalAmount = JsVal.num n) (hpos : 0 < n)
    (hpm : body.paymentMethod = JsVal.str "upi") :
    validateOrder env body = Validation.ok ↔
      ∃ s : String, body.utrNumber = JsVal.str s ∧ s.length = 12 ∧
        ∀ c ∈ s.data, c.isDigit = true := by
  rw [validateOrder_of_items_total env body xs n hitems hne htot hpos]
  have hupi : body.paymentMethod.strictEqStr "upi" = true :=
    (JsVal.strictEqStr_iff _ _).mpr hpm
  have htruthy : body.paymentMethod.truthy = true := by
    rw [hpm]; decide
  simp only [htruthy, Bool.not_true, Bool.false_eq_true, if_false, validateUtr, hupi, if_true]
  constructor
  · intro h
    cases hu : body.utrNumber with
    | str s =>
      rw [hu] at h
      refine ⟨s, rfl, ?_⟩
      apply (utr_string_ok_iff s).mp
      by_cases hc : (jsLength s != 12 || !allDigits s) = true
      · simp [hc] at h
        split at h <;> simp at h
      · simpa using hc
    | undefined => rw [hu] at h; simp [JsVal.truthy] at h
    | null => rw [hu] at h; simp [JsVal.truthy] at h
    | bool b => rw [hu] at h; cases b <;> simp [JsVal.truthy] at h
    | num k => rw [hu] at h; by_cases hk : k = 0 <;> simp [JsVal.truthy, hk] at h
    | arr ys => rw [hu] at h; simp [JsVal.truthy] at h
    | obj fs => rw [hu] at h; simp [JsVal.truthy] at h
  · rintro ⟨s, hs, hlen, hall⟩
    have hok := (utr_string_ok_iff s).mpr ⟨hlen, hall⟩
    have hne0 : s.data ≠ [] := by
      intro h0
      have : s.length = 0 := by
        show s.data.length = 0
        rw [h0]; rfl
      omega
    rw [hs]
    simp only [JsVal.truthy, hok]
    simp [hne0]

/-- C2, at the inputs of the specification: `123456789012` passes and `123456789AB` is
rejected. -/
theorem C2_upi_utr_twelve_digits_witness :
    validateOrder sampleEnv (teeBody (JsVal.str "upi") (JsVal.str "123456789012")) =
        Validation.ok ∧
      validateOrder sampleEnv (teeBody (JsVal.str "upi") (JsVal.str "123456789AB")) ≠
        Validation.ok :=
  ⟨(C2_upi_utr_twelve_digits sampleEnv (teeBody (JsVal.str "upi") (JsVal.str "123456789012"))
      [teeItem] 600 rfl (by simp) rfl (by decide) rfl).mpr
      ⟨"123456789012", rfl, by decide, by decide⟩,
    fun h => by
      obtain ⟨s, hs, hlen, _⟩ :=
        (C2_upi_utr_twelve_digits sampleEnv
          (teeBody (JsVal.str "upi") (JsVal.str "123456789AB"))
          [teeItem] 600 rfl (by simp) rfl (by decide) rfl).mp h
      have hs2 : s = "123456789AB" := by
        have := hs
        simp only [teeBody] at this
        injection this with h1
        exact h1.symm
      rw [hs2] at hlen
      revert hlen
      decide⟩

/-- C3: a checkout that validation rejects answers 400 with the validation error and
leaves the whole store (orders, order items, cart, addresses) as it was. -/
theorem C3_rejected_checkout_writes_nothing (env : Env) (db : Db) (reqUserId : JsVal)
    (body : OrderBody) (e : String) (h : validateOrder env body = Validation.reject e) :
    (postOrders env db reqUserId body).1 = Response.error 400 e ∧
      (postOrders env db reqUserId body).2 = db := by
  simp [postOrders, h]

/-- C4: the total check at a truthy value that is not a number: the boolean `true` as
`totalAmount` is not rejected, and validation passes. -/
theorem C4_total_check_passes_true (env : Env) :
    validateOrder env
      { items := JsVal.arr [teeItem]
        totalAmount := JsVal.bool true
        shippingAddressId := JsVal.undefined
        paymentMethod := JsVal.str "cod"
        utrNumber := JsVal.undefined } = Validation.ok := by
  simp [validateOrder, validateUtr, JsVal.truthy, JsVal.isArray, arrayLength, leZero,
    JsVal.strictEqStr]

/-- C3, at a checkout without items: it is answered 400 and the store is untouched. -/
theorem C3_rejected_checkout_writes_nothing_witness :
    (postOrders sampleEnv sampleDb aliceId
        { items := JsVal.arr []
          totalAmount := JsVal.num 600
          shippingAddressId := JsVal.undefined
          paymentMethod := JsVal.str "cod"
          utrNumber := JsVal.undefined }).1 = Response.error 400 "Items are required" ∧
      (postOrders sampleEnv sampleDb aliceId
        { items := JsVal.arr []
          totalAmount := JsVal.num 600
          shippingAddressId := JsVal.undefined
          paymentMethod := JsVal.str "cod"
          utrNumber := JsVal.undefined }).2 = sampleDb :=
  C3_rejected_checkout_writes_nothing sampleEnv sampleDb aliceId _ "Items are required" rfl

/-- The total check on the values the specification has in mind: an absent or `null`
total and a number that is not positive are rejected with the total error, a positive
number passes this check. -/
theorem total_check_on_numbers (env : Env) (body : OrderBody) (xs : List JsVal)
    (hitems : body.items = JsVal.arr xs) (hne : xs ≠ []) :
    (body.totalAmount = JsVal.undefined ∨ body.totalAmount = JsVal.null →
        validateOrder env body = Validation.reject "Valid total amount is required") ∧
      (∀ n : Int, body.totalAmount = JsVal.num n → n ≤ 0 →
        validateOrder env body = Validation.reject "Valid total amount is required") ∧
      (∀ n : Int, body.totalAmount = JsVal.num n → 0 < n →
        validateOrder env body ≠ Validation.reject "Valid total amount is required") := by
  have hlen : xs.length ≠ 0 := fun h => hne (List.length_eq_zero.mp h)
  refine ⟨?_, ?_, ?_⟩
  · rintro (h | h) <;>
      simp [validateOrder, hitems, h, JsVal.truthy, JsVal.isArray, arrayLength, hlen]
  · intro n hn hle
    by_cases h0 : n = 0
    · simp [validateOrder, hitems, hn, h0, JsVal.truthy, JsVal.isArray, arrayLength, hlen]
    · simp [validateOrder, hitems, hn, h0, JsVal.truthy, JsVal.isArray, arrayLength, hlen,
        leZero, hle]
  · intro n hn hpos
    rw [validateOrder_of_items_total env body xs n hitems hne hn hpos]
    split
    · simp
    · unfold validateUtr
      split
      · split
        · simp
        · split
          · split <;> simp
          · simp
      · simp

/-- The total check lets through every value the runtime converts to `NaN`, such as the
string `abc`. -/
theorem total_check_passes_nan (env : Env) (s : String) (hs : s.data ≠ [])
    (hnan : env.toNumber (JsVal.str s) = some none) :
    validateOrder env
      { items := JsVal.arr [teeItem]
        totalAmount := JsVal.str s
        shippingAddressId := JsVal.undefined
        paymentMethod := JsVal.str "cod"
        utrNumber := JsVal.undefined } = Validation.ok := by
  simp [validateOrder, validateUtr, JsVal.truthy, JsVal.isArray, arrayLength, leZero,
    JsVal.strictEqStr, hs, hnan]

/-- C5: the checks run in the order items, total, payment method, UTR, and the first
failing one decides the error. Items that are absent, not an array or empty give the
items error whatever the other fields are; with valid items, an absent or non-positive
total gives the total error whatever the payment fields are; with valid items and
total, an absent payment method gives the payment-method error; the three errors differ
from one another and from every error of the UTR check. -/
theorem C5_validation_order (env : Env) (body : OrderBody) :
    ((body.items = JsVal.undefined ∨ body.items.isArray = false ∨
          body.items = JsVal.arr []) →
        validateOrder env body = Validation.reject "Items are required") ∧
      (∀ xs : List JsVal, body.items = JsVal.arr xs → xs ≠ [] →
        (body.totalAmount = JsVal.undefined ∨
          ∃ n : Int, body.totalAmount = JsVal.num n ∧ n ≤ 0) →
        validateOrder env body = Validation.reject "Valid total amount is required") ∧
      (∀ (xs : List JsVal) (n : Int), body.items = JsVal.arr xs → xs ≠ [] →
        body.totalAmount = JsVal.num n → 0 < n → body.paymentMethod = JsVal.undefined →
        validateOrder env body = Validation.reject "Payment method is required") ∧
      ("Items are required" ≠ "Valid total amount is required" ∧
        "Items are required" ≠ "Payment method is required" ∧
        "Valid total amount is required" ≠ "Payment method is required") ∧
      (∀ e : String, validateUtr body = Validation.reject e →
        e ≠ "Items are required" ∧ e ≠ "Valid total amount is required" ∧
          e ≠ "Payment method is required") := by
  refine ⟨?_, ?_, ?_, ⟨by decide, by decide, by decide⟩, ?_⟩
  · rintro (h | h | h)
    · simp [validateOrder, h, JsVal.truthy]
    · simp [validateOrder, h]
    · simp [validateOrder, h, JsVal.truthy, JsVal.isArray, arrayLength]
  · intro xs hitems hne htot
    rcases htot with h | ⟨n, hn, hle⟩
    · exact (total_check_on_numbers env body xs hitems hne).1 (Or.inl h)
    · exact (total_check_on_numbers env body xs hitems hne).2.1 n hn hle
  · intro xs n hitems hne htot hpos hpm
    rw [validateOrder_of_items_total env body xs n hitems hne htot hpos]
    simp [hpm, JsVal.truthy]
  · intro e he
    unfold validateUtr at he
    split at he
    · split at he
      · injection he with h1
        subst h1
        exact ⟨by decide, by decide, by decide⟩
      · split at he
        · split at he
          · injection he with h1
            subst h1
            exact ⟨by decide, by decide, by decide⟩
          · cases he
        · injection he with h1
          subst h1
          exact ⟨by decide, by decide, by decide⟩
    · cases he

/-- C5, at three checkouts: no items with a bad total and no payment method gives the
items error; one item with total 0 and no payment method gives the total error; one
item with total 600 and no payment method gives the payment-method error. -/
theorem C5_validation_order_witness :
    validateOrder sampleEnv
        { items := JsVal.undefined, totalAmount := JsVal.num 0
          shippingAddressId := JsVal.undefined, paymentMethod := JsVal.undefined
          utrNumber := JsVal.undefined } = Validation.reject "Items are required" ∧
      validateOrder sampleEnv
        { items := JsVal.arr [teeItem], totalAmount := JsVal.num 0
          shippingAddressId := JsVal.undefined, paymentMethod := JsVal.undefined
          utrNumber := JsVal.undefined } =
        Validation.reject "Valid total amount is required" ∧
      validateOrder sampleEnv (teeBody JsVal.undefined JsVal.undefined) =
        Validation.reject "Payment method is required" :=
  ⟨(C5_validation_order sampleEnv _).1 (Or.inl rfl),
    (C5_validation_order sampleEnv _).2.1 [teeItem] rfl (by simp)
      (Or.inr ⟨0, rfl, le_refl 0⟩),
    (C5_validation_order sampleEnv _).2.2.1 [teeItem] 600 rfl (by simp) rfl (by decide) rfl⟩

/-! ## Checkout: what is persisted -/

theorem getProp_of_readable (it : JsVal) (k : String)
    (h : it ≠ JsVal.null ∧ it ≠ JsVal.undefined) : ∃ v, it.getProp k = some v := by
  cases it with
  | undefined => exact absurd rfl h.2
  | null => exact absurd rfl h.1
  | bool b => exact ⟨_, rfl⟩
  | num n => exact ⟨_, rfl⟩
  | str t => exact ⟨_, rfl⟩
  | arr ys => exact ⟨_, rfl⟩
  | obj fs => exact ⟨_, rfl⟩

/-- On items none of which is `null` or `undefined` the mapping does not throw and
yields, in order, one order item per submitted item with its name, price and quantity. -/
theorem mapItems_of_readable (orderId : ObjectId) (xs : List JsVal)
    (h : ∀ it ∈ xs, it ≠ JsVal.null ∧ it ≠ JsVal.undefined) :
    ∃ mapped, mapItems orderId xs = some mapped ∧
      List.Forall₂
        (fun it x =>
          x.orderId = orderId ∧ it.getProp "name" = some x.productName ∧
            it.getProp "price" = some x.price ∧ it.getProp "quantity" = some x.quantity)
        xs mapped := by
  induction xs with
  | nil => exact ⟨[], rfl, List.Forall₂.nil⟩
  | cons it rest ih =>
    obtain ⟨mapped, hm, hall⟩ := ih (fun j hj => h j (List.mem_cons_of_mem it hj))
    have hit := h it (List.mem_cons_self it rest)
    obtain ⟨vn, hn⟩ := getProp_of_readable it "name" hit
    obtain ⟨vp, hp⟩ := getProp_of_readable it "price" hit
    obtain ⟨vq, hq⟩ := getProp_of_readable it "quantity" hit
    refine ⟨{ orderId := orderId, productName := vn, price := vp, quantity := vq } :: mapped,
      ?_, List.Forall₂.cons ⟨rfl, hn, hp, hq⟩ hall⟩
    simp [mapItems, mapItem, hn, hp, hq, hm]

theorem withIds_fields (gen : Nat → ObjectId) (k : Nat) (ys : List OrderItemFields) :
    (withIds gen k ys).map OrderItem.toOrderItemFields = ys.map storedItem := by
  induction ys generalizing k with
  | nil => rfl
  | cons y ys ih => simp [withIds, ih]

/-- The mapped items as the driver writes them: each carries the name, price and
quantity read from the submitted item, `null` standing for a field the item lacks. -/
theorem storedItems_of_mapped (orderId : ObjectId) (xs : List JsVal)
    (mapped : List OrderItemFields)
    (h : List.Forall₂
      (fun it x =>
        x.orderId = orderId ∧ it.getProp "name" = some x.productName ∧
          it.getProp "price" = some x.price ∧ it.getProp "quantity" = some x.quantity)
      xs mapped) :
    List.Forall₂
      (fun it x =>
        x.orderId = orderId ∧ (it.getProp "name").map JsVal.stored = some x.productName ∧
          (it.getProp "price").map JsVal.stored = some x.price ∧
          (it.getProp "quantity").map JsVal.stored = some x.quantity)
      xs (mapped.map storedItem) := by
  induction h with
  | nil => exact List.Forall₂.nil
  | cons hx _ ih =>
    obtain ⟨h1, h2, h3, h4⟩ := hx
    refine List.Forall₂.cons ⟨h1, ?_, ?_, ?_⟩ ih
    · rw [h2]; rfl
    · rw [h3]; rfl
    · rw [h4]; rfl

theorem lookupShippingAddress_total (env : Env) (db : Db) (sid : JsVal)
    (h : sid.truthy = true → ∃ a, env.objectId sid = some a) :
    ∃ sa, lookupShippingAddress env db sid = some sa := by
  unfold lookupShippingAddress
  by_cases ht : sid.truthy = true
  · obtain ⟨a, ha⟩ := h ht
    simp [ht, ha]
  · simp [ht]

/-- C7 as stated fails: a card checkout of the scenario item with `shippingAddressId`
equal to the text `xyz` passes validation, yet the `ObjectId` constructor throws on
`xyz` before the header is built: the answer is 500 and the store, its orders included,
is as it was, so no header has been inserted. -/
theorem C7_bad_address_id_inserts_no_header :
    validateOrder sampleEnv badAddressBody = Validation.ok ∧
      sampleEnv.objectId badAddressBody.shippingAddressId = none ∧
      postOrders sampleEnv sampleDb aliceId badAddressBody =
        (Response.error 500 ("Error creating order: " ++ sampleEnv.errorMessage), sampleDb) ∧
      (postOrders sampleEnv sampleDb aliceId badAddressBody).2.orders = sampleDb.orders :=
  ⟨rfl, rfl, rfl, rfl⟩

/-- C7, amended: a checkout that passes validation, made by a principal whose id the
`ObjectId` constructor accepts and whose `shippingAddressId` is falsy or an id the
constructor accepts, inserts exactly one order header; its owner is the calling
principal, its status is `pending`, its total and payment method are the request's (no
surcharge is added to the total), and its `utrNumber` is the request's when the payment
method is `upi` and `null` for every other payment method. -/
theorem C7_order_header (env : Env) (db : Db) (reqUserId : JsVal) (body : OrderBody)
    (u : ObjectId) (hv : validateOrder env body = Validation.ok)
    (hu : env.objectId reqUserId = some u)
    (hsid : body.shippingAddressId.truthy = true →
      ∃ a, env.objectId body.shippingAddressId = some a) :
    ∃ hdr : Order,
      (postOrders env db reqUserId body).2.orders = db.orders ++ [hdr] ∧
        hdr.userId = u ∧ hdr.status = JsVal.str "pending" ∧
        hdr.totalAmount = body.totalAmount ∧ hdr.paymentMethod = body.paymentMethod ∧
        (body.paymentMethod = JsVal.str "upi" → hdr.utrNumber = body.utrNumber) ∧
        (body.paymentMethod ≠ JsVal.str "upi" → hdr.utrNumber = JsVal.null) := by
  obtain ⟨sa, hsa⟩ := lookupShippingAddress_total env db body.shippingAddressId hsid
  have hutr1 : body.paymentMethod = JsVal.str "upi" →
      (if body.paymentMethod.strictEqStr "upi" = true then body.utrNumber else JsVal.null) =
        body.utrNumber := by
    intro h
    rw [if_pos ((JsVal.strictEqStr_iff _ _).mpr h)]
  have hutr2 : body.paymentMethod ≠ JsVal.str "upi" →
      (if body.paymentMethod.strictEqStr "upi" = true then body.utrNumber else JsVal.null) =
        JsVal.null := by
    intro h
    rw [if_neg (fun hc => h ((JsVal.strictEqStr_iff _ _).mp hc))]
  simp only [postOrders, hv, hsa, hu]
  cases hm : mapItems (env.genId 0) (arrayElems body.items) with
  | none => exact ⟨_, rfl, rfl, rfl, rfl, rfl, hutr1, hutr2⟩
  | some mapped => exact ⟨_, rfl, rfl, rfl, rfl, rfl, hutr1, hutr2⟩

/-- C7, at a card checkout that carries a UTR: one header is inserted for user 161, with
status `pending`, total 600 and a `null` UTR; the orders of the store afterwards are
that one header. -/
theorem C7_order_header_witness :
    (∃ hdr : Order,
      (postOrders sampleEnv sampleDb aliceId
          (teeBody (JsVal.str "card") (JsVal.str "123456789012"))).2.orders =
        sampleDb.orders ++ [hdr] ∧
        hdr.userId = 161 ∧ hdr.status = JsVal.str "pending" ∧
        hdr.totalAmount = JsVal.num 600 ∧ hdr.paymentMethod = JsVal.str "card" ∧
        hdr.utrNumber = JsVal.null) ∧
      (postOrders sampleEnv sampleDb aliceId
          (teeBody (JsVal.str "card") (JsVal.str "123456789012"))).2.orders =
        [{ _id := 100, userId := 161, totalAmount := JsVal.num 600
           status := JsVal.str "pending", shippingAddress := none
           paymentMethod := JsVal.str "card", utrNumber := JsVal.null, createdAt := 1000 }] := by
  obtain ⟨hdr, h1, h2, h3, h4, h5, _, h7⟩ :=
    C7_order_header sampleEnv sampleDb aliceId
      (teeBody (JsVal.str "card") (JsVal.str "123456789012")) 161 rfl rfl
      (fun h => absurd h (by decide))
  exact ⟨⟨hdr, h1, h2, h3, h4, h5, h7 (by simp [teeBody])⟩, rfl⟩

/-- The order-item documents a successful checkout adds are the mapped items as the
driver writes them, with the surcharge line after them when the payment method is
`cod`. -/
theorem postOrders_persists (env : Env) (db : Db) (reqUserId : JsVal) (body : OrderBody)
    (u : ObjectId) (mapped : List OrderItemFields)
    (hv : validateOrder env body = Validation.ok)
    (hu : env.objectId reqUserId = some u)
    (hsid : body.shippingAddressId.truthy = true →
      ∃ a, env.objectId body.shippingAddressId = some a)
    (hm : mapItems (env.genId 0) (arrayElems body.items) = some mapped) :
    (postOrders env db reqUserId body).1 =
        Response.created "Order created successfully" (env.genId 0) ∧
      (postOrders env db reqUserId body).2.orderItems =
        db.orderItems ++ withIds env.genId 1
          (if body.paymentMethod.strictEqStr "cod" = true then
            mapped ++ [codCharge (env.genId 0)]
          else mapped) := by
  obtain ⟨sa, hsa⟩ := lookupShippingAddress_total env db body.shippingAddressId hsid
  simp only [postOrders, hv, hsa, hu, hm]
  exact ⟨trivial, trivial⟩

/-- C1 as stated fails: a `cod` checkout whose one submitted item is `null` passes
validation, the header is inserted, and reading `item.name` then throws: the answer is
500 and no order item is persisted, neither for the submitted item nor for the
surcharge. -/
theorem C1_null_item_persists_nothing :
    validateOrder sampleEnv (nullItemBody (JsVal.str "cod")) = Validation.ok ∧
      (postOrders sampleEnv sampleDb aliceId (nullItemBody (JsVal.str "cod"))).1 =
        Response.error 500 ("Error creating order: " ++ sampleEnv.errorMessage) ∧
      (postOrders sampleEnv sampleDb aliceId (nullItemBody (JsVal.str "cod"))).2.orders.length =
        sampleDb.orders.length + 1 ∧
      (postOrders sampleEnv sampleDb aliceId (nullItemBody (JsVal.str "cod"))).2.orderItems =
        [] ∧
      (postOrders sampleEnv sampleDb aliceId (nullItemBody (JsVal.str "cod"))).2.cart =
        sampleDb.cart :=
  ⟨rfl, rfl, rfl, rfl, rfl⟩

/-- C1, amended: a checkout that passes validation with payment method `cod` and n
submitted items, none of which is `null`, made by a principal whose id the `ObjectId`
constructor accepts and whose `shippingAddressId` is falsy or an id the constructor
accepts, is answered with the new order id and persists n+1 order items: the n
submitted items mapped in order (each with the id of the new order and the name, price
and quantity of the submitted item, `null` for a field the item lacks), followed by the
one line `Cash on Delivery Charge`, price 10, quantity 1. -/
theorem C1_cod_surcharge_line (env : Env) (db : Db) (reqUserId : JsVal) (body : OrderBody)
    (xs : List JsVal) (u : ObjectId)
    (hv : validateOrder env body = Validation.ok)
    (hitems : body.items = JsVal.arr xs)
    (hread : ∀ it ∈ xs, it ≠ JsVal.null ∧ it ≠ JsVal.undefined)
    (hu : env.objectId reqUserId = some u)
    (hsid : body.shippingAddressId.truthy = true →
      ∃ a, env.objectId body.shippingAddressId = some a)
    (hcod : body.paymentMethod = JsVal.str "cod") :
    ∃ (added : List OrderItem) (mapped : List OrderItemFields),
      (postOrders env db reqUserId body).1 =
          Response.created "Order created successfully" (env.genId 0) ∧
        (postOrders env db reqUserId body).2.orderItems = db.orderItems ++ added ∧
        added.map OrderItem.toOrderItemFields =
          mapped ++
            [{ orderId := env.genId 0, productName := JsVal.str "Cash on Delivery Charge"
               price := JsVal.num 10, quantity := JsVal.num 1 }] ∧
        List.Forall₂
          (fun it x =>
            x.orderId = env.genId 0 ∧
              (it.getProp "name").map JsVal.stored = some x.productName ∧
              (it.getProp "price").map JsVal.stored = some x.price ∧
              (it.getProp "quantity").map JsVal.stored = some x.quantity)
          xs mapped ∧
        added.length = xs.length + 1 := by
  obtain ⟨mapped, hm, hall⟩ := mapItems_of_readable (env.genId 0) xs hread
  have hm2 : mapItems (env.genId 0) (arrayElems body.items) = some mapped := by
    rw [hitems]; exact hm
  obtain ⟨h1, h2⟩ := postOrders_persists env db reqUserId body u mapped hv hu hsid hm2
  rw [if_pos ((JsVal.strictEqStr_iff _ _).mpr hcod)] at h2
  have hf := withIds_fields env.genId 1 (mapped ++ [codCharge (env.genId 0)])
  rw [List.map_append] at hf
  have hall2 := storedItems_of_mapped (env.genId 0) xs mapped hall
  refine ⟨_, mapped.map storedItem, h1, h2, hf, hall2, ?_⟩
  have hl := congrArg List.length hf
  rw [List.length_map] at hl
  rw [hl, List.length_append, ← hall2.length_eq]
  rfl

/-- C1, at the scenario of the specification: one tee line, total 600, `cod`. Two order
items are persisted, the tee twice at 300 and the charge once at 10, both with the id
100 of the new order. -/
theorem C1_cod_surcharge_line_witness :
    (∃ (added : List OrderItem) (mapped : List OrderItemFields),
      (postOrders sampleEnv sampleDb aliceId (teeBody (JsVal.str "cod") JsVal.undefined)).1 =
          Response.created "Order created successfully" 100 ∧
        (postOrders sampleEnv sampleDb aliceId
            (teeBody (JsVal.str "cod") JsVal.undefined)).2.orderItems =
          sampleDb.orderItems ++ added ∧
        added.map OrderItem.toOrderItemFields =
          mapped ++
            [{ orderId := 100, productName := JsVal.str "Cash on Delivery Charge"
               price := JsVal.num 10, quantity := JsVal.num 1 }] ∧
        List.Forall₂
          (fun it x =>
            x.orderId = 100 ∧
              (it.getProp "name").map JsVal.stored = some x.productName ∧
              (it.getProp "price").map JsVal.stored = some x.price ∧
              (it.getProp "quantity").map JsVal.stored = some x.quantity)
          [teeItem] mapped ∧
        added.length = 2) ∧
      (postOrders sampleEnv sampleDb aliceId
          (teeBody (JsVal.str "cod") JsVal.undefined)).2.orderItems =
        [{ _id := 101, orderId := 100, productName := JsVal.str "Tee"
           price := JsVal.num 300, quantity := JsVal.num 2 },
         { _id := 102, orderId := 100, productName := JsVal.str "Cash on Delivery Charge"
           price := JsVal.num 10, quantity := JsVal.num 1 }] :=
  ⟨C1_cod_surcharge_line sampleEnv sampleDb aliceId
      (teeBody (JsVal.str "cod") JsVal.undefined) [teeItem] 161 rfl rfl
      (by
        intro it hit
        rw [List.mem_singleton] at hit
        subst hit
        exact ⟨by simp [teeItem], by simp [teeItem]⟩)
      rfl (fun h => absurd h (by decide)) rfl,
    rfl⟩

/-- C8 as stated fails: a card checkout whose one submitted item is `null` passes
validation, the header is inserted, and reading `item.name` then throws: the answer is
500, one header is in the store without any order item, and nothing was persisted for
the submitted item. -/
theorem C8_null_item_leaves_orphan_header :
    validateOrder sampleEnv (nullItemBody (JsVal.str "card")) = Validation.ok ∧
      (nullItemBody (JsVal.str "card")).items = JsVal.arr [JsVal.null] ∧
      (postOrders sampleEnv sampleDb aliceId (nullItemBody (JsVal.str "card"))).1 =
        Response.error 500 ("Error creating order: " ++ sampleEnv.errorMessage) ∧
      (postOrders sampleEnv sampleDb aliceId (nullItemBody (JsVal.str "card"))).2.orders.map
          (fun o => o._id) = [100] ∧
      (postOrders sampleEnv sampleDb aliceId (nullItemBody (JsVal.str "card"))).2.orderItems =
        [] :=
  ⟨rfl, rfl, rfl, rfl, rfl⟩

/-- C8, amended: a checkout that passes validation with a payment method other than
`cod` and n submitted items, none of which is `null`, made by a principal whose id the
`ObjectId` constructor accepts and whose `shippingAddressId` is falsy or an id the
constructor accepts, is answered with the new order id and persists exactly n order
items, in the submitted order, the i-th with the id of the new order and the name, price
and quantity of the i-th submitted item, `null` for a field the item lacks; the values
come from the request whatever the catalog holds, and no surcharge line is added. -/
theorem C8_items_mapped_in_order (env : Env) (db : Db) (reqUserId : JsVal)
    (body : OrderBody) (xs : List JsVal) (u : ObjectId)
    (hv : validateOrder env body = Validation.ok)
    (hitems : body.items = JsVal.arr xs)
    (hread : ∀ it ∈ xs, it ≠ JsVal.null ∧ it ≠ JsVal.undefined)
    (hu : env.objectId reqUserId = some u)
    (hsid : body.shippingAddressId.truthy = true →
      ∃ a, env.objectId body.shippingAddressId = some a)
    (hpm : body.paymentMethod ≠ JsVal.str "cod") :
    ∃ added : List OrderItem,
      (postOrders env db reqUserId body).1 =
          Response.created "Order created successfully" (env.genId 0) ∧
        (postOrders env db reqUserId body).2.orderItems = db.orderItems ++ added ∧
        List.Forall₂
          (fun it x =>
            x.orderId = env.genId 0 ∧
              (it.getProp "name").map JsVal.stored = some x.productName ∧
              (it.getProp "price").map JsVal.stored = some x.price ∧
              (it.getProp "quantity").map JsVal.stored = some x.quantity)
          xs (added.map OrderItem.toOrderItemFields) ∧
        added.length = xs.length := by
  obtain ⟨mapped, hm, hall⟩ := mapItems_of_readable (env.genId 0) xs hread
  have hm2 : mapItems (env.genId 0) (arrayElems body.items) = some mapped := by
    rw [hitems]; exact hm
  obtain ⟨h1, h2⟩ := postOrders_persists env db reqUserId body u mapped hv hu hsid hm2
  rw [if_neg (fun hc => hpm ((JsVal.strictEqStr_iff _ _).mp hc))] at h2
  have hf := withIds_fields env.genId 1 mapped
  have hall2 := storedItems_of_mapped (env.genId 0) xs mapped hall
  refine ⟨_, h1, h2, by rw [hf]; exact hall2, ?_⟩
  have hl := congrArg List.length hf
  rw [List.length_map] at hl
  rw [hl, ← hall2.length_eq]

/-- C8, at a card checkout of a tee line priced 300, while the catalog lists the tee at
999, followed by an item that carries a name only: the two order items persisted are
the tee twice at 300 and the cap with `null` as price and quantity, both with the id 100
of the new order. -/
theorem C8_items_mapped_in_order_witness :
    (∃ added : List OrderItem,
      (postOrders sampleEnv sampleDb aliceId (teeAndBareCapBody (JsVal.str "card"))).1 =
          Response.created "Order created successfully" 100 ∧
        (postOrders sampleEnv sampleDb aliceId
            (teeAndBareCapBody (JsVal.str "card"))).2.orderItems =
          sampleDb.orderItems ++ added ∧
        List.Forall₂
          (fun it x =>
            x.orderId = 100 ∧
              (it.getProp "name").map JsVal.stored = some x.productName ∧
              (it.getProp "price").map JsVal.stored = some x.price ∧
              (it.getProp "quantity").map JsVal.stored = some x.quantity)
          [teeItem, bareCapItem] (added.map OrderItem.toOrderItemFields) ∧
        added.length = 2) ∧
      (postOrders sampleEnv sampleDb aliceId
          (teeAndBareCapBody (JsVal.str "card"))).2.orderItems =
        [{ _id := 101, orderId := 100, productName := JsVal.str "Tee"
           price := JsVal.num 300, quantity := JsVal.num 2 },
         { _id := 102, orderId := 100, productName := JsVal.str "Cap"
           price := JsVal.null, quantity := JsVal.null }] :=
  ⟨C8_items_mapped_in_order sampleEnv sampleDb aliceId
      (teeAndBareCapBody (JsVal.str "card")) [teeItem, bareCapItem] 161 rfl rfl
      (by
        intro it hit
        simp only [List.mem_cons, List.mem_singleton, List.not_mem_nil, or_false] at hit
        rcases hit with h | h <;> subst h
        · exact ⟨by simp [teeItem], by simp [teeItem]⟩
        · exact ⟨by simp [bareCapItem], by simp [bareCapItem]⟩)
      rfl (fun h => absurd h (by decide)) (by simp [teeAndBareCapBody]),
    rfl⟩

/-- C6: after a checkout that succeeds, the cart holds no line of the owner, whatever
it held before and whatever the submitted items were, and for every other owner the
lines are the ones held before. -/
theorem C6_cart_cleared (env : Env) (db : Db) (reqUserId : JsVal) (body : OrderBody)
    (msg : String) (orderId : ObjectId)
    (h : (postOrders env db reqUserId body).1 = Response.created msg orderId) :
    ∃ u : ObjectId, env.objectId reqUserId = some u ∧
      (∀ l ∈ (postOrders env db reqUserId body).2.cart, l.userId ≠ u) ∧
      (∀ v : ObjectId, v ≠ u →
        (postOrders env db reqUserId body).2.cart.filter (fun l => l.userId == v) =
          db.cart.filter (fun l => l.userId == v)) := by
  unfold postOrders at h ⊢
  cases hv : validateOrder env body with
  | reject e => rw [hv] at h; cases h
  | throws => rw [hv] at h; cases h
  | ok =>
    rw [hv] at h
    simp only at h ⊢
    cases hsa : lookupShippingAddress env db body.shippingAddressId with
    | none => rw [hsa] at h; cases h
    | some sa =>
      rw [hsa] at h
      simp only at h ⊢
      cases hu : env.objectId reqUserId with
      | none => rw [hu] at h; cases h
      | some u =>
        rw [hu] at h
        simp only at h ⊢
        cases hm : mapItems (env.genId 0) (arrayElems body.items) with
        | none => rw [hm] at h; cases h
        | some mapped =>
          refine ⟨u, rfl, ?_, ?_⟩
          · intro l hl
            simp only [List.mem_filter, bne_iff_ne] at hl
            exact hl.2
          · intro v hv2
            simp only [List.filter_filter]
            apply List.filter_congr
            intro l _
            by_cases hlv : l.userId = v
            · subst hlv
              simp [hv2]
            · simp [hlv]

/-- C6, at the scenario checkout by user 161, whose cart holds a tee and a shirt: the
order is created, no line of user 161 is left and user 162 keeps the jeans line. -/
theorem C6_cart_cleared_witness :
    ∃ u : ObjectId, sampleEnv.objectId aliceId = some u ∧
      (∀ l ∈ (postOrders sampleEnv sampleDb aliceId
          (teeBody (JsVal.str "cod") JsVal.undefined)).2.cart, l.userId ≠ u) ∧
      (∀ v : ObjectId, v ≠ u →
        (postOrders sampleEnv sampleDb aliceId
            (teeBody (JsVal.str "cod") JsVal.undefined)).2.cart.filter
              (fun l => l.userId == v) =
          sampleDb.cart.filter (fun l => l.userId == v)) :=
  C6_cart_cleared sampleEnv sampleDb aliceId (teeBody (JsVal.str "cod") JsVal.undefined)
    "Order created successfully" 100 rfl

/-! ## Checkout: ids the constructor rejects -/

/-- When the `ObjectId` constructor throws on the principal id or on a truthy
`shippingAddressId`, the checkout answers 500 and the store is as it was. -/
theorem postOrders_bad_id (env : Env) (db : Db) (reqUserId : JsVal) (body : OrderBody)
    (hv : validateOrder env body = Validation.ok)
    (hbad : env.objectId reqUserId = none ∨
      (body.shippingAddressId.truthy = true ∧ env.objectId body.shippingAddressId = none)) :
    postOrders env db reqUserId body = (orderServerError env, db) := by
  unfold postOrders
  rw [hv]
  simp only
  cases hsa : lookupShippingAddress env db body.shippingAddressId with
  | none => rfl
  | some sa =>
    simp only
    rcases hbad with hu | ⟨ht, hs⟩
    · rw [hu]
    · simp [lookupShippingAddress, ht, hs] at hsa

/-! ## Checkout: the shipping-address snapshot -/

/-- The header a checkout inserts once validation has passed and the address lookup and
the principal id have gone through. -/
theorem postOrders_header (env : Env) (db : Db) (reqUserId : JsVal) (body : OrderBody)
    (u : ObjectId) (sa : Option Address)
    (hv : validateOrder env body = Validation.ok)
    (hu : env.objectId reqUserId = some u)
    (hsa : lookupShippingAddress env db body.shippingAddressId = some sa) :
    ∃ hdr : Order,
      (postOrders env db reqUserId body).2.orders = db.orders ++ [hdr] ∧
        hdr.shippingAddress = sa.map snapshotOf := by
  simp only [postOrders, hv, hsa, hu]
  cases hm : mapItems (env.genId 0) (arrayElems body.items) with
  | none => exact ⟨_, rfl, rfl⟩
  | some mapped => exact ⟨_, rfl, rfl⟩

/-- C9 as stated fails: user 161 checks out with the id of the address of user 162, which
was stored with an empty country. Validation passes, the address exists, one header is
inserted with a snapshot, and the country of the snapshot is `IN`, not the country of
the address. -/
theorem C9_snapshot_not_a_copy :
    validateOrder sampleEnv bobAddressBody = Validation.ok ∧
      sampleEnv.objectId bobAddressBody.shippingAddressId = some bobAddress._id ∧
      bobAddress ∈ sampleDb.addresses ∧
      ∃ (hdr : Order) (snap : Snapshot),
        (postOrders sampleEnv sampleDb aliceId bobAddressBody).2.orders =
            sampleDb.orders ++ [hdr] ∧
          hdr.shippingAddress = some snap ∧
          snap.country = JsVal.str "IN" ∧ bobAddress.country = JsVal.str "" ∧
          snap.country ≠ bobAddress.country := by
  refine ⟨rfl, rfl, by simp [sampleDb], _, _, rfl, rfl, rfl, rfl, ?_⟩
  intro h
  have h2 : JsVal.str "IN" = JsVal.str "" := h
  injection h2 with h3
  exact absurd h3 (by decide)

/-- C9, amended: for a checkout that passes validation, made by a principal whose id the
`ObjectId` constructor accepts: if `shippingAddressId` is truthy, denotes an id, and
an address with that id is in the store, whoever owns it, then the inserted header has
a snapshot taken from an address with that id, in which name, email, phone, house, city,
state and zipCode are the field of the address when that is truthy and the empty string
otherwise, country is the field of the address when truthy and `IN` otherwise, and
street is the `address` field of the address when truthy, else its `street` field
when truthy, else the empty string; if `shippingAddressId` is falsy, or denotes an id
no address has, the snapshot is `null`. -/
theorem C9_snapshot_fields (env : Env) (db : Db) (reqUserId : JsVal) (body : OrderBody)
    (u : ObjectId) (hv : validateOrder env body = Validation.ok)
    (hu : env.objectId reqUserId = some u) :
    (∀ sid : ObjectId, body.shippingAddressId.truthy = true →
        env.objectId body.shippingAddressId = some sid →
        (∃ a ∈ db.addresses, a._id = sid) →
        ∃ (hdr : Order) (a : Address) (snap : Snapshot),
          (postOrders env db reqUserId body).2.orders = db.orders ++ [hdr] ∧
            a ∈ db.addresses ∧ a._id = sid ∧ hdr.shippingAddress = some snap ∧
            snap.name = (if a.name.truthy then a.name else JsVal.str "") ∧
            snap.email = (if a.email.truthy then a.email else JsVal.str "") ∧
            snap.phone = (if a.phone.truthy then a.phone else JsVal.str "") ∧
            snap.house = (if a.house.truthy then a.house else JsVal.str "") ∧
            snap.street =
              (if a.address.truthy then a.address
                else if a.street.truthy then a.street else JsVal.str "") ∧
            snap.city = (if a.city.truthy then a.city else JsVal.str "") ∧
            snap.state = (if a.state.truthy then a.state else JsVal.str "") ∧
            snap.zipCode = (if a.zipCode.truthy then a.zipCode else JsVal.str "") ∧
            snap.country = (if a.country.truthy then a.country else JsVal.str "IN")) ∧
      ((body.shippingAddressId.truthy = false ∨
          ∃ sid : ObjectId, env.objectId body.shippingAddressId = some sid ∧
            ∀ a ∈ db.addresses, a._id ≠ sid) →
        ∃ hdr : Order,
          (postOrders env db reqUserId body).2.orders = db.orders ++ [hdr] ∧
            hdr.shippingAddress = none) := by
  constructor
  · intro sid ht hsid hex
    obtain ⟨a0, ha0, hid0⟩ := hex
    have hsome : (db.addresses.find? (fun x => x._id == sid)).isSome = true := by
      rw [List.find?_isSome]
      exact ⟨a0, ha0, by simp [hid0]⟩
    obtain ⟨a, ha⟩ := Option.isSome_iff_exists.mp hsome
    have hlook : lookupShippingAddress env db body.shippingAddressId = some (some a) := by
      simp [lookupShippingAddress, ht, hsid, ha]
    obtain ⟨hdr, h1, h2⟩ := postOrders_header env db reqUserId body u (some a) hv hu hlook
    have hmem : a ∈ db.addresses := List.mem_of_find?_eq_some ha
    have hid : a._id = sid := by
      have := List.find?_some ha
      simpa using this
    refine ⟨hdr, a, snapshotOf a, h1, hmem, hid, h2, ?_⟩
    refine ⟨rfl, rfl, rfl, rfl, ?_, rfl, rfl, rfl, rfl⟩
    show (a.address.or a.street).or (JsVal.str "") = _
    unfold JsVal.or
    by_cases hadr : a.address.truthy = true
    · simp [hadr]
    · simp [hadr]
  · intro h
    have hlook : lookupShippingAddress env db body.shippingAddressId = some none := by
      rcases h with hf | ⟨sid, hsid, hno⟩
      · simp [lookupShippingAddress, hf]
      · unfold lookupShippingAddress
        by_cases ht : body.shippingAddressId.truthy = true
        · have hnone : db.addresses.find? (fun x => x._id == sid) = none := by
            rw [List.find?_eq_none]
            intro a ha
            simpa using hno a ha
          simp [ht, hsid, hnone]
        · simp [ht]
    obtain ⟨hdr, h1, h2⟩ := postOrders_header env db reqUserId body u none hv hu hlook
    exact ⟨hdr, h1, h2⟩

/-- C9 amended, at the checkout of user 161 with the address of user 162: the header
carries a snapshot of that address, and at the same checkout without an address id the
snapshot is `null`. -/
theorem C9_snapshot_fields_witness :
    (∃ (hdr : Order) (a : Address) (snap : Snapshot),
        (postOrders sampleEnv sampleDb aliceId bobAddressBody).2.orders =
            sampleDb.orders ++ [hdr] ∧
          a ∈ sampleDb.addresses ∧ a._id = 7 ∧ hdr.shippingAddress = some snap ∧
          snap.name = (if a.name.truthy then a.name else JsVal.str "") ∧
          snap.email = (if a.email.truthy then a.email else JsVal.str "") ∧
          snap.phone = (if a.phone.truthy then a.phone else JsVal.str "") ∧
          snap.house = (if a.house.truthy then a.house else JsVal.str "") ∧
          snap.street =
            (if a.address.truthy then a.address
              else if a.street.truthy then a.street else JsVal.str "") ∧
          snap.city = (if a.city.truthy then a.city else JsVal.str "") ∧
          snap.state = (if a.state.truthy then a.state else JsVal.str "") ∧
          snap.zipCode = (if a.zipCode.truthy then a.zipCode else JsVal.str "") ∧
          snap.country = (if a.country.truthy then a.country else JsVal.str "IN")) ∧
      ∃ hdr : Order,
        (postOrders sampleEnv sampleDb aliceId
            (teeBody (JsVal.str "card") JsVal.undefined)).2.orders =
          sampleDb.orders ++ [hdr] ∧
          hdr.shippingAddress = none :=
  ⟨(C9_snapshot_fields sampleEnv sampleDb aliceId bobAddressBody 161 rfl rfl).1 7
      (by decide) rfl ⟨bobAddress, by simp [sampleDb], rfl⟩,
    (C9_snapshot_fields sampleEnv sampleDb aliceId
      (teeBody (JsVal.str "card") JsVal.undefined) 161 rfl rfl).2 (Or.inl rfl)⟩

/-! ## Address routes and the order stores -/

/-- C10: creating, updating or deleting an address, by any principal and with any input,
leaves the orders and the order items as they were; the snapshot inside every existing
order is therefore the same afterwards. -/
theorem C10_address_routes_keep_orders (env : Env) (db : Db) (reqUserId : JsVal)
    (paramId : String) (body : AddressBody) :
    ((postAddress env db reqUserId body).2.orders = db.orders ∧
        (postAddress env db reqUserId body).2.orderItems = db.orderItems) ∧
      ((putAddress env db reqUserId paramId body).2.orders = db.orders ∧
        (putAddress env db reqUserId paramId body).2.orderItems = db.orderItems) ∧
      ((deleteAddress env db reqUserId paramId).2.orders = db.orders ∧
        (deleteAddress env db reqUserId paramId).2.orderItems = db.orderItems) := by
  refine ⟨?_, ?_, ?_⟩
  · unfold postAddress
    cases env.objectId reqUserId <;> exact ⟨rfl, rfl⟩
  · unfold putAddress
    cases env.objectId (JsVal.str paramId) with
    | none => exact ⟨rfl, rfl⟩
    | some addressId =>
      cases env.objectId reqUserId with
      | none => exact ⟨rfl, rfl⟩
      | some uid =>
        simp only
        split_ifs <;> exact ⟨rfl, rfl⟩
  · unfold deleteAddress
    cases env.objectId (JsVal.str paramId) with
    | none => exact ⟨rfl, rfl⟩
    | some addressId =>
      cases env.objectId reqUserId with
      | none => exact ⟨rfl, rfl⟩
      | some uid =>
        simp only
        split_ifs <;> exact ⟨rfl, rfl⟩

/-! ## Lists: the first match -/

theorem updateFirst_split {α : Type} (p : α → Bool) (f : α → α) (pre post : List α) (a : α)
    (hpre : ∀ b ∈ pre, p b = false) (ha : p a = true) :
    updateFirst p f (pre ++ a :: post) = pre ++ f a :: post := by
  induction pre with
  | nil => simp [updateFirst, ha]
  | cons b pre ih =>
    have hb : p b = false := hpre b (List.mem_cons_self b pre)
    have ih2 := ih (fun c hc => hpre c (List.mem_cons_of_mem b hc))
    simp [updateFirst, hb, ih2]

theorem updateFirst_none {α : Type} (p : α → Bool) (f : α → α) (l : List α)
    (h : ∀ b ∈ l, p b = false) : updateFirst p f l = l := by
  induction l with
  | nil => rfl
  | cons b l ih =>
    have hb : p b = false := h b (List.mem_cons_self b l)
    simp [updateFirst, hb, ih (fun c hc => h c (List.mem_cons_of_mem b hc))]

theorem find?_split {α : Type} (p : α → Bool) (l : List α) (a : α)
    (h : l.find? p = some a) :
    p a = true ∧ ∃ pre post, l = pre ++ a :: post ∧ ∀ b ∈ pre, p b = false := by
  obtain ⟨ha, pre, post, hl, hpre⟩ := List.find?_eq_some.mp h
  refine ⟨ha, pre, post, hl, ?_⟩
  intro b hb
  simpa using hpre b hb

/-! ## Cart: add or increment -/

/-- On a string product name the filter of the cart handler picks the lines of the owner
that carry this name, when the names in the cart are strings. -/
theorem cart_hit_iff (env : Env) (u : ObjectId) (name : String) (l : CartLine)
    (hl : ∃ t : String, l.productName = JsVal.str t) :
    (l.userId == u && fieldMatches env l.productName (JsVal.str name)) = true ↔
      l.userId = u ∧ l.productName = JsVal.str name := by
  obtain ⟨t, ht⟩ := hl
  simp [fieldMatches, ht]

/-- A repeat add, in full: the answer, and the store afterwards, which differs from the
store before in the one line only. -/
theorem postCart_repeat_add (env : Env) (db : Db) (reqUserId : JsVal)
    (body : CartBody) (u : ObjectId) (user : User) (w : JsVal) (name : String)
    (l : CartLine) (n : Int)
    (hu : env.objectId reqUserId = some u)
    (huser : db.users.find? (fun x => x._id == u) = some user)
    (hname : usernameOf env user = some w)
    (hpn : body.productName = JsVal.str name)
    (huniq : CartUnique db.cart) (hstr : NamesAreStrings db.cart)
    (hl : l ∈ db.cart) (hlu : l.userId = u) (hln : l.productName = JsVal.str name)
    (hlq : l.quantity = JsVal.num n) :
    (postCart env db reqUserId body).1 = Response.ok "Cart updated successfully" ∧
      ∃ pre post : List CartLine,
        db.cart = pre ++ l :: post ∧
          (postCart env db reqUserId body).2 =
            { db with
              cart :=
                pre ++
                  { l with quantity := JsVal.num (n + 1), username := w,
                           updatedAt := some env.now } :: post } ∧
          ∀ x ∈ pre ++ post, ¬ (x.userId = u ∧ x.productName = JsVal.str name) := by
  have hhit : ∀ x ∈ db.cart,
      ((x.userId == u && fieldMatches env x.productName body.productName.stored) = true ↔
        x.userId = u ∧ x.productName = JsVal.str name) := by
    intro x hx
    rw [hpn]
    exact cart_hit_iff env u name x (hstr x hx)
  have hsome : (db.cart.find?
      (fun x => x.userId == u && fieldMatches env x.productName body.productName.stored)).isSome =
        true := by
    rw [List.find?_isSome]
    exact ⟨l, hl, (hhit l hl).mpr ⟨hlu, hln⟩⟩
  obtain ⟨e, he⟩ := Option.isSome_iff_exists.mp hsome
  obtain ⟨hpe, pre, post, hsplit, hpre⟩ := find?_split _ _ _ he
  have hemem : e ∈ db.cart := by
    rw [hsplit]; simp
  have hekey := (hhit e hemem).mp hpe
  -- the first match is the line `l`: the cart has one line per owner and product name
  have huniq2 := huniq
  unfold CartUnique at huniq2
  rw [hsplit, List.pairwise_append, List.pairwise_cons] at huniq2
  obtain ⟨_, ⟨hepost, _⟩, hprepost⟩ := huniq2
  have hother : ∀ x ∈ pre ++ post, ¬ (x.userId = u ∧ x.productName = JsVal.str name) := by
    intro x hx hk
    rcases List.mem_append.mp hx with hxp | hxp
    · have hxmem : x ∈ db.cart := by
        rw [hsplit]; simp [hxp]
      have hf := hpre x hxp
      have ht := (hhit x hxmem).mpr hk
      rw [hf] at ht
      exact Bool.false_ne_true ht
    · exact hepost x hxp ⟨hekey.1.trans hk.1.symm, hekey.2.trans hk.2.symm⟩
  have hle : l = e := by
    rw [hsplit] at hl
    rcases List.mem_append.mp hl with h1 | h1
    · exact absurd ⟨hlu, hln⟩ (hother l (List.mem_append.mpr (Or.inl h1)))
    · rcases List.mem_cons.mp h1 with h2 | h2
      · exact h2
      · exact absurd ⟨hlu, hln⟩ (hother l (List.mem_append.mpr (Or.inr h2)))
  subst hle
  have hinc : incQuantity l.quantity = some (JsVal.num (n + 1)) := by
    rw [hlq]; rfl
  refine ⟨?_, pre, post, hsplit, ?_, hother⟩
  · simp only [postCart, hu, huser, hname, he, hinc]
  · simp only [postCart, hu, huser, hname, he, hinc]
    have hupd := updateFirst_split
      (fun x : CartLine => x.userId == u && fieldMatches env x.productName body.productName.stored)
      (fun x : CartLine =>
        { x with quantity := JsVal.num (n + 1), username := w, updatedAt := some env.now })
      pre post l hpre hpe
    rw [← hsplit] at hupd
    rw [hupd]

/-- C11 as stated fails: user 161 adds a tee to an empty cart with the text `2` as
quantity, which is stored as sent; the cart then holds a line for the owner and the
product, and the repeat add is answered 500: the store refuses to increment a text, and
the line is as it was. -/
theorem C11_text_quantity_is_not_incremented :
    (postCart sampleEnv emptyCartDb aliceId (teeCartBody (JsVal.str "2"))).2 =
        textQuantityDb ∧
      (∃ l ∈ textQuantityDb.cart, l.userId = 161 ∧ l.productName = JsVal.str "Tee" ∧
        l.quantity = JsVal.str "2") ∧
      postCart sampleEnv textQuantityDb aliceId (teeCartBody JsVal.undefined) =
        (Response.error 500 "Error updating cart", textQuantityDb) :=
  ⟨rfl, ⟨_, List.mem_singleton.mpr rfl, rfl, rfl, rfl⟩, rfl⟩

/-- C11, amended: for an existing user (the principal id is one the `ObjectId`
constructor accepts, and the display name of the user converts to text) and a cart, with
at most one line per owner and product name and strings as product names, that holds a
line for the owner and the product whose quantity is an integer below 2^53 in magnitude,
an add request for that product (a string) with any quantity argument and any price
answers `Cart updated successfully` and changes that line in place: its quantity is the
previous quantity plus 1, its `updatedAt` is the current time, and no other line of the
cart is for this owner and product. -/
theorem C11_repeat_add_increments_by_one (env : Env) (db : Db) (reqUserId : JsVal)
    (body : CartBody) (u : ObjectId) (user : User) (w : JsVal) (name : String)
    (l : CartLine) (n : Int)
    (hu : env.objectId reqUserId = some u)
    (huser : db.users.find? (fun x => x._id == u) = some user)
    (hname : usernameOf env user = some w)
    (hpn : body.productName = JsVal.str name)
    (huniq : CartUnique db.cart) (hstr : NamesAreStrings db.cart)
    (hl : l ∈ db.cart) (hlu : l.userId = u) (hln : l.productName = JsVal.str name)
    (hlq : l.quantity = JsVal.num n) (hsafe : n.natAbs < 2 ^ 53) :
    (postCart env db reqUserId body).1 = Response.ok "Cart updated successfully" ∧
      ∃ pre post : List CartLine,
        db.cart = pre ++ l :: post ∧
          (postCart env db reqUserId body).2.cart =
            pre ++
              { l with quantity := JsVal.num (n + 1), username := w,
                       updatedAt := some env.now } :: post ∧
          ∀ x ∈ pre ++ post, ¬ (x.userId = u ∧ x.productName = JsVal.str name) := by
  have _ := hsafe
  obtain ⟨h1, pre, post, hsplit, h2, h3⟩ :=
    postCart_repeat_add env db reqUserId body u user w name l n hu huser hname hpn huniq hstr
      hl hlu hln hlq
  exact ⟨h1, pre, post, hsplit, by rw [h2], h3⟩

/-- C11, at the example of the claim: user 161 adds a tee to an empty cart twice with
the default quantity. The first add leaves the cart of `oneTeeDb`; the second answers
`Cart updated successfully` and turns the one line into a line of quantity 2. -/
theorem C11_repeat_add_increments_by_one_witness :
    (postCart sampleEnv emptyCartDb aliceId (teeCartBody JsVal.undefined)).2.cart =
        oneTeeDb.cart ∧
      (postCart sampleEnv oneTeeDb aliceId (teeCartBody JsVal.undefined)).1 =
        Response.ok "Cart updated successfully" ∧
      (∃ pre post : List CartLine,
        oneTeeDb.cart = pre ++ firstTeeLine :: post ∧
          (postCart sampleEnv oneTeeDb aliceId (teeCartBody JsVal.undefined)).2.cart =
            pre ++
              { firstTeeLine with quantity := JsVal.num (1 + 1)
                                  username := JsVal.str "Alice Rao"
                                  updatedAt := some sampleEnv.now } :: post ∧
          ∀ x ∈ pre ++ post, ¬ (x.userId = 161 ∧ x.productName = JsVal.str "Tee")) ∧
      (postCart sampleEnv oneTeeDb aliceId (teeCartBody (JsVal.num 5))).2.cart =
        [{ firstTeeLine with quantity := JsVal.num 2, updatedAt := some 1000 }] :=
  ⟨rfl,
    (C11_repeat_add_increments_by_one sampleEnv oneTeeDb aliceId (teeCartBody JsVal.undefined)
      161 _ (JsVal.str "Alice Rao") "Tee" firstTeeLine 1 rfl rfl rfl rfl
      (List.pairwise_singleton _ _)
      (by
        intro l hl
        have h1 : l = firstTeeLine := by simpa [oneTeeDb] using hl
        exact ⟨"Tee", by rw [h1]; rfl⟩)
      (by simp [oneTeeDb]) rfl rfl rfl (by decide)).1,
    (C11_repeat_add_increments_by_one sampleEnv oneTeeDb aliceId (teeCartBody JsVal.undefined)
      161 _ (JsVal.str "Alice Rao") "Tee" firstTeeLine 1 rfl rfl rfl rfl
      (List.pairwise_singleton _ _)
      (by
        intro l hl
        have h1 : l = firstTeeLine := by simpa [oneTeeDb] using hl
        exact ⟨"Tee", by rw [h1]; rfl⟩)
      (by simp [oneTeeDb]) rfl rfl rfl (by decide)).2,
    rfl⟩

/-- C12 as stated fails: the cart of user 161 holds one tee and no line whose product
name is the object `{"$ne": "zzz"}`. An add request with that object as product name
reaches the store as the filter "product name other than `zzz`", which the tee line
satisfies: the handler increments the tee line and inserts nothing. -/
theorem C12_operator_name_increments_another_line :
    (∀ l ∈ oneTeeDb.cart, ¬ (l.userId = 161 ∧ l.productName = neCartBody.productName)) ∧
      postCart neFilterEnv oneTeeDb aliceId neCartBody =
        (Response.ok "Cart updated successfully",
          { oneTeeDb with
            cart := [{ firstTeeLine with quantity := JsVal.num 2, updatedAt := some 1000 }] }) ∧
      (postCart neFilterEnv oneTeeDb aliceId neCartBody).2.cart.length =
        oneTeeDb.cart.length := by
  refine ⟨?_, rfl, rfl⟩
  intro l hl h
  have h1 : l = firstTeeLine := by simpa [oneTeeDb] using hl
  rw [h1] at h
  have h2 : JsVal.str "Tee" = JsVal.obj [("$ne", JsVal.str "zzz")] := h.2
  cases h2

/-- C12, amended: for an existing user (the principal id is one the `ObjectId`
constructor accepts, and the display name of the user converts to text) and a cart whose
product names are strings and that holds no line for the owner and the product, an add
request whose product name is a string answers with the id of a new line and appends
exactly that line to the cart: its owner is the principal, its product name is the
request's, its price is the request's, or `null` when the request has none, and its
quantity is the request's, or 1 when the request has none; every line held before is
unchanged. -/
theorem C12_first_add_inserts_line (env : Env) (db : Db) (reqUserId : JsVal)
    (body : CartBody) (u : ObjectId) (user : User) (w : JsVal) (name : String)
    (hu : env.objectId reqUserId = some u)
    (huser : db.users.find? (fun x => x._id == u) = some user)
    (hname : usernameOf env user = some w)
    (hpn : body.productName = JsVal.str name)
    (hstr : NamesAreStrings db.cart)
    (hnone : ∀ l ∈ db.cart, ¬ (l.userId = u ∧ l.productName = JsVal.str name)) :
    ∃ newLine : CartLine,
      (postCart env db reqUserId body).1 =
          Response.okWithId "Item added to cart successfully" newLine._id ∧
        (postCart env db reqUserId body).2.cart = db.cart ++ [newLine] ∧
        newLine.userId = u ∧ newLine.productName = JsVal.str name ∧
        newLine.price = body.price.stored ∧
        (body.quantity = JsVal.undefined → newLine.quantity = JsVal.num 1) ∧
        (body.quantity ≠ JsVal.undefined → newLine.quantity = body.quantity) := by
  have hfind : db.cart.find?
      (fun x => x.userId == u && fieldMatches env x.productName body.productName.stored) = none := by
    rw [List.find?_eq_none]
    intro x hx hp
    rw [hpn] at hp
    exact hnone x hx ((cart_hit_iff env u name x (hstr x hx)).mp hp)
  have hq1 : body.quantity = JsVal.undefined → quantityOrOne body.quantity = JsVal.num 1 := by
    intro h; rw [h]; rfl
  have hq2 : body.quantity ≠ JsVal.undefined → quantityOrOne body.quantity = body.quantity := by
    intro h
    cases hb : body.quantity with
    | undefined => exact absurd hb h
    | null => rfl
    | bool b => rfl
    | num k => rfl
    | str t => rfl
    | arr ys => rfl
    | obj fs => rfl
  simp only [postCart, hu, huser, hname, hfind]
  exact ⟨_, rfl, rfl, rfl, by rw [hpn]; rfl, rfl, hq1, hq2⟩

/-- C12, at the add of two caps by user 161, whose cart holds a tee and a shirt: the
line appended has quantity 2 and price 150, and the three lines held before are still
there; an add of a cap that carries neither price nor quantity appends a line with
`null` as price and 1 as quantity. -/
theorem C12_first_add_inserts_line_witness :
    (∃ newLine : CartLine,
      (postCart sampleEnv sampleDb aliceId (capCartBody (JsVal.num 2))).1 =
          Response.okWithId "Item added to cart successfully" newLine._id ∧
        (postCart sampleEnv sampleDb aliceId (capCartBody (JsVal.num 2))).2.cart =
          sampleDb.cart ++ [newLine] ∧
        newLine.userId = 161 ∧ newLine.productName = JsVal.str "Cap" ∧
        newLine.price = JsVal.num 150 ∧
        (JsVal.num 2 = JsVal.undefined → newLine.quantity = JsVal.num 1) ∧
        (JsVal.num 2 ≠ JsVal.undefined → newLine.quantity = JsVal.num 2)) ∧
      (postCart sampleEnv sampleDb aliceId (capCartBody (JsVal.num 2))).2.cart =
        [sampleLine 1 161 "Tee", sampleLine 2 162 "Jeans", sampleLine 3 161 "Shirt",
         { _id := 100, userId := 161, username := JsVal.str "Alice Rao"
           productName := JsVal.str "Cap", price := JsVal.num 150, quantity := JsVal.num 2
           createdAt := 1000, updatedAt := none }] ∧
      (postCart sampleEnv sampleDb aliceId
          { productName := JsVal.str "Cap", price := JsVal.undefined
            quantity := JsVal.undefined }).2.cart =
        [sampleLine 1 161 "Tee", sampleLine 2 162 "Jeans", sampleLine 3 161 "Shirt",
         { _id := 100, userId := 161, username := JsVal.str "Alice Rao"
           productName := JsVal.str "Cap", price := JsVal.null, quantity := JsVal.num 1
           createdAt := 1000, updatedAt := none }] :=
  ⟨C12_first_add_inserts_line sampleEnv sampleDb aliceId (capCartBody (JsVal.num 2))
      161 _ (JsVal.str "Alice Rao") "Cap" rfl rfl rfl rfl
      (by
        intro l hl
        simp only [sampleDb, List.mem_cons, List.mem_singleton, List.not_mem_nil,
          or_false] at hl
        rcases hl with h | h | h <;> subst h
        · exact ⟨"Tee", rfl⟩
        · exact ⟨"Jeans", rfl⟩
        · exact ⟨"Shirt", rfl⟩)
      (by
        intro l hl
        simp only [sampleDb, List.mem_cons, List.mem_singleton, List.not_mem_nil,
          or_false] at hl
        rcases hl with h | h | h <;> subst h <;> simp [sampleLine]),
    rfl, rfl⟩

/-! ## Cart: the invariants -/

theorem updateFirst_map {α β : Type} (p : α → Bool) (f : α → α) (g : α → β)
    (hg : ∀ a, g (f a) = g a) (l : List α) : (updateFirst p f l).map g = l.map g := by
  induction l with
  | nil => rfl
  | cons a l ih =>
    by_cases ha : p a = true
    · simp [updateFirst, ha, hg]
    · simp [updateFirst, ha, ih]

theorem mem_updateFirst {α : Type} (p : α → Bool) (f : α → α) (l : List α) (x : α)
    (hx : x ∈ updateFirst p f l) : x ∈ l ∨ ∃ a ∈ l, p a = true ∧ x = f a := by
  induction l with
  | nil => simp [updateFirst] at hx
  | cons a l ih =>
    by_cases ha : p a = true
    · simp only [updateFirst, ha, if_true, List.mem_cons] at hx
      rcases hx with h | h
      · exact Or.inr ⟨a, List.mem_cons_self a l, ha, h⟩
      · exact Or.inl (List.mem_cons_of_mem a h)
    · simp only [updateFirst, ha, Bool.false_eq_true, if_false, List.mem_cons] at hx
      rcases hx with h | h
      · exact Or.inl (h ▸ List.mem_cons_self a l)
      · rcases ih h with h2 | ⟨b, hb, hpb, hxb⟩
        · exact Or.inl (List.mem_cons_of_mem a h2)
        · exact Or.inr ⟨b, List.mem_cons_of_mem a hb, hpb, hxb⟩

/-- Uniqueness of owner and product name is a property of the list of keys. -/
theorem cartUnique_iff_keys (cart : List CartLine) :
    CartUnique cart ↔
      (cart.map (fun l => (l.userId, l.productName))).Pairwise
        (fun a b => ¬ (a.1 = b.1 ∧ a.2 = b.2)) := by
  unfold CartUnique
  rw [List.pairwise_map]

theorem cartUnique_of_sublist (a b : List CartLine) (h : a.Sublist b) (hb : CartUnique b) :
    CartUnique a :=
  List.Pairwise.sublist h hb

/-- The cart after a checkout is a sublist of the cart before. -/
theorem postOrders_cart_sublist (env : Env) (db : Db) (reqUserId : JsVal) (body : OrderBody) :
    (postOrders env db reqUserId body).2.cart.Sublist db.cart := by
  unfold postOrders
  cases validateOrder env body with
  | reject e => exact List.Sublist.refl _
  | throws => exact List.Sublist.refl _
  | ok =>
    simp only
    cases lookupShippingAddress env db body.shippingAddressId with
    | none => exact List.Sublist.refl _
    | some sa =>
      simp only
      cases env.objectId reqUserId with
      | none => exact List.Sublist.refl _
      | some u =>
        simp only
        cases mapItems (env.genId 0) (arrayElems body.items) with
        | none => exact List.Sublist.refl _
        | some mapped => exact List.filter_sublist _

/-- A line the filter of the cart handler does not pick is not a line of this owner with
this string as product name. -/
theorem not_key_of_not_hit (env : Env) (u : ObjectId) (name : String) (l : CartLine)
    (h : ¬ (l.userId == u && fieldMatches env l.productName (JsVal.str name)) = true) :
    ¬ (l.userId = u ∧ l.productName = JsVal.str name) := by
  rintro ⟨h1, h2⟩
  apply h
  simp [fieldMatches, h1, h2]

/-- Adding a product whose name is a string keeps the cart at one line per owner and
product name. -/
theorem postCart_unique (env : Env) (db : Db) (reqUserId : JsVal) (body : CartBody)
    (name : String) (hpn : body.productName = JsVal.str name) (huniq : CartUnique db.cart) :
    CartUnique (postCart env db reqUserId body).2.cart := by
  unfold postCart
  cases env.objectId reqUserId with
  | none => exact huniq
  | some u =>
    simp only
    cases db.users.find? (fun x => x._id == u) with
    | none => exact huniq
    | some user =>
      simp only
      cases usernameOf env user with
      | none => exact huniq
      | some w =>
        simp only
        cases hf : db.cart.find?
            (fun x => x.userId == u && fieldMatches env x.productName body.productName.stored) with
        | some e =>
          simp only
          cases incQuantity e.quantity with
          | none => exact huniq
          | some q =>
            simp only
            rw [cartUnique_iff_keys] at huniq ⊢
            rw [updateFirst_map]
            · exact huniq
            · intro a
              rfl
        | none =>
          simp only
          unfold CartUnique at huniq ⊢
          rw [List.pairwise_append]
          refine ⟨huniq, List.pairwise_singleton _ _, ?_⟩
          intro a ha b hb
          rw [List.mem_singleton] at hb
          subst hb
          rw [List.find?_eq_none] at hf
          have hna := hf a ha
          rw [hpn] at hna
          have := not_key_of_not_hit env u name a hna
          simpa [hpn] using this

/-- C13: a cart with at most one line per owner and product name still has at most one
line per owner and product name after an add or increment (of a product whose name is a
string), after a remove of one line, after a clear, and after a checkout, by any
principal and with any other input. -/
theorem C13_cart_unique_invariant (env : Env) (db : Db) (reqUserId : JsVal)
    (body : CartBody) (name : String) (paramId : String) (order : OrderBody)
    (hpn : body.productName = JsVal.str name) (huniq : CartUnique db.cart) :
    CartUnique (postCart env db reqUserId body).2.cart ∧
      CartUnique (deleteCartItem env db reqUserId paramId).2.cart ∧
      CartUnique (deleteCart env db reqUserId).2.cart ∧
      CartUnique (postOrders env db reqUserId order).2.cart := by
  refine ⟨postCart_unique env db reqUserId body name hpn huniq, ?_, ?_,
    cartUnique_of_sublist _ _ (postOrders_cart_sublist env db reqUserId order) huniq⟩
  · unfold deleteCartItem
    cases env.objectId (JsVal.str paramId) with
    | none => exact huniq
    | some itemId =>
      cases env.objectId reqUserId with
      | none => exact huniq
      | some u =>
        simp only
        split_ifs <;> exact cartUnique_of_sublist _ _ (List.eraseP_sublist _) huniq
  · unfold deleteCart
    cases env.objectId reqUserId with
    | none => exact huniq
    | some u => exact cartUnique_of_sublist _ _ (List.filter_sublist _) huniq

/-- C13, at the store of the examples: its cart has one line per owner and product name,
and so has the cart after user 161 adds another tee. -/
theorem C13_cart_unique_invariant_witness :
    CartUnique (postCart sampleEnv sampleDb aliceId (teeCartBody JsVal.undefined)).2.cart ∧
      CartUnique
        (deleteCartItem sampleEnv sampleDb aliceId "000000000000000000000001").2.cart ∧
      CartUnique (deleteCart sampleEnv sampleDb aliceId).2.cart ∧
      CartUnique
        (postOrders sampleEnv sampleDb aliceId (teeBody (JsVal.str "cod") JsVal.undefined)).2.cart :=
  C13_cart_unique_invariant sampleEnv sampleDb aliceId (teeCartBody JsVal.undefined) "Tee"
    "000000000000000000000001" (teeBody (JsVal.str "cod") JsVal.undefined) rfl
    (by
      unfold CartUnique
      simp [sampleDb, sampleLine])

theorem quantitiesPositive_of_sublist (a b : List CartLine) (h : a.Sublist b)
    (hb : QuantitiesPositive b) : QuantitiesPositive a :=
  fun l hl => hb l (h.subset hl)

/-- C14 as stated fails: the cart of the examples has only quantities of at least 1, and
after user 161 adds a cap with quantity argument 0 it holds a line of quantity 0. -/
theorem C14_zero_quantity_is_stored :
    QuantitiesPositive sampleDb.cart ∧
      (postCart sampleEnv sampleDb aliceId (capCartBody (JsVal.num 0))).1 =
        Response.okWithId "Item added to cart successfully" 100 ∧
      ¬ QuantitiesPositive
        (postCart sampleEnv sampleDb aliceId (capCartBody (JsVal.num 0))).2.cart := by
  refine ⟨?_, rfl, ?_⟩
  · intro l hl
    simp only [sampleDb, List.mem_cons, List.mem_singleton, List.not_mem_nil,
      or_false] at hl
    rcases hl with h | h | h <;> subst h <;> exact ⟨1, rfl, le_refl 1⟩
  · intro h
    have hmem : ({ _id := 100, userId := 161, username := JsVal.str "Alice Rao"
                   productName := JsVal.str "Cap", price := JsVal.num 150
                   quantity := JsVal.num 0, createdAt := 1000, updatedAt := none } : CartLine) ∈
        (postCart sampleEnv sampleDb aliceId (capCartBody (JsVal.num 0))).2.cart := by
      show _ ∈ sampleDb.cart ++ [_]
      exact List.mem_append_right _ (List.mem_singleton.mpr rfl)
    obtain ⟨n, hn, hpos⟩ := h _ hmem
    have h0 : JsVal.num 0 = JsVal.num n := hn
    injection h0 with h1
    omega

/-- C14, amended: starting from a cart in which every quantity is a number of at least
1, the same holds after an add request whose quantity argument is absent or a number of
at least 1, after every add request that increments an existing line (answer `Cart
updated successfully`), whatever its quantity argument, after every remove and after
every clear. -/
theorem C14_quantities_stay_positive (env : Env) (db : Db) (reqUserId : JsVal)
    (body : CartBody) (paramId : String) (hpos : QuantitiesPositive db.cart) :
    ((body.quantity = JsVal.undefined ∨ ∃ q : Int, body.quantity = JsVal.num q ∧ 1 ≤ q) →
        QuantitiesPositive (postCart env db reqUserId body).2.cart) ∧
      ((postCart env db reqUserId body).1 = Response.ok "Cart updated successfully" →
        QuantitiesPositive (postCart env db reqUserId body).2.cart) ∧
      QuantitiesPositive (deleteCartItem env db reqUserId paramId).2.cart ∧
      QuantitiesPositive (deleteCart env db reqUserId).2.cart := by
  have hadd : ∀ good : Prop,
      (good → ∃ q : Int, quantityOrOne body.quantity = JsVal.num q ∧ 1 ≤ q) →
      (good ∨ (postCart env db reqUserId body).1 = Response.ok "Cart updated successfully") →
      QuantitiesPositive (postCart env db reqUserId body).2.cart := by
    intro good hgood hcase
    cases h1 : env.objectId reqUserId with
    | none => simp only [postCart, h1]; exact hpos
    | some u =>
      cases h2 : db.users.find? (fun x => x._id == u) with
      | none => simp only [postCart, h1, h2]; exact hpos
      | some user =>
        cases h3 : usernameOf env user with
        | none => simp only [postCart, h1, h2, h3]; exact hpos
        | some w =>
          cases hf : db.cart.find?
              (fun x => x.userId == u && fieldMatches env x.productName body.productName.stored) with
          | some e =>
            have hemem : e ∈ db.cart := List.mem_of_find?_eq_some hf
            obtain ⟨n, hn, hn1⟩ := hpos e hemem
            have hinc : incQuantity e.quantity = some (JsVal.num (n + 1)) := by
              rw [hn]; rfl
            simp only [postCart, h1, h2, h3, hf, hinc]
            intro x hx
            rcases mem_updateFirst _ _ _ x hx with h4 | ⟨a, _, _, hxa⟩
            · exact hpos x h4
            · exact ⟨n + 1, by rw [hxa], by omega⟩
          | none =>
            simp only [postCart, h1, h2, h3, hf] at hcase ⊢
            rcases hcase with hg | hresp
            · obtain ⟨q, hq, hq1⟩ := hgood hg
              intro x hx
              rcases List.mem_append.mp hx with h4 | h4
              · exact hpos x h4
              · rw [List.mem_singleton] at h4
                exact ⟨q, by rw [h4]; exact hq, hq1⟩
            · cases hresp
  refine ⟨?_, ?_, ?_, ?_⟩
  · intro hq
    refine hadd (body.quantity = JsVal.undefined ∨
      ∃ q : Int, body.quantity = JsVal.num q ∧ 1 ≤ q) ?_ (Or.inl hq)
    rintro (h | ⟨q, h, hq1⟩)
    · exact ⟨1, by rw [h]; rfl, le_refl 1⟩
    · exact ⟨q, by rw [h]; rfl, hq1⟩
  · intro hresp
    exact hadd False (fun h => h.elim) (Or.inr hresp)
  · unfold deleteCartItem
    cases env.objectId (JsVal.str paramId) with
    | none => exact hpos
    | some itemId =>
      cases env.objectId reqUserId with
      | none => exact hpos
      | some u =>
        simp only
        split_ifs <;> exact quantitiesPositive_of_sublist _ _ (List.eraseP_sublist _) hpos
  · unfold deleteCart
    cases env.objectId reqUserId with
    | none => exact hpos
    | some u => exact quantitiesPositive_of_sublist _ _ (List.filter_sublist _) hpos

/-- C14 amended, at the store of the examples: every quantity is still at least 1
after user 161 adds two caps, after user 161 adds a tee again with quantity argument 0
(the tee line is incremented), after the tee line is removed and after the cart is
cleared. -/
theorem C14_quantities_stay_positive_witness :
    QuantitiesPositive
        (postCart sampleEnv sampleDb aliceId (capCartBody (JsVal.num 2))).2.cart ∧
      QuantitiesPositive
        (postCart sampleEnv sampleDb aliceId (teeCartBody (JsVal.num 0))).2.cart ∧
      QuantitiesPositive
        (deleteCartItem sampleEnv sampleDb aliceId "000000000000000000000001").2.cart ∧
      QuantitiesPositive (deleteCart sampleEnv sampleDb aliceId).2.cart := by
  have hpos : QuantitiesPositive sampleDb.cart := by
    intro l hl
    simp only [sampleDb, List.mem_cons, List.mem_singleton, List.not_mem_nil,
      or_false] at hl
    rcases hl with h | h | h <;> subst h <;> exact ⟨1, rfl, le_refl 1⟩
  exact
    ⟨(C14_quantities_stay_positive sampleEnv sampleDb aliceId (capCartBody (JsVal.num 2))
        "000000000000000000000001" hpos).1 (Or.inr ⟨2, rfl, by decide⟩),
      (C14_quantities_stay_positive sampleEnv sampleDb aliceId (teeCartBody (JsVal.num 0))
        "000000000000000000000001" hpos).2.1 rfl,
      (C14_quantities_stay_positive sampleEnv sampleDb aliceId (teeCartBody (JsVal.num 0))
        "000000000000000000000001" hpos).2.2.1,
      (C14_quantities_stay_positive sampleEnv sampleDb aliceId (teeCartBody (JsVal.num 0))
        "000000000000000000000001" hpos).2.2.2⟩

/-! ## Cart: remove one line, clear -/

/-- C15 as stated fails: the line id `1000`, the text of the number the client gives
to an entry it added locally, is not an id the `ObjectId` constructor accepts, so no
line has it; remove-one answers 500 `Error removing item`, not 404. -/
theorem C15_malformed_line_id_is_a_server_error :
    sampleEnv.objectId (JsVal.str "1000") = none ∧
      deleteCartItem sampleEnv sampleDb aliceId "1000" =
        (Response.error 500 "Error removing item", sampleDb) ∧
      (deleteCartItem sampleEnv sampleDb aliceId "1000").1 ≠
        Response.error 404 "Item not found" := by
  refine ⟨rfl, rfl, ?_⟩
  intro h
  have h2 : Response.error 500 "Error removing item" = Response.error 404 "Item not found" := h
  injection h2 with h3 _
  exact absurd h3 (by decide)

/-- C15, amended: for a principal and a line id, both ids the `ObjectId` constructor
accepts: if every line with that id, if there is one, belongs to a different owner, remove-one
answers 404 `Item not found` and the store is as it was; if a line with that id
belongs to the principal, it answers success and the cart is the one before with
exactly that one line taken out, every other line and every other collection being
unchanged. -/
theorem C15_remove_one (env : Env) (db : Db) (reqUserId : JsVal) (paramId : String)
    (lid u : ObjectId) (hid : env.objectId (JsVal.str paramId) = some lid)
    (hu : env.objectId reqUserId = some u) :
    ((∀ l ∈ db.cart, l._id = lid → l.userId ≠ u) →
        deleteCartItem env db reqUserId paramId =
          (Response.error 404 "Item not found", db)) ∧
      ((∃ l ∈ db.cart, l._id = lid ∧ l.userId = u) →
        (deleteCartItem env db reqUserId paramId).1 =
            Response.ok "Item removed from cart successfully" ∧
          ∃ (pre : List CartLine) (l : CartLine) (post : List CartLine),
            db.cart = pre ++ l :: post ∧ l._id = lid ∧ l.userId = u ∧
              (deleteCartItem env db reqUserId paramId).2 =
                { db with cart := pre ++ post }) := by
  constructor
  · intro hno
    have hnone : ∀ a ∈ db.cart, ¬ (a._id == lid && a.userId == u) = true := by
      intro a ha hp
      simp only [Bool.and_eq_true, beq_iff_eq] at hp
      exact hno a ha hp.1 hp.2
    have hany : db.cart.any (fun l => l._id == lid && l.userId == u) = false := by
      rw [Bool.eq_false_iff]
      intro h
      obtain ⟨a, ha, hp⟩ := List.any_eq_true.mp h
      exact hnone a ha hp
    simp only [deleteCartItem, hid, hu, hany, Bool.false_eq_true, if_false]
    rw [List.eraseP_of_forall_not hnone]
  · rintro ⟨l0, hl0, h1, h2⟩
    have hp0 : (l0._id == lid && l0.userId == u) = true := by
      simp [h1, h2]
    have hany : db.cart.any (fun l => l._id == lid && l.userId == u) = true :=
      List.any_eq_true.mpr ⟨l0, hl0, hp0⟩
    obtain ⟨l, pre, post, _, hpl, hsplit, herase⟩ :=
      List.exists_of_eraseP (p := fun l : CartLine => l._id == lid && l.userId == u) hl0 hp0
    simp only [Bool.and_eq_true, beq_iff_eq] at hpl
    simp only [deleteCartItem, hid, hu, hany, if_true]
    exact ⟨trivial, pre, l, post, hsplit, hpl.1, hpl.2, by rw [herase]⟩

/-- C15, at the store of the examples: user 161 cannot remove line 2, which belongs to
user 162, nor the missing line 9, and the store stays as it was; user 161 removes the
own line 1 and exactly that line is gone. -/
theorem C15_remove_one_witness :
    deleteCartItem sampleEnv sampleDb aliceId "000000000000000000000002" =
        (Response.error 404 "Item not found", sampleDb) ∧
      deleteCartItem sampleEnv sampleDb aliceId "000000000000000000000009" =
        (Response.error 404 "Item not found", sampleDb) ∧
      (deleteCartItem sampleEnv sampleDb aliceId "000000000000000000000001").1 =
        Response.ok "Item removed from cart successfully" ∧
      ∃ (pre : List CartLine) (l : CartLine) (post : List CartLine),
        sampleDb.cart = pre ++ l :: post ∧ l._id = 1 ∧ l.userId = 161 ∧
          (deleteCartItem sampleEnv sampleDb aliceId "000000000000000000000001").2 =
            { sampleDb with cart := pre ++ post } :=
  ⟨(C15_remove_one sampleEnv sampleDb aliceId "000000000000000000000002" 2 161 rfl rfl).1
      (by
        intro l hl
        simp only [sampleDb, List.mem_cons, List.mem_singleton, List.not_mem_nil,
          or_false] at hl
        rcases hl with h | h | h <;> subst h <;> simp [sampleLine]),
    (C15_remove_one sampleEnv sampleDb aliceId "000000000000000000000009" 9 161 rfl rfl).1
      (by
        intro l hl
        simp only [sampleDb, List.mem_cons, List.mem_singleton, List.not_mem_nil,
          or_false] at hl
        rcases hl with h | h | h <;> subst h <;> simp [sampleLine]),
    (C15_remove_one sampleEnv sampleDb aliceId "000000000000000000000001" 1 161 rfl rfl).2
      ⟨sampleLine 1 161 "Tee", by simp [sampleDb], rfl, rfl⟩⟩

/-- C16: for a principal (whose id the `ObjectId` constructor accepts) and any cart,
clear answers success, the cart holds no line of the principal afterwards, and for every
other owner the lines are the ones held before. -/
theorem C16_clear_cart (env : Env) (db : Db) (reqUserId : JsVal) (u : ObjectId)
    (hu : env.objectId reqUserId = some u) :
    (deleteCart env db reqUserId).1 = Response.ok "Cart cleared successfully" ∧
      (deleteCart env db reqUserId).2.cart.filter (fun l => l.userId == u) = [] ∧
      (∀ v : ObjectId, v ≠ u →
        (deleteCart env db reqUserId).2.cart.filter (fun l => l.userId == v) =
          db.cart.filter (fun l => l.userId == v)) ∧
      (deleteCart env db reqUserId).2 =
        { db with cart := (deleteCart env db reqUserId).2.cart } := by
  simp only [deleteCart, hu]
  refine ⟨trivial, ?_, ?_, trivial⟩
  · rw [List.filter_filter, List.filter_eq_nil_iff]
    intro l _ h
    simp at h
  · intro v hv
    rw [List.filter_filter]
    apply List.filter_congr
    intro l _
    by_cases hlv : l.userId = v
    · subst hlv
      simp [hv]
    · simp [hlv]

/-- C16, at the store of the examples: after user 161 clears the cart no line of user
161 is left and user 162 still has the jeans line. -/
theorem C16_clear_cart_witness :
    (deleteCart sampleEnv sampleDb aliceId).1 = Response.ok "Cart cleared successfully" ∧
      (deleteCart sampleEnv sampleDb aliceId).2.cart.filter (fun l => l.userId == 161) = [] ∧
      (∀ v : ObjectId, v ≠ 161 →
        (deleteCart sampleEnv sampleDb aliceId).2.cart.filter (fun l => l.userId == v) =
          sampleDb.cart.filter (fun l => l.userId == v)) ∧
      (deleteCart sampleEnv sampleDb aliceId).2 =
        { sampleDb with cart := (deleteCart sampleEnv sampleDb aliceId).2.cart } :=
  C16_clear_cart sampleEnv sampleDb aliceId 161 rfl

/-! ## Addresses: at most one default per owner -/

theorem filter_map_of_fixed {α : Type} (p : α → Bool) (f : α → α) (l : List α)
    (h : ∀ a ∈ l, p (f a) = p a ∧ (p a = true → f a = a)) :
    (l.map f).filter p = l.filter p := by
  induction l with
  | nil => rfl
  | cons a l ih =>
    have ha := h a (List.mem_cons_self a l)
    have ih2 := ih (fun b hb => h b (List.mem_cons_of_mem a hb))
    by_cases hp : p a = true
    · simp [List.filter_cons, ha.1, hp, ha.2 hp, ih2]
    · simp [List.filter_cons, ha.1, hp, ih2]

theorem filter_updateFirst_of_miss {α : Type} (p q : α → Bool) (f : α → α) (l : List α)
    (h : ∀ a, q a = true → p a = false ∧ p (f a) = false) :
    (updateFirst q f l).filter p = l.filter p := by
  induction l with
  | nil => rfl
  | cons a l ih =>
    by_cases hq : q a = true
    · simp [updateFirst, hq, List.filter_cons, (h a hq).1, (h a hq).2]
    · simp [updateFirst, hq, List.filter_cons, ih]

theorem filter_updateFirst_sublist {α : Type} (p q : α → Bool) (f : α → α) (l : List α)
    (h : ∀ a, p (f a) = false) : ((updateFirst q f l).filter p).Sublist (l.filter p) := by
  induction l with
  | nil => exact List.Sublist.refl _
  | cons a l ih =>
    by_cases hq : q a = true
    · simp only [updateFirst, hq, if_true, List.filter_cons, h a, Bool.false_eq_true, if_false]
      by_cases hp : p a = true
      · simp only [hp, if_true]
        exact List.Sublist.cons a (List.Sublist.refl _)
      · simp only [hp, if_false]
        exact List.Sublist.refl _
    · simp only [updateFirst, hq, Bool.false_eq_true, if_false, List.filter_cons]
      by_cases hp : p a = true
      · simp only [hp, if_true]
        exact List.Sublist.cons₂ a ih
      · simp only [hp, if_false]
        exact ih

/-- A list without repeated keys has at most one element among those that all carry the
same key. -/
theorem length_le_one_of_same_key {α β : Type} (g : α → β) (c : β) (l : List α)
    (hnd : (l.map g).Nodup) (hall : ∀ x ∈ l, g x = c) : l.length ≤ 1 := by
  match l, hnd, hall with
  | [], _, _ => simp
  | [_], _, _ => simp
  | x :: y :: rest, hnd, hall =>
    exfalso
    have hx := hall x (List.mem_cons_self x _)
    have hy := hall y (List.mem_cons_of_mem x (List.mem_cons_self y rest))
    simp only [List.map_cons, List.nodup_cons, List.mem_cons] at hnd
    exact hnd.1 (Or.inl (hx.trans hy.symm))

theorem defaultsOf_length_of_sublist (u : ObjectId) (a b : List Address) (h : a.Sublist b)
    (hb : (defaultsOf u b).length ≤ 1) : (defaultsOf u a).length ≤ 1 :=
  Nat.le_trans (List.Sublist.length_le (List.Sublist.filter _ h)) hb

/-- The sweep of the update handler leaves the list of ids as it was. -/
theorem updateFirst_ids (p : Address → Bool) (f : Address → Address) (l : List Address)
    (hf : ∀ a, (f a)._id = a._id) :
    (updateFirst p f l).map (fun a => a._id) = l.map (fun a => a._id) :=
  updateFirst_map p f (fun a => a._id) hf l

/-- Creating an address keeps every owner at no more than one default address. -/
theorem postAddress_one_default (env : Env) (db : Db) (reqUserId : JsVal)
    (body : AddressBody) (hone : OneDefaultPerOwner db.addresses) :
    OneDefaultPerOwner (postAddress env db reqUserId body).2.addresses := by
  unfold postAddress
  cases env.objectId reqUserId with
  | none => exact hone
  | some u =>
    simp only
    intro v
    unfold defaultsOf
    rw [List.filter_append, List.length_append]
    by_cases ht : body.isDefault.truthy = true
    · simp only [ht, if_true]
      by_cases hvu : v = u
      · subst hvu
        have hnil : (db.addresses.map
            (fun a => if (a.userId == v) = true then
              { a with isDefault := JsVal.bool false } else a)).filter
              (fun a => a.userId == v && a.isDefault.isTrue) = [] := by
          rw [List.filter_eq_nil_iff]
          intro x hx hp
          obtain ⟨a, _, hxa⟩ := List.mem_map.mp hx
          simp only [Bool.and_eq_true, beq_iff_eq] at hp
          by_cases hau : a.userId = v
          · simp only [hau, beq_self_eq_true, if_true] at hxa
            rw [← hxa] at hp
            simp [JsVal.isTrue] at hp
          · have hb : (a.userId == v) = false := by simpa using hau
            simp only [hb, Bool.false_eq_true, if_false] at hxa
            rw [← hxa] at hp
            exact hau hp.1
        rw [hnil]
        simp only [List.length_nil, Nat.zero_add]
        exact Nat.le_trans (List.length_filter_le _ _) (by simp)
      · have hfix : (db.addresses.map
            (fun a => if (a.userId == u) = true then
              { a with isDefault := JsVal.bool false } else a)).filter
              (fun a => a.userId == v && a.isDefault.isTrue) =
            db.addresses.filter (fun a => a.userId == v && a.isDefault.isTrue) := by
          apply filter_map_of_fixed
          intro a _
          by_cases hau : a.userId = u
          · have huv : ¬ u = v := fun h => hvu h.symm
            have hb : (u == v) = false := by simpa using huv
            simp [hau, huv, hb]
          · have hb : (a.userId == u) = false := by simpa using hau
            simp [hb]
        rw [hfix]
        have hnew : (u == v) = false := by
          simpa using (fun h : u = v => hvu h.symm)
        simp only [List.filter_cons, hnew, Bool.false_and, Bool.false_eq_true, if_false,
          List.filter_nil, List.length_nil, Nat.add_zero]
        exact hone v
    · have hf : body.isDefault.truthy = false := by simpa using ht
      simp only [hf, Bool.false_eq_true, if_false, JsVal.or, List.filter_cons,
        JsVal.isTrue, Bool.and_false, List.filter_nil, List.length_nil, Nat.add_zero]
      exact hone v

/-- The update handler, once both ids are accepted, in terms of the sweep and the
`$set`: the addresses afterwards, and the answer. -/
theorem putAddress_eq (env : Env) (db : Db) (reqUserId : JsVal) (paramId : String)
    (body : AddressBody) (aid u : ObjectId)
    (hid : env.objectId (JsVal.str paramId) = some aid)
    (hu : env.objectId reqUserId = some u) :
    (putAddress env db reqUserId paramId body).2 =
        { db with
          addresses :=
            updateFirst (fun a => a._id == aid && a.userId == u)
              (applyAddressBody body env.now)
              (if body.isDefault.truthy = true then sweepSiblings u aid db.addresses
                else db.addresses) } ∧
      (putAddress env db reqUserId paramId body).1 =
        (if (if body.isDefault.truthy = true then sweepSiblings u aid db.addresses
              else db.addresses).any (fun a => a._id == aid && a.userId == u) = true then
          Response.ok "Address updated successfully"
        else Response.error 404 "Address not found") := by
  simp only [putAddress, hid, hu, sweepSiblings]
  by_cases ht : body.isDefault.truthy = true
  · simp only [ht, if_true]
    split_ifs <;> exact ⟨rfl, rfl⟩
  · simp only [ht, if_false]
    split_ifs <;> exact ⟨rfl, rfl⟩

theorem sweepSiblings_ids (u aid : ObjectId) (l : List Address) :
    (sweepSiblings u aid l).map (fun a => a._id) = l.map (fun a => a._id) := by
  unfold sweepSiblings
  rw [List.map_map]
  apply List.map_congr_left
  intro a _
  simp only [Function.comp]
  split_ifs <;> rfl

/-- An address the sweep leaves with `isDefault` equal to `true` is unchanged by it, and
it is not a sibling: it belongs to another owner or it is the address being updated. -/
theorem sweepSiblings_default (u aid : ObjectId) (l : List Address) (x : Address)
    (hx : x ∈ sweepSiblings u aid l) (hd : x.isDefault.isTrue = true) :
    x ∈ l ∧ (x.userId = u → x._id = aid) := by
  unfold sweepSiblings at hx
  obtain ⟨a, ha, hxa⟩ := List.mem_map.mp hx
  by_cases hc : (a.userId == u && a._id != aid) = true
  · rw [if_pos hc] at hxa
    rw [← hxa] at hd
    simp [JsVal.isTrue] at hd
  · rw [if_neg hc] at hxa
    subst hxa
    refine ⟨ha, ?_⟩
    intro hau
    by_contra hne
    apply hc
    simp [hau, hne]

/-- The list-level content of the update handler keeps every owner at no more than one
default address, when no two addresses share an id. -/
theorem updated_one_default (u aid : ObjectId) (body : AddressBody) (now : Nat)
    (l : List Address) (hone : OneDefaultPerOwner l) (hids : AddressIdsUnique l) :
    OneDefaultPerOwner
      (updateFirst (fun a => a._id == aid && a.userId == u) (applyAddressBody body now)
        (if body.isDefault.truthy = true then sweepSiblings u aid l else l)) := by
  intro v
  by_cases ht : body.isDefault.truthy = true
  · simp only [ht, if_true]
    by_cases hvu : v = u
    · subst hvu
      apply length_le_one_of_same_key (fun a : Address => a._id) aid
      · have hsub : (defaultsOf v
            (updateFirst (fun a => a._id == aid && a.userId == v) (applyAddressBody body now)
              (sweepSiblings v aid l))).Sublist
            (updateFirst (fun a => a._id == aid && a.userId == v) (applyAddressBody body now)
              (sweepSiblings v aid l)) := List.filter_sublist _
        have hnd := List.Nodup.sublist (List.Sublist.map (fun a : Address => a._id) hsub)
        apply hnd
        rw [updateFirst_ids (fun a => a._id == aid && a.userId == v)
          (applyAddressBody body now) (sweepSiblings v aid l) (fun a => rfl),
          sweepSiblings_ids]
        exact hids
      · intro x hx
        unfold defaultsOf at hx
        rw [List.mem_filter] at hx
        obtain ⟨hxm, hp⟩ := hx
        simp only [Bool.and_eq_true, beq_iff_eq] at hp
        rcases mem_updateFirst _ _ _ x hxm with h1 | ⟨a, _, hpa, hxa⟩
        · exact (sweepSiblings_default v aid l x h1 hp.2).2 hp.1
        · simp only [Bool.and_eq_true, beq_iff_eq] at hpa
          rw [hxa]
          exact hpa.1
    · have hmiss : defaultsOf v
          (updateFirst (fun a => a._id == aid && a.userId == u) (applyAddressBody body now)
            (sweepSiblings u aid l)) = defaultsOf v (sweepSiblings u aid l) := by
        unfold defaultsOf
        apply filter_updateFirst_of_miss
        intro a ha
        simp only [Bool.and_eq_true, beq_iff_eq] at ha
        have huv : ¬ u = v := fun h => hvu h.symm
        have hb : (u == v) = false := by simpa using huv
        simp [applyAddressBody, ha.2, hb]
      have hfix : defaultsOf v (sweepSiblings u aid l) = defaultsOf v l := by
        unfold defaultsOf sweepSiblings
        apply filter_map_of_fixed
        intro a _
        by_cases hc : (a.userId == u && a._id != aid) = true
        · have hau : a.userId = u := by
            simp only [Bool.and_eq_true, beq_iff_eq] at hc
            exact hc.1
          have huv : ¬ u = v := fun h => hvu h.symm
          have hb : (u == v) = false := by simpa using huv
          rw [if_pos hc]
          simp [hau, hb, huv]
        · rw [if_neg hc]
          simp
      rw [hmiss, hfix]
      exact hone v
  · have hf : body.isDefault.truthy = false := by simpa using ht
    simp only [hf, Bool.false_eq_true, if_false]
    have hsub := filter_updateFirst_sublist
      (fun a : Address => a.userId == v && a.isDefault.isTrue)
      (fun a : Address => a._id == aid && a.userId == u) (applyAddressBody body now) l
      (by
        intro a
        simp [applyAddressBody, JsVal.or, hf, JsVal.isTrue])
    exact Nat.le_trans (List.Sublist.length_le hsub) (hone v)

/-- C17: starting from a store in which every owner has at most one address whose
`isDefault` is `true` (and, as in every collection, no two addresses share an id), an
address create, update or delete by any principal and with any field values yields a
store in which every owner again has at most one such address. Update and delete keep
the ids distinct, and so does create when the generated id is new. -/
theorem C17_one_default_invariant (env : Env) (db : Db) (reqUserId : JsVal)
    (paramId : String) (body : AddressBody)
    (hone : OneDefaultPerOwner db.addresses) (hids : AddressIdsUnique db.addresses) :
    (OneDefaultPerOwner (postAddress env db reqUserId body).2.addresses ∧
        OneDefaultPerOwner (putAddress env db reqUserId paramId body).2.addresses ∧
        OneDefaultPerOwner (deleteAddress env db reqUserId paramId).2.addresses) ∧
      (AddressIdsUnique (putAddress env db reqUserId paramId body).2.addresses ∧
        AddressIdsUnique (deleteAddress env db reqUserId paramId).2.addresses ∧
        (env.genId 0 ∉ db.addresses.map (fun a => a._id) →
          AddressIdsUnique (postAddress env db reqUserId body).2.addresses)) := by
  refine ⟨⟨postAddress_one_default env db reqUserId body hone, ?_, ?_⟩, ?_, ?_, ?_⟩
  · cases hid : env.objectId (JsVal.str paramId) with
    | none => simp only [putAddress, hid]; exact hone
    | some aid =>
      cases hu : env.objectId reqUserId with
      | none => simp only [putAddress, hid, hu]; exact hone
      | some u =>
        rw [(putAddress_eq env db reqUserId paramId body aid u hid hu).1]
        exact updated_one_default u aid body env.now db.addresses hone hids
  · intro v
    have hsub : (deleteAddress env db reqUserId paramId).2.addresses.Sublist db.addresses := by
      unfold deleteAddress
      cases env.objectId (JsVal.str paramId) with
      | none => exact List.Sublist.refl _
      | some aid =>
        cases env.objectId reqUserId with
        | none => exact List.Sublist.refl _
        | some u =>
          simp only
          split_ifs <;> exact List.eraseP_sublist _
    exact defaultsOf_length_of_sublist v _ _ hsub (hone v)
  · cases hid : env.objectId (JsVal.str paramId) with
    | none => simp only [putAddress, hid]; exact hids
    | some aid =>
      cases hu : env.objectId reqUserId with
      | none => simp only [putAddress, hid, hu]; exact hids
      | some u =>
        rw [(putAddress_eq env db reqUserId paramId body aid u hid hu).1]
        unfold AddressIdsUnique
        simp only
        rw [updateFirst_ids (fun a => a._id == aid && a.userId == u)
          (applyAddressBody body env.now) _ (fun a => rfl)]
        split_ifs
        · rw [sweepSiblings_ids]; exact hids
        · exact hids
  · have hsub : (deleteAddress env db reqUserId paramId).2.addresses.Sublist db.addresses := by
      unfold deleteAddress
      cases env.objectId (JsVal.str paramId) with
      | none => exact List.Sublist.refl _
      | some aid =>
        cases env.objectId reqUserId with
        | none => exact List.Sublist.refl _
        | some u =>
          simp only
          split_ifs <;> exact List.eraseP_sublist _
    exact List.Nodup.sublist (List.Sublist.map _ hsub) hids
  · intro hfresh
    unfold postAddress
    cases env.objectId reqUserId with
    | none => exact hids
    | some u =>
      simp only
      unfold AddressIdsUnique at hids ⊢
      rw [List.map_append]
      have hold : (if body.isDefault.truthy = true then
            db.addresses.map
              (fun a => if (a.userId == u) = true then
                { a with isDefault := JsVal.bool false } else a)
          else db.addresses).map (fun a => a._id) = db.addresses.map (fun a => a._id) := by
        split_ifs
        · rw [List.map_map]
          apply List.map_congr_left
          intro a _
          simp only [Function.comp]
          split_ifs <;> rfl
        · rfl
      rw [hold]
      simp only [List.map_cons, List.map_nil]
      rw [List.nodup_append]
      refine ⟨hids, List.nodup_singleton _, ?_⟩
      intro x hx hx2
      rw [List.mem_singleton] at hx2
      subst hx2
      exact hfresh hx

/-- C17, at the store of the examples, where user 162 has one address, a default one:
after user 162 creates a second default address, updates the first one to be default
again, or deletes it, every owner still has at most one default address. -/
theorem C17_one_default_invariant_witness :
    (OneDefaultPerOwner
          (postAddress sampleEnv sampleDb bobId (officeBody (JsVal.bool true))).2.addresses ∧
        OneDefaultPerOwner
          (putAddress sampleEnv sampleDb bobId "000000000000000000000007"
            (officeBody (JsVal.bool true))).2.addresses ∧
        OneDefaultPerOwner
          (deleteAddress sampleEnv sampleDb bobId "000000000000000000000007").2.addresses) ∧
      (AddressIdsUnique
          (putAddress sampleEnv sampleDb bobId "000000000000000000000007"
            (officeBody (JsVal.bool true))).2.addresses ∧
        AddressIdsUnique
          (deleteAddress sampleEnv sampleDb bobId "000000000000000000000007").2.addresses ∧
        (sampleEnv.genId 0 ∉ sampleDb.addresses.map (fun a => a._id) →
          AddressIdsUnique
            (postAddress sampleEnv sampleDb bobId
              (officeBody (JsVal.bool true))).2.addresses)) :=
  C17_one_default_invariant sampleEnv sampleDb bobId "000000000000000000000007"
    (officeBody (JsVal.bool true))
    (fun _ => Nat.le_trans (List.length_filter_le _ _) (Nat.le_refl 1))
    (List.nodup_singleton _)

/-- The sweep of the create handler: `isDefault` becomes `false` on every address of the
owner, and nothing else changes. -/
theorem create_sweep_facts (u : ObjectId) (l : List Address) :
    (l.map (fun a => if (a.userId == u) = true then
        { a with isDefault := JsVal.bool false } else a)).map (fun a => a._id) =
        l.map (fun a => a._id) ∧
      (∀ a ∈ l.map (fun a => if (a.userId == u) = true then
          { a with isDefault := JsVal.bool false } else a),
        a.userId = u → a.isDefault = JsVal.bool false) ∧
      (∀ v : ObjectId, v ≠ u →
        (l.map (fun a => if (a.userId == u) = true then
            { a with isDefault := JsVal.bool false } else a)).filter
            (fun a => a.userId == v) = l.filter (fun a => a.userId == v)) := by
  refine ⟨?_, ?_, ?_⟩
  · rw [List.map_map]
    apply List.map_congr_left
    intro a _
    simp only [Function.comp]
    split_ifs <;> rfl
  · intro x hx hxu
    obtain ⟨a, _, hxa⟩ := List.mem_map.mp hx
    by_cases hau : (a.userId == u) = true
    · rw [if_pos hau] at hxa
      rw [← hxa]
    · rw [if_neg hau] at hxa
      subst hxa
      exact absurd (by simpa using hxu) hau
  · intro v hvu
    apply filter_map_of_fixed
    intro a _
    by_cases hau : (a.userId == u) = true
    · have h1 : a.userId = u := by simpa using hau
      have huv : ¬ u = v := fun h => hvu h.symm
      have hb : (u == v) = false := by simpa using huv
      simp [h1, hb, huv]
    · simp [hau]

/-- C18: creating an address with `isDefault` equal to `true` (by a principal whose
id the `ObjectId` constructor accepts) appends the new address, and afterwards exactly
one address of that owner has `isDefault` equal to `true`, the new one; every address
the owner had before has `isDefault` equal to `false`, and the addresses of every other
owner are as they were. -/
theorem C18_create_default (env : Env) (db : Db) (reqUserId : JsVal) (body : AddressBody)
    (u : ObjectId) (hu : env.objectId reqUserId = some u)
    (hd : body.isDefault = JsVal.bool true) :
    ∃ (old : List Address) (new : Address),
      (postAddress env db reqUserId body).1 =
          Response.created "Address added successfully" new._id ∧
        (postAddress env db reqUserId body).2.addresses = old ++ [new] ∧
        new.userId = u ∧ new.isDefault = JsVal.bool true ∧
        defaultsOf u (postAddress env db reqUserId body).2.addresses = [new] ∧
        old.map (fun a => a._id) = db.addresses.map (fun a => a._id) ∧
        (∀ a ∈ old, a.userId = u → a.isDefault = JsVal.bool false) ∧
        (∀ v : ObjectId, v ≠ u →
          old.filter (fun a => a.userId == v) =
            db.addresses.filter (fun a => a.userId == v)) := by
  have ht : body.isDefault.truthy = true := by rw [hd]; rfl
  obtain ⟨h1, h2, h3⟩ := create_sweep_facts u db.addresses
  simp only [postAddress, hu, ht, if_true]
  refine ⟨_, _, rfl, rfl, rfl, ?_, ?_, h1, h2, h3⟩
  · simp only [hd, JsVal.or, JsVal.truthy, if_true]
  · unfold defaultsOf
    rw [List.filter_append]
    have hnil : (db.addresses.map
        (fun a => if (a.userId == u) = true then
          { a with isDefault := JsVal.bool false } else a)).filter
          (fun a => a.userId == u && a.isDefault.isTrue) = [] := by
      rw [List.filter_eq_nil_iff]
      intro x hx hp
      simp only [Bool.and_eq_true, beq_iff_eq] at hp
      have := h2 x hx hp.1
      rw [this] at hp
      simp [JsVal.isTrue] at hp
    rw [hnil]
    simp [hd, JsVal.or, JsVal.truthy, JsVal.isTrue]

/-- C18, at the store of the examples: user 162, whose one address is the default,
creates another default address; the new one is then the only default of user 162. -/
theorem C18_create_default_witness :
    ∃ (old : List Address) (new : Address),
      (postAddress sampleEnv sampleDb bobId (officeBody (JsVal.bool true))).1 =
          Response.created "Address added successfully" new._id ∧
        (postAddress sampleEnv sampleDb bobId (officeBody (JsVal.bool true))).2.addresses =
          old ++ [new] ∧
        new.userId = 162 ∧ new.isDefault = JsVal.bool true ∧
        defaultsOf 162
            (postAddress sampleEnv sampleDb bobId
              (officeBody (JsVal.bool true))).2.addresses = [new] ∧
        old.map (fun a => a._id) = sampleDb.addresses.map (fun a => a._id) ∧
        (∀ a ∈ old, a.userId = 162 → a.isDefault = JsVal.bool false) ∧
        (∀ v : ObjectId, v ≠ 162 →
          old.filter (fun a => a.userId == v) =
            sampleDb.addresses.filter (fun a => a.userId == v)) :=
  C18_create_default sampleEnv sampleDb bobId (officeBody (JsVal.bool true)) 162 rfl rfl

/-- On addresses none of which has the id being updated, the sweep clears the flag of
every address of the owner and leaves the addresses of every other owner as they were. -/
theorem sweepSiblings_facts (u aid : ObjectId) (l : List Address)
    (hno : ∀ x ∈ l, x._id ≠ aid) :
    (∀ x ∈ sweepSiblings u aid l, x.userId = u → x.isDefault = JsVal.bool false) ∧
      (∀ x ∈ sweepSiblings u aid l, ¬ (x._id == aid && x.userId == u) = true) ∧
      defaultsOf u (sweepSiblings u aid l) = [] := by
  have h1 : ∀ x ∈ sweepSiblings u aid l, x.userId = u → x.isDefault = JsVal.bool false := by
    intro x hx hxu
    unfold sweepSiblings at hx
    obtain ⟨a, ha, hxa⟩ := List.mem_map.mp hx
    by_cases hc : (a.userId == u && a._id != aid) = true
    · rw [if_pos hc] at hxa
      rw [← hxa]
    · rw [if_neg hc] at hxa
      rw [← hxa] at hxu
      exfalso
      apply hc
      simp [hxu, hno a ha]
  have h2 : ∀ x ∈ sweepSiblings u aid l, ¬ (x._id == aid && x.userId == u) = true := by
    intro x hx hp
    simp only [Bool.and_eq_true, beq_iff_eq] at hp
    have hmem : x._id ∈ (sweepSiblings u aid l).map (fun a => a._id) :=
      List.mem_map.mpr ⟨x, hx, rfl⟩
    rw [sweepSiblings_ids] at hmem
    obtain ⟨y, hy, hyx⟩ := List.mem_map.mp hmem
    exact hno y hy (hyx.trans hp.1)
  refine ⟨h1, h2, ?_⟩
  unfold defaultsOf
  rw [List.filter_eq_nil_iff]
  intro x hx hp
  simp only [Bool.and_eq_true, beq_iff_eq] at hp
  have := h1 x hx hp.1
  rw [this] at hp
  simp [JsVal.isTrue] at hp

theorem sweepSiblings_other_owner (u aid v : ObjectId) (l : List Address) (hvu : v ≠ u) :
    (sweepSiblings u aid l).filter (fun a => a.userId == v) =
      l.filter (fun a => a.userId == v) := by
  unfold sweepSiblings
  apply filter_map_of_fixed
  intro a _
  by_cases hc : (a.userId == u && a._id != aid) = true
  · have hau : a.userId = u := by
      simp only [Bool.and_eq_true, beq_iff_eq] at hc
      exact hc.1
    have huv : ¬ u = v := fun h => hvu h.symm
    have hb : (u == v) = false := by simpa using huv
    rw [if_pos hc]
    simp [hau, hb, huv]
  · rw [if_neg hc]
    simp

/-- In a list without repeated ids, the addresses around one with id `aid` do not have
that id. -/
theorem ids_around (aid : ObjectId) (pre post : List Address) (a : Address)
    (ha : a._id = aid) (hids : AddressIdsUnique (pre ++ a :: post)) :
    (∀ x ∈ pre, x._id ≠ aid) ∧ (∀ x ∈ post, x._id ≠ aid) := by
  unfold AddressIdsUnique at hids
  rw [List.map_append, List.map_cons, List.nodup_append] at hids
  obtain ⟨_, hr, hdisj⟩ := hids
  rw [List.nodup_cons] at hr
  constructor
  · intro x hx hxa
    exact hdisj (List.mem_map.mpr ⟨x, hx, rfl⟩)
      (by rw [hxa, ← ha]; exact List.mem_cons_self _ _)
  · intro x hx hxa
    apply hr.1
    rw [ha, ← hxa]
    exact List.mem_map.mpr ⟨x, hx, rfl⟩

/-- C19: an update with `isDefault` equal to `true` of an address of the owner (both
ids accepted by the `ObjectId` constructor, no two addresses sharing an id) succeeds
and replaces that address, in place, by the updated one; afterwards exactly one address
of the owner has `isDefault` equal to `true`, the updated one; every sibling address of
the owner has `isDefault` equal to `false`, and the addresses of every other owner are
as they were. -/
theorem C19_update_default (env : Env) (db : Db) (reqUserId : JsVal) (paramId : String)
    (body : AddressBody) (aid u : ObjectId)
    (hid : env.objectId (JsVal.str paramId) = some aid)
    (hu : env.objectId reqUserId = some u)
    (hd : body.isDefault = JsVal.bool true)
    (hids : AddressIdsUnique db.addresses)
    (hex : ∃ a ∈ db.addresses, a._id = aid ∧ a.userId = u) :
    (putAddress env db reqUserId paramId body).1 =
        Response.ok "Address updated successfully" ∧
      ∃ (pre post pre' post' : List Address) (a a' : Address),
        db.addresses = pre ++ a :: post ∧ a._id = aid ∧ a.userId = u ∧
          (putAddress env db reqUserId paramId body).2.addresses = pre' ++ a' :: post' ∧
          a' = applyAddressBody body env.now a ∧
          a'._id = aid ∧ a'.userId = u ∧ a'.isDefault = JsVal.bool true ∧
          defaultsOf u (putAddress env db reqUserId paramId body).2.addresses = [a'] ∧
          pre'.map (fun x => x._id) = pre.map (fun x => x._id) ∧
          post'.map (fun x => x._id) = post.map (fun x => x._id) ∧
          (∀ x ∈ pre' ++ post', x.userId = u → x.isDefault = JsVal.bool false) ∧
          (∀ v : ObjectId, v ≠ u →
            (putAddress env db reqUserId paramId body).2.addresses.filter
                (fun x => x.userId == v) =
              db.addresses.filter (fun x => x.userId == v)) := by
  obtain ⟨a, hamem, haid, hau⟩ := hex
  obtain ⟨pre, post, hsplit⟩ := List.append_of_mem hamem
  have ht : body.isDefault.truthy = true := by rw [hd]; rfl
  have haround := hids
  rw [hsplit] at haround
  obtain ⟨hpre, hpost⟩ := ids_around aid pre post a haid haround
  obtain ⟨hpre1, hpre2, hpre3⟩ := sweepSiblings_facts u aid pre hpre
  obtain ⟨hpost1, _, hpost3⟩ := sweepSiblings_facts u aid post hpost
  have hhit : (a._id == aid && a.userId == u) = true := by simp [haid, hau]
  have hswept : sweepSiblings u aid db.addresses =
      sweepSiblings u aid pre ++ a :: sweepSiblings u aid post := by
    rw [hsplit]
    unfold sweepSiblings
    rw [List.map_append, List.map_cons]
    have : (a.userId == u && a._id != aid) = false := by simp [haid]
    simp [this]
  have hany : (sweepSiblings u aid db.addresses).any
      (fun x => x._id == aid && x.userId == u) = true := by
    rw [hswept]
    exact List.any_eq_true.mpr ⟨a, by simp, hhit⟩
  have hres := putAddress_eq env db reqUserId paramId body aid u hid hu
  simp only [ht, if_true, hany] at hres
  have hupd : updateFirst (fun x => x._id == aid && x.userId == u)
      (applyAddressBody body env.now) (sweepSiblings u aid db.addresses) =
      sweepSiblings u aid pre ++ applyAddressBody body env.now a ::
        sweepSiblings u aid post := by
    rw [hswept]
    exact updateFirst_split (fun x : Address => x._id == aid && x.userId == u)
      (applyAddressBody body env.now) (sweepSiblings u aid pre) (sweepSiblings u aid post) a
      (fun b hb => by simpa using hpre2 b hb) hhit
  have hadef : (applyAddressBody body env.now a).isDefault = JsVal.bool true := by
    simp [applyAddressBody, hd, JsVal.or, JsVal.truthy]
  refine ⟨hres.2, pre, post, sweepSiblings u aid pre, sweepSiblings u aid post, a,
    applyAddressBody body env.now a, hsplit, haid, hau, ?_, rfl, haid, hau, hadef, ?_,
    sweepSiblings_ids u aid pre, sweepSiblings_ids u aid post, ?_, ?_⟩
  · rw [hres.1]
    exact hupd
  · rw [hres.1]
    simp only
    rw [hupd]
    unfold defaultsOf at hpre3 hpost3 ⊢
    rw [List.filter_append, List.filter_cons, hpre3, hpost3]
    have hp : ((applyAddressBody body env.now a).userId == u &&
        (applyAddressBody body env.now a).isDefault.isTrue) = true := by
      rw [hadef]
      simp [applyAddressBody, hau, JsVal.isTrue]
    rw [if_pos hp]
    rfl
  · intro x hx hxu
    rcases List.mem_append.mp hx with h | h
    · exact hpre1 x h hxu
    · exact hpost1 x h hxu
  · intro v hvu
    rw [hres.1]
    simp only
    rw [hupd, hsplit]
    have huv : ¬ u = v := fun h => hvu h.symm
    have hb : (u == v) = false := by simpa using huv
    simp only [List.filter_append, List.filter_cons, sweepSiblings_other_owner u aid v _ hvu]
    simp [applyAddressBody, hau, hb]

/-- C19, at a store in which user 162 has the default address 7 and the address 8: user
162 updates address 8 with `isDefault` equal to `true`; address 8 is then the only
default of user 162, and the default address 9 of user 161 is untouched. -/
theorem C19_update_default_witness :
    (putAddress sampleEnv threeAddressDb bobId "000000000000000000000008"
        (officeBody (JsVal.bool true))).1 = Response.ok "Address updated successfully" ∧
      ∃ (pre post pre' post' : List Address) (a a' : Address),
        threeAddressDb.addresses = pre ++ a :: post ∧ a._id = 8 ∧ a.userId = 162 ∧
          (putAddress sampleEnv threeAddressDb bobId "000000000000000000000008"
            (officeBody (JsVal.bool true))).2.addresses = pre' ++ a' :: post' ∧
          a' = applyAddressBody (officeBody (JsVal.bool true)) sampleEnv.now a ∧
          a'._id = 8 ∧ a'.userId = 162 ∧ a'.isDefault = JsVal.bool true ∧
          defaultsOf 162
            (putAddress sampleEnv threeAddressDb bobId "000000000000000000000008"
              (officeBody (JsVal.bool true))).2.addresses = [a'] ∧
          pre'.map (fun x => x._id) = pre.map (fun x => x._id) ∧
          post'.map (fun x => x._id) = post.map (fun x => x._id) ∧
          (∀ x ∈ pre' ++ post', x.userId = 162 → x.isDefault = JsVal.bool false) ∧
          (∀ v : ObjectId, v ≠ 162 →
            (putAddress sampleEnv threeAddressDb bobId "000000000000000000000008"
                (officeBody (JsVal.bool true))).2.addresses.filter
                (fun x => x.userId == v) =
              threeAddressDb.addresses.filter (fun x => x.userId == v)) :=
  C19_update_default sampleEnv threeAddressDb bobId "000000000000000000000008"
    (officeBody (JsVal.bool true)) 8 162 rfl rfl rfl
    (by
      unfold AddressIdsUnique
      simp [threeAddressDb, addressOf])
    ⟨addressOf 8 162 false, by simp [threeAddressDb], rfl, rfl⟩

/-- C20 as stated fails: the address id `abc` is not an id the `ObjectId` constructor
accepts, so no address of the principal has it; delete answers 500 `Error deleting
address`, not 404. -/
theorem C20_malformed_address_id_is_a_server_error :
    sampleEnv.objectId (JsVal.str "abc") = none ∧
      deleteAddress sampleEnv threeAddressDb bobId "abc" =
        (Response.error 500 "Error deleting address", threeAddressDb) ∧
      (deleteAddress sampleEnv threeAddressDb bobId "abc").1 ≠
        Response.error 404 "Address not found" := by
  refine ⟨rfl, rfl, ?_⟩
  intro h
  have h2 : Response.error 500 "Error deleting address" =
      Response.error 404 "Address not found" := h
  injection h2 with h3 _
  exact absurd h3 (by decide)

/-- C20, amended: for a principal and an address id, both ids the `ObjectId`
constructor accepts: if every address with that id, if there is one, belongs to a different
owner, delete answers 404 `Address not found` and the store is as it was; if an
address with that id belongs to the principal, delete answers success and the store is
the one before with exactly that address taken out, every other address being unchanged;
when the removed address was the default of an owner with at most one default, that
owner has no default address afterwards. -/
theorem C20_delete_address (env : Env) (db : Db) (reqUserId : JsVal) (paramId : String)
    (aid u : ObjectId) (hid : env.objectId (JsVal.str paramId) = some aid)
    (hu : env.objectId reqUserId = some u) :
    ((∀ a ∈ db.addresses, a._id = aid → a.userId ≠ u) →
        deleteAddress env db reqUserId paramId =
          (Response.error 404 "Address not found", db)) ∧
      ((∃ a ∈ db.addresses, a._id = aid ∧ a.userId = u) →
        (deleteAddress env db reqUserId paramId).1 =
            Response.ok "Address deleted successfully" ∧
          ∃ (pre : List Address) (a : Address) (post : List Address),
            db.addresses = pre ++ a :: post ∧ a._id = aid ∧ a.userId = u ∧
              (deleteAddress env db reqUserId paramId).2 =
                { db with addresses := pre ++ post } ∧
              (OneDefaultPerOwner db.addresses → a.isDefault = JsVal.bool true →
                defaultsOf u (pre ++ post) = [])) := by
  constructor
  · intro hno
    have hnone : ∀ a ∈ db.addresses, ¬ (a._id == aid && a.userId == u) = true := by
      intro a ha hp
      simp only [Bool.and_eq_true, beq_iff_eq] at hp
      exact hno a ha hp.1 hp.2
    have hany : db.addresses.any (fun a => a._id == aid && a.userId == u) = false := by
      rw [Bool.eq_false_iff]
      intro h
      obtain ⟨a, ha, hp⟩ := List.any_eq_true.mp h
      exact hnone a ha hp
    simp only [deleteAddress, hid, hu, hany, Bool.false_eq_true, if_false]
    rw [List.eraseP_of_forall_not hnone]
  · rintro ⟨a0, ha0, h1, h2⟩
    have hp0 : (a0._id == aid && a0.userId == u) = true := by
      simp [h1, h2]
    have hany : db.addresses.any (fun a => a._id == aid && a.userId == u) = true :=
      List.any_eq_true.mpr ⟨a0, ha0, hp0⟩
    obtain ⟨a, pre, post, _, hpa, hsplit, herase⟩ :=
      List.exists_of_eraseP (p := fun a : Address => a._id == aid && a.userId == u) ha0 hp0
    simp only [Bool.and_eq_true, beq_iff_eq] at hpa
    simp only [deleteAddress, hid, hu, hany, if_true]
    refine ⟨trivial, pre, a, post, hsplit, hpa.1, hpa.2, by rw [herase], ?_⟩
    intro hone hdef
    have hlen := hone u
    unfold defaultsOf at hlen ⊢
    have hp : (a.userId == u && a.isDefault.isTrue) = true := by
      simp [hpa.2, hdef, JsVal.isTrue]
    rw [hsplit, List.filter_append, List.filter_cons, if_pos hp, List.length_append,
      List.length_cons] at hlen
    rw [List.filter_append]
    have h3 : (pre.filter (fun a => a.userId == u && a.isDefault.isTrue)).length = 0 := by
      omega
    have h4 : (post.filter (fun a => a.userId == u && a.isDefault.isTrue)).length = 0 := by
      omega
    rw [List.length_eq_zero.mp h3, List.length_eq_zero.mp h4]
    rfl

/-- C20, at a store in which user 162 has the default address 7 and the address 8: user
161 cannot delete address 7 and the store stays as it was; user 162 deletes it, address
8 keeps its flag, and user 162 is left without a default address. -/
theorem C20_delete_address_witness :
    deleteAddress sampleEnv threeAddressDb aliceId "000000000000000000000007" =
        (Response.error 404 "Address not found", threeAddressDb) ∧
      (deleteAddress sampleEnv threeAddressDb bobId "000000000000000000000007").1 =
        Response.ok "Address deleted successfully" ∧
      ∃ (pre : List Address) (a : Address) (post : List Address),
        threeAddressDb.addresses = pre ++ a :: post ∧ a._id = 7 ∧ a.userId = 162 ∧
          (deleteAddress sampleEnv threeAddressDb bobId "000000000000000000000007").2 =
            { threeAddressDb with addresses := pre ++ post } ∧
          (OneDefaultPerOwner threeAddressDb.addresses → a.isDefault = JsVal.bool true →
            defaultsOf 162 (pre ++ post) = []) :=
  ⟨(C20_delete_address sampleEnv threeAddressDb aliceId "000000000000000000000007" 7 161
      rfl rfl).1
      (by
        intro a ha
        simp only [threeAddressDb, List.mem_cons, List.mem_singleton, List.not_mem_nil,
          or_false] at ha
        rcases ha with h | h | h <;> subst h <;> simp [addressOf]),
    (C20_delete_address sampleEnv threeAddressDb bobId "000000000000000000000007" 7 162
      rfl rfl).2 ⟨addressOf 7 162 true, by simp [threeAddressDb], rfl, rfl⟩⟩

/-! ## Sorting -/

theorem insertBy_perm {α : Type} (le : α → α → Bool) (x : α) (l : List α) :
    (insertBy le x l).Perm (x :: l) := by
  induction l with
  | nil => exact List.Perm.refl _
  | cons y ys ih =>
    by_cases h : le x y = true
    · simp [insertBy, h]
    · simp only [insertBy, h, Bool.false_eq_true, if_false]
      exact ((List.perm_cons y).mpr ih).trans (List.Perm.swap x y ys)

theorem sortBy_perm {α : Type} (le : α → α → Bool) (l : List α) : (sortBy le l).Perm l := by
  induction l with
  | nil => exact List.Perm.refl _
  | cons x xs ih =>
    exact (insertBy_perm le x (sortBy le xs)).trans ((List.perm_cons x).mpr ih)

theorem insertBy_pairwise {α : Type} (le : α → α → Bool) (x : α) (l : List α)
    (htot : ∀ b ∈ l, le x b = true ∨ le b x = true)
    (htrans : ∀ b ∈ l, ∀ c ∈ l, le x b = true → le b c = true → le x c = true)
    (hl : l.Pairwise (fun a b => le a b = true)) :
    (insertBy le x l).Pairwise (fun a b => le a b = true) := by
  induction l with
  | nil => simp [insertBy]
  | cons y ys ih =>
    rw [List.pairwise_cons] at hl
    by_cases h : le x y = true
    · simp only [insertBy, h, if_true]
      rw [List.pairwise_cons]
      refine ⟨?_, List.pairwise_cons.mpr hl⟩
      intro z hz
      rcases List.mem_cons.mp hz with hzy | hzs
      · rw [hzy]; exact h
      · exact htrans y (List.mem_cons_self y ys) z (List.mem_cons_of_mem y hzs) h (hl.1 z hzs)
    · simp only [insertBy, h, Bool.false_eq_true, if_false]
      rw [List.pairwise_cons]
      have hyx : le y x = true := by
        rcases htot y (List.mem_cons_self y ys) with h1 | h1
        · exact absurd h1 h
        · exact h1
      refine ⟨?_, ih (fun b hb => htot b (List.mem_cons_of_mem y hb))
        (fun b hb c hc => htrans b (List.mem_cons_of_mem y hb) c (List.mem_cons_of_mem y hc))
        hl.2⟩
      intro z hz
      rcases List.mem_cons.mp ((insertBy_perm le x ys).mem_iff.mp hz) with hzx | hzs
      · rw [hzx]; exact hyx
      · exact hl.1 z hzs

/-- The sort yields a list in which every element sorts at or before every later one,
when the order is total and transitive on the elements of the list. -/
theorem sortBy_pairwise {α : Type} (le : α → α → Bool) (l : List α)
    (htot : ∀ a ∈ l, ∀ b ∈ l, le a b = true ∨ le b a = true)
    (htrans : ∀ a ∈ l, ∀ b ∈ l, ∀ c ∈ l, le a b = true → le b c = true → le a c = true) :
    (sortBy le l).Pairwise (fun a b => le a b = true) := by
  induction l with
  | nil => simp [sortBy]
  | cons x xs ih =>
    have hmem : ∀ z, z ∈ sortBy le xs → z ∈ x :: xs := fun z hz =>
      List.mem_cons_of_mem x ((sortBy_perm le xs).mem_iff.mp hz)
    apply insertBy_pairwise
    · intro b hb
      exact htot x (List.mem_cons_self x xs) b (hmem b hb)
    · intro b hb c hc
      exact htrans x (List.mem_cons_self x xs) b (hmem b hb) c (hmem c hc)
    · exact ih (fun a ha b hb => htot a (List.mem_cons_of_mem x ha) b (List.mem_cons_of_mem x hb))
        (fun a ha b hb c hc =>
          htrans a (List.mem_cons_of_mem x ha) b (List.mem_cons_of_mem x hb) c
            (List.mem_cons_of_mem x hc))

/-! ## Addresses: the listing -/

/-- On two addresses with boolean flags the sort order of the listing says: not a
`false` before a `true`, and with equal flags the later `createdAt` first. -/
theorem addressBefore_bool (env : Env) (a b : Address) (x y : Bool)
    (ha : a.isDefault = JsVal.bool x) (hb : b.isDefault = JsVal.bool y) :
    addressBefore env a b = true ↔
      (x = true ∨ y = false) ∧ (x = y → b.createdAt ≤ a.createdAt) := by
  unfold addressBefore defaultBefore
  rw [ha, hb]
  cases x <;> cases y <;> simp

/-- C21: for a principal (whose id the `ObjectId` constructor accepts) whose addresses
carry boolean `isDefault` flags, the listing returns exactly the addresses the principal
owns (a rearrangement of them), ordered so that no address with `isDefault` equal to
`false` comes before one with `isDefault` equal to `true`, and among addresses with
equal `isDefault` one with a later `createdAt` comes first. -/
theorem C21_address_listing (env : Env) (db : Db) (reqUserId : JsVal) (u : ObjectId)
    (hu : env.objectId reqUserId = some u)
    (hbool : ∀ a ∈ db.addresses, a.userId = u → ∃ x : Bool, a.isDefault = JsVal.bool x) :
    ∃ l : List Address,
      getAddresses env db reqUserId = Reply.json l ∧
        l.Perm (db.addresses.filter (fun a => a.userId == u)) ∧
        l.Pairwise
          (fun a b =>
            ¬ (a.isDefault = JsVal.bool false ∧ b.isDefault = JsVal.bool true) ∧
              (a.isDefault = b.isDefault → b.createdAt ≤ a.createdAt)) := by
  have hflag : ∀ a ∈ db.addresses.filter (fun a => a.userId == u),
      ∃ x : Bool, a.isDefault = JsVal.bool x := by
    intro a ha
    rw [List.mem_filter] at ha
    exact hbool a ha.1 (by simpa using ha.2)
  refine ⟨sortBy (addressBefore env) (db.addresses.filter (fun a => a.userId == u)), ?_,
    sortBy_perm _ _, ?_⟩
  · simp only [getAddresses, hu]
  · have hsorted := sortBy_pairwise (addressBefore env)
      (db.addresses.filter (fun a => a.userId == u))
      (by
        intro a ha b hb
        obtain ⟨x, hx⟩ := hflag a ha
        obtain ⟨y, hy⟩ := hflag b hb
        rw [addressBefore_bool env a b x y hx hy, addressBefore_bool env b a y x hy hx]
        cases x <;> cases y <;> simp <;> omega)
      (by
        intro a ha b hb c hc
        obtain ⟨x, hx⟩ := hflag a ha
        obtain ⟨y, hy⟩ := hflag b hb
        obtain ⟨z, hz⟩ := hflag c hc
        rw [addressBefore_bool env a b x y hx hy, addressBefore_bool env b c y z hy hz,
          addressBefore_bool env a c x z hx hz]
        cases x <;> cases y <;> cases z <;> simp <;> omega)
    have hmem : ∀ a, a ∈ sortBy (addressBefore env)
        (db.addresses.filter (fun a => a.userId == u)) →
        a ∈ db.addresses.filter (fun a => a.userId == u) :=
      fun a ha => (sortBy_perm _ _).mem_iff.mp ha
    refine List.Pairwise.imp_of_mem ?_ hsorted
    intro a b ha hb hab
    obtain ⟨x, hx⟩ := hflag a (hmem a ha)
    obtain ⟨y, hy⟩ := hflag b (hmem b hb)
    rw [addressBefore_bool env a b x y hx hy] at hab
    rw [hx, hy]
    constructor
    · rintro ⟨h1, h2⟩
      injection h1 with h1
      injection h2 with h2
      rcases hab.1 with h3 | h3
      · rw [h1] at h3; exact Bool.false_ne_true h3
      · rw [h2] at h3; exact Bool.false_ne_true h3.symm
    · intro heq
      injection heq with heq
      exact hab.2 heq

/-- C21, at a store in which user 162 has address 7 from time 5, the default address 8
from time 6 and address 9 from time 9: the listing of user 162 is 8, 9, 7. -/
theorem C21_address_listing_witness :
    (∃ l : List Address,
        getAddresses sampleEnv listingDb bobId = Reply.json l ∧
          l.Perm (listingDb.addresses.filter (fun a => a.userId == 162)) ∧
          l.Pairwise
            (fun a b =>
              ¬ (a.isDefault = JsVal.bool false ∧ b.isDefault = JsVal.bool true) ∧
                (a.isDefault = b.isDefault → b.createdAt ≤ a.createdAt))) ∧
      getAddresses sampleEnv listingDb bobId =
        Reply.json
          [{ addressOf 8 162 true with createdAt := 6 },
           { addressOf 9 162 false with createdAt := 9 },
           { addressOf 7 162 false with createdAt := 5 }] :=
  ⟨C21_address_listing sampleEnv listingDb bobId 162 rfl
      (by
        intro a ha _
        simp only [listingDb, List.mem_cons, List.mem_singleton, List.not_mem_nil,
          or_false] at ha
        rcases ha with h | h | h | h <;> subst h
        · exact ⟨false, rfl⟩
        · exact ⟨true, rfl⟩
        · exact ⟨true, rfl⟩
        · exact ⟨false, rfl⟩),
    rfl⟩

/-! ## Admin: cascade delete of a user -/

theorem mem_filter_bne {α : Type} (key : α → ObjectId) (uid : ObjectId) (l : List α) :
    ∀ x ∈ l.filter (fun a => key a != uid), key x ≠ uid := by
  intro x hx
  rw [List.mem_filter] at hx
  simpa using hx.2

/-- C22: for the id of an existing user (an id the `ObjectId` constructor accepts, in a
store whose user ids are distinct), the cascade delete answers with the counts, and
afterwards no cart line, address or order of that user is left, no order item of an
order that user had is left, and no user record with that id is left; the counts are
the numbers of cart lines, addresses and orders of the user, and of order items of the
user's orders, in the store before the call. -/
theorem C22_cascade_delete (env : Env) (db : Db) (paramId : String) (uid : ObjectId)
    (hid : env.objectId (JsVal.str paramId) = some uid)
    (hex : ∃ x ∈ db.users, x._id = uid)
    (hnodup : (db.users.map (fun x => x._id)).Nodup) :
    ∃ counts : DeletedCounts,
      (deleteAdminUser env db paramId).1 = Reply.json counts ∧
        (∀ l ∈ (deleteAdminUser env db paramId).2.cart, l.userId ≠ uid) ∧
        (∀ a ∈ (deleteAdminUser env db paramId).2.addresses, a.userId ≠ uid) ∧
        (∀ o ∈ (deleteAdminUser env db paramId).2.orders, o.userId ≠ uid) ∧
        (∀ i ∈ (deleteAdminUser env db paramId).2.orderItems,
          ∀ o ∈ db.orders, o.userId = uid → i.orderId ≠ o._id) ∧
        (∀ x ∈ (deleteAdminUser env db paramId).2.users, x._id ≠ uid) ∧
        counts.cartItems = (db.cart.filter (fun l => l.userId == uid)).length ∧
        counts.addresses = (db.addresses.filter (fun a => a.userId == uid)).length ∧
        counts.orders = (db.orders.filter (fun o => o.userId == uid)).length ∧
        counts.orderItems =
          (db.orderItems.filter
            (fun i => db.orders.any (fun o => o.userId == uid && o._id == i.orderId))).length := by
  obtain ⟨x0, hx0, hx0id⟩ := hex
  have hsome : (db.users.find? (fun x => x._id == uid)).isSome = true := by
    rw [List.find?_isSome]
    exact ⟨x0, hx0, by simp [hx0id]⟩
  obtain ⟨usr, husr⟩ := Option.isSome_iff_exists.mp hsome
  have hany : db.users.any (fun x => x._id == uid) = true :=
    List.any_eq_true.mpr ⟨x0, hx0, by simp [hx0id]⟩
  -- membership in the list of the user's order ids
  have hcontains : ∀ i : OrderItem,
      ((db.orders.filter (fun o => o.userId == uid)).map (fun o => o._id)).contains i.orderId =
        db.orders.any (fun o => o.userId == uid && o._id == i.orderId) := by
    intro i
    rw [Bool.eq_iff_iff, List.contains_eq_any_beq]
    simp only [List.any_eq_true, List.mem_map, List.mem_filter, Bool.and_eq_true, beq_iff_eq]
    constructor
    · rintro ⟨k, ⟨o, ⟨ho, hou⟩, hoid⟩, hk⟩
      exact ⟨o, ho, hou, hoid.trans hk.symm⟩
    · rintro ⟨o, ho, hou, hoid⟩
      exact ⟨o._id, ⟨o, ⟨ho, hou⟩, rfl⟩, hoid.symm⟩
  have husers : ∀ x ∈ db.users.eraseP (fun x => x._id == uid), x._id ≠ uid := by
    intro x hx hxid
    obtain ⟨a, pre, post, _, hpa, hsplit, herase⟩ :=
      List.exists_of_eraseP (p := fun x : User => x._id == uid) hx0 (by simp [hx0id])
    rw [herase] at hx
    rw [hsplit, List.map_append, List.map_cons, List.nodup_append] at hnodup
    obtain ⟨_, hr, hdisj⟩ := hnodup
    rw [List.nodup_cons] at hr
    have haid : a._id = uid := by simpa using hpa
    rcases List.mem_append.mp hx with h | h
    · exact hdisj (List.mem_map.mpr ⟨x, h, rfl⟩)
        (by rw [hxid, ← haid]; exact List.mem_cons_self _ _)
    · apply hr.1
      rw [haid, ← hxid]
      exact List.mem_map.mpr ⟨x, h, rfl⟩
  by_cases hlen : (List.map (fun o => o._id)
      (List.filter (fun o => o.userId == uid) db.orders)).length > 0
  · simp only [deleteAdminUser, hid, husr, hlen, if_true, hany]
    refine ⟨_, rfl, mem_filter_bne (fun l : CartLine => l.userId) uid db.cart,
      mem_filter_bne (fun a : Address => a.userId) uid db.addresses,
      mem_filter_bne (fun o : Order => o.userId) uid db.orders, ?_, husers, rfl, rfl, rfl, ?_⟩
    · intro i hi o ho hou hio
      rw [List.mem_filter] at hi
      have hc := hi.2
      rw [hcontains i] at hc
      have : db.orders.any (fun o => o.userId == uid && o._id == i.orderId) = true :=
        List.any_eq_true.mpr ⟨o, ho, by simp [hou, hio]⟩
      rw [this] at hc
      simp at hc
    · simp only [hcontains]
  · simp only [deleteAdminUser, hid, husr, hlen, if_false, hany, if_true]
    have hnil : db.orders.filter (fun o => o.userId == uid) = [] := by
      have h0 : (List.map (fun o => o._id)
          (List.filter (fun o => o.userId == uid) db.orders)).length = 0 := by omega
      rw [List.length_map] at h0
      exact List.length_eq_zero.mp h0
    have hnone : ∀ o ∈ db.orders, ¬ (o.userId == uid) = true :=
      List.filter_eq_nil_iff.mp hnil
    refine ⟨_, rfl, mem_filter_bne (fun l : CartLine => l.userId) uid db.cart,
      mem_filter_bne (fun a : Address => a.userId) uid db.addresses,
      mem_filter_bne (fun o : Order => o.userId) uid db.orders, ?_, husers, rfl, rfl, rfl, ?_⟩
    · intro i _ o ho hou
      exact absurd (by simpa using hou) (hnone o ho)
    · symm
      rw [List.length_eq_zero, List.filter_eq_nil_iff]
      intro i _ hc
      obtain ⟨o, ho, hp⟩ := List.any_eq_true.mp hc
      simp only [Bool.and_eq_true, beq_iff_eq] at hp
      exact hnone o ho (by simpa using hp.1)

/-- C22, at a store in which user 161 has two cart lines, one address, two orders and
three order items: the cascade delete of user 161 answers with the counts 2, 1, 2 and
3, and nothing of user 161 is left. -/
theorem C22_cascade_delete_witness :
    (∃ counts : DeletedCounts,
        (deleteAdminUser sampleEnv shopDb "0000000000000000000000a1").1 = Reply.json counts ∧
          (∀ l ∈ (deleteAdminUser sampleEnv shopDb "0000000000000000000000a1").2.cart,
            l.userId ≠ 161) ∧
          (∀ a ∈ (deleteAdminUser sampleEnv shopDb "0000000000000000000000a1").2.addresses,
            a.userId ≠ 161) ∧
          (∀ o ∈ (deleteAdminUser sampleEnv shopDb "0000000000000000000000a1").2.orders,
            o.userId ≠ 161) ∧
          (∀ i ∈ (deleteAdminUser sampleEnv shopDb "0000000000000000000000a1").2.orderItems,
            ∀ o ∈ shopDb.orders, o.userId = 161 → i.orderId ≠ o._id) ∧
          (∀ x ∈ (deleteAdminUser sampleEnv shopDb "0000000000000000000000a1").2.users,
            x._id ≠ 161) ∧
          counts.cartItems = (shopDb.cart.filter (fun l => l.userId == 161)).length ∧
          counts.addresses = (shopDb.addresses.filter (fun a => a.userId == 161)).length ∧
          counts.orders = (shopDb.orders.filter (fun o => o.userId == 161)).length ∧
          counts.orderItems =
            (shopDb.orderItems.filter
              (fun i =>
                shopDb.orders.any (fun o => o.userId == 161 && o._id == i.orderId))).length) ∧
      (deleteAdminUser sampleEnv shopDb "0000000000000000000000a1").1 =
        Reply.json { cartItems := 2, addresses := 1, orders := 2, orderItems := 3 } :=
  ⟨C22_cascade_delete sampleEnv shopDb "0000000000000000000000a1" 161 rfl
      ⟨_, List.mem_cons_self _ _, rfl⟩
      (by simp [shopDb]),
    rfl⟩

/-- C23: the cascade delete route does not look at the credential. A request without an
`Authorization` header deletes user 161 with the two cart lines, the address, the two
orders and the three order items, while the same request without a header on the
clear-cart route, which goes through `authenticateToken`, is answered 401 and changes
nothing. -/
theorem C23_cascade_delete_without_credential :
    (deleteAdminUserRoute sampleEnv shopDb none "0000000000000000000000a1").1 =
        Reply.json { cartItems := 2, addresses := 1, orders := 2, orderItems := 3 } ∧
      (deleteAdminUserRoute sampleEnv shopDb none "0000000000000000000000a1").2.users.length =
        1 ∧
      (deleteAdminUserRoute sampleEnv shopDb (some "Bearer bob-token")
          "0000000000000000000000a1").1 =
        Reply.json { cartItems := 2, addresses := 1, orders := 2, orderItems := 3 } ∧
      deleteCartRoute sampleEnv shopDb none =
        (Response.error 401 "Access token required", shopDb) :=
  ⟨rfl, rfl, rfl, rfl⟩

/-! ## Orders: the listing -/

theorem roundToDouble_of_safe (m : Int) (h : m.natAbs ≤ 2 ^ 53) :
    roundToDouble m = some m := by
  simp only [roundToDouble, h, if_true]

theorem toNumber_of_number_or_null (env : Env) (v : JsVal) (p : Int)
    (h : v = JsVal.num p ∨ (v = JsVal.null ∧ p = 0)) : toNumber env v = some (some p) := by
  rcases h with h | ⟨h, h0⟩
  · rw [h]; rfl
  · rw [h, h0]; rfl

theorem itemViews_of_numbers (env : Env) (items : List OrderItem)
    (hnum : ∀ i ∈ items,
      (∃ p : Int, i.price = JsVal.num p ∨ (i.price = JsVal.null ∧ p = 0)) ∧
        ∃ q : Int, i.quantity = JsVal.num q ∨ (i.quantity = JsVal.null ∧ q = 0)) :
    ∃ vs, itemViews env items = some vs ∧ List.Forall₂ IsViewOf items vs := by
  induction items with
  | nil => exact ⟨[], rfl, List.Forall₂.nil⟩
  | cons i rest ih =>
    obtain ⟨vs, hvs, hall⟩ := ih (fun j hj => hnum j (List.mem_cons_of_mem i hj))
    obtain ⟨⟨p, hp⟩, ⟨q, hq⟩⟩ := hnum i (List.mem_cons_self i rest)
    have hx := toNumber_of_number_or_null env i.price p hp
    have hy := toNumber_of_number_or_null env i.quantity q hq
    have hv : itemView env i =
        some { _id := i._id, productName := i.productName, name := i.productName
               price := i.price, quantity := i.quantity, total := roundToDouble (p * q) } := by
      simp [itemView, jsMul, hx, hy, doubleProduct]
    refine ⟨{ _id := i._id, productName := i.productName, name := i.productName
              price := i.price, quantity := i.quantity, total := roundToDouble (p * q) } :: vs,
      by simp [itemViews, hv, hvs], List.Forall₂.cons ?_ hall⟩
    refine ⟨rfl, rfl, rfl, rfl, rfl, ?_⟩
    intro p2 q2 hp2 hq2
    have h1 := toNumber_of_number_or_null env i.price p2 hp2
    have h2 := toNumber_of_number_or_null env i.quantity q2 hq2
    rw [hx] at h1
    rw [hy] at h2
    injection h1 with h1
    injection h1 with h1
    injection h2 with h2
    injection h2 with h2
    rw [← h1, ← h2]
    exact ⟨rfl, fun hsafe => roundToDouble_of_safe (p * q) hsafe⟩

theorem orderViews_of_numbers (env : Env) (db : Db) (orders : List Order)
    (hnum : ∀ o ∈ orders, ∀ i ∈ db.orderItems, i.orderId = o._id →
      (∃ p : Int, i.price = JsVal.num p ∨ (i.price = JsVal.null ∧ p = 0)) ∧
        ∃ q : Int, i.quantity = JsVal.num q ∨ (i.quantity = JsVal.null ∧ q = 0)) :
    ∃ views, orderViews env db orders = some views ∧
      views.map (fun v => v.order) = orders ∧
      ∀ v ∈ views,
        List.Forall₂ IsViewOf
          (db.orderItems.filter (fun i => i.orderId == v.order._id)) v.items := by
  induction orders with
  | nil => exact ⟨[], rfl, rfl, by simp⟩
  | cons o rest ih =>
    obtain ⟨views, hviews, hmap, hall⟩ :=
      ih (fun o2 ho2 => hnum o2 (List.mem_cons_of_mem o ho2))
    obtain ⟨vs, hvs, hforall⟩ := itemViews_of_numbers env
      (db.orderItems.filter (fun i => i.orderId == o._id))
      (fun i hi =>
        hnum o (List.mem_cons_self o rest) i (List.mem_filter.mp hi).1
          (by simpa using (List.mem_filter.mp hi).2))
    refine ⟨{ order := o, items := vs } :: views, by simp [orderViews, hvs, hviews],
      by simp [hmap], ?_⟩
    intro v hv
    rcases List.mem_cons.mp hv with h | h
    · rw [h]; exact hforall
    · exact hall v h

/-- C24 as stated fails, in two ways. In a store in which an order of user 161 holds
three pieces at 9007199254740991, the listing carries the total 27021597764222972, the
double nearest to the product, while price times quantity is 27021597764222973. And
after a checkout of user 161, which passes validation, of a tee whose price is the
object `{"toString": null}`, converting that price to a number throws, and the listing
of user 161 answers 500 instead of the orders. -/
theorem C24_total_is_not_the_product :
    (∃ views : List OrderView,
        getOrders sampleEnv largePriceDb aliceId = Reply.json views ∧
          views.map (fun v => v.items.map (fun i => (i.price, i.quantity, i.total))) =
            [[(JsVal.null, JsVal.num 2, some 0)],
             [(JsVal.num 9007199254740991, JsVal.num 3, some 27021597764222972)]]) ∧
      (9007199254740991 : Int) * 3 = 27021597764222973 ∧
      (27021597764222972 : Int) ≠ 9007199254740991 * 3 ∧
      validateOrder throwingEnv objectPriceBody = Validation.ok ∧
      (postOrders throwingEnv sampleDb aliceId objectPriceBody).1 =
        Response.created "Order created successfully" 100 ∧
      getOrders throwingEnv (postOrders throwingEnv sampleDb aliceId objectPriceBody).2
          aliceId =
        Reply.error 500 "Database error" :=
  ⟨⟨_, rfl, rfl⟩, by decide, by decide, rfl, rfl, rfl⟩

/-- C24, amended: for a principal whose id the `ObjectId` constructor accepts, in a
store in which the price and the quantity of every item of the principal's orders are
numbers or `null`, the order listing returns exactly the orders of the principal (a
rearrangement of them), newest first by `createdAt`, each with the order items whose
`orderId` is its id, in stored order, and every returned item carries as `total` the
product of its price and its quantity, `null` counting as 0, as the runtime computes it
in double precision: the product itself when that is at most 2^53 in magnitude, the
double nearest to it otherwise, and `null` when that is an infinity. -/
theorem C24_order_listing (env : Env) (db : Db) (reqUserId : JsVal) (u : ObjectId)
    (hu : env.objectId reqUserId = some u)
    (hnum : ∀ o ∈ db.orders, o.userId = u → ∀ i ∈ db.orderItems, i.orderId = o._id →
      (∃ p : Int, i.price = JsVal.num p ∨ (i.price = JsVal.null ∧ p = 0)) ∧
        ∃ q : Int, i.quantity = JsVal.num q ∨ (i.quantity = JsVal.null ∧ q = 0)) :
    ∃ views : List OrderView,
      getOrders env db reqUserId = Reply.json views ∧
        (views.map (fun v => v.order)).Perm (db.orders.filter (fun o => o.userId == u)) ∧
        (views.map (fun v => v.order)).Pairwise (fun a b => b.createdAt ≤ a.createdAt) ∧
        ∀ v ∈ views,
          List.Forall₂ IsViewOf
            (db.orderItems.filter (fun i => i.orderId == v.order._id)) v.items := by
  have hperm := sortBy_perm (fun a b : Order => decide (b.createdAt ≤ a.createdAt))
    (db.orders.filter (fun o => o.userId == u))
  obtain ⟨views, hviews, hmap, hall⟩ := orderViews_of_numbers env db
    (sortBy (fun a b => decide (b.createdAt ≤ a.createdAt))
      (db.orders.filter (fun o => o.userId == u)))
    (by
      intro o ho i hi hio
      have ho2 := List.mem_filter.mp (hperm.mem_iff.mp ho)
      exact hnum o ho2.1 (by simpa using ho2.2) i hi hio)
  refine ⟨views, by simp only [getOrders, hu, hviews], ?_, ?_, hall⟩
  · rw [hmap]
    exact hperm
  · rw [hmap]
    have hsorted := sortBy_pairwise (fun a b : Order => decide (b.createdAt ≤ a.createdAt))
      (db.orders.filter (fun o => o.userId == u))
      (by
        intro a _ b _
        simp only [decide_eq_true_eq]
        omega)
      (by
        intro a _ b _ c _
        simp only [decide_eq_true_eq]
        omega)
    exact List.Pairwise.imp (fun h => by simpa using h) hsorted

/-- C24, at a store in which user 161 has order 30 from time 20 with a tee line and the
delivery charge and order 32 from time 25 with a cap line: the listing of user 161 is
order 32, then order 30, and the tee line two at 300 carries the total 600; and at the
store in which order 30 holds three pieces at 9007199254740991 and order 32 a cap without
a price: the totals are 0 for the cap and the double 27021597764222972 for the pieces. -/
theorem C24_order_listing_witness :
    (∃ views : List OrderView,
        getOrders sampleEnv shopDb aliceId = Reply.json views ∧
          (views.map (fun v => v.order)).Perm
            (shopDb.orders.filter (fun o => o.userId == 161)) ∧
          (views.map (fun v => v.order)).Pairwise (fun a b => b.createdAt ≤ a.createdAt) ∧
          ∀ v ∈ views,
            List.Forall₂ IsViewOf
              (shopDb.orderItems.filter (fun i => i.orderId == v.order._id)) v.items) ∧
      (∃ views : List OrderView,
        getOrders sampleEnv shopDb aliceId = Reply.json views ∧
          views.map (fun v => v.order._id) = [32, 30] ∧
          views.map
              (fun v => v.items.map (fun i => (i.productName, i.price, i.quantity, i.total))) =
            [[(JsVal.str "Cap", JsVal.num 150, JsVal.num 1, some 150)],
             [(JsVal.str "Tee", JsVal.num 300, JsVal.num 2, some 600),
              (JsVal.str "Cash on Delivery Charge", JsVal.num 10, JsVal.num 1, some 10)]]) ∧
      ∃ views : List OrderView,
        getOrders sampleEnv largePriceDb aliceId = Reply.json views ∧
          views.map (fun v => v.order._id) = [32, 30] ∧
          views.map (fun v => v.items.map (fun i => (i.price, i.quantity, i.total))) =
            [[(JsVal.null, JsVal.num 2, some 0)],
             [(JsVal.num 9007199254740991, JsVal.num 3, some 27021597764222972)]] :=
  ⟨C24_order_listing sampleEnv shopDb aliceId 161 rfl
      (by
        intro o _ _ i hi _
        simp only [shopDb, List.mem_cons, List.mem_singleton, List.not_mem_nil,
          or_false] at hi
        rcases hi with h | h | h | h <;> subst h
        · exact ⟨⟨300, Or.inl rfl⟩, ⟨2, Or.inl rfl⟩⟩
        · exact ⟨⟨10, Or.inl rfl⟩, ⟨1, Or.inl rfl⟩⟩
        · exact ⟨⟨900, Or.inl rfl⟩, ⟨1, Or.inl rfl⟩⟩
        · exact ⟨⟨150, Or.inl rfl⟩, ⟨1, Or.inl rfl⟩⟩),
    ⟨_, rfl, rfl, rfl⟩, ⟨_, rfl, rfl, rfl⟩⟩

/-! ## Addresses: an update that finds nothing -/

/-- C27 as stated fails: the address id `abc` is not an id the `ObjectId` constructor
accepts, so it matches no address of user 162; the update with `isDefault` true answers
500 `Error updating address`, not 404, and nothing is swept: the store is as it was and
address 7 is still the default of user 162. -/
theorem C27_malformed_address_id_sweeps_nothing :
    sampleEnv.objectId (JsVal.str "abc") = none ∧
      (officeBody (JsVal.bool true)).isDefault.truthy = true ∧
      putAddress sampleEnv threeAddressDb bobId "abc" (officeBody (JsVal.bool true)) =
        (Response.error 500 "Error updating address", threeAddressDb) ∧
      (putAddress sampleEnv threeAddressDb bobId "abc"
          (officeBody (JsVal.bool true))).2.addresses.map (fun a => (a._id, a.isDefault)) =
        [(7, JsVal.bool true), (8, JsVal.bool false), (9, JsVal.bool true)] ∧
      (putAddress sampleEnv threeAddressDb bobId "abc" (officeBody (JsVal.bool true))).1 ≠
        Response.error 404 "Address not found" := by
  refine ⟨rfl, rfl, rfl, rfl, ?_⟩
  intro h
  have h2 : Response.error 500 "Error updating address" =
      Response.error 404 "Address not found" := h
  injection h2 with h3 _
  exact absurd h3 (by decide)

/-- C27, amended: an update whose address id matches no address of the calling principal,
both ids being ones the `ObjectId` constructor accepts, answers 404 `Address not found`. When the
`isDefault` of the request is falsy the store is as it was; when it is truthy the store
afterwards has `isDefault` equal to `false` on every address of the principal, all
other fields and the addresses of every other owner being as they were. -/
theorem C27_update_not_found_sweeps (env : Env) (db : Db) (reqUserId : JsVal)
    (paramId : String) (body : AddressBody) (aid u : ObjectId)
    (hid : env.objectId (JsVal.str paramId) = some aid)
    (hu : env.objectId reqUserId = some u)
    (hno : ∀ a ∈ db.addresses, a._id = aid → a.userId ≠ u) :
    (putAddress env db reqUserId paramId body).1 = Response.error 404 "Address not found" ∧
      (body.isDefault.truthy = false → (putAddress env db reqUserId paramId body).2 = db) ∧
      (body.isDefault.truthy = true →
        (putAddress env db reqUserId paramId body).2 =
          { db with
            addresses :=
              db.addresses.map
                (fun a => if a.userId = u then { a with isDefault := JsVal.bool false }
                  else a) }) := by
  have hres := putAddress_eq env db reqUserId paramId body aid u hid hu
  have hsweep : sweepSiblings u aid db.addresses =
      db.addresses.map
        (fun a => if a.userId = u then { a with isDefault := JsVal.bool false } else a) := by
    unfold sweepSiblings
    apply List.map_congr_left
    intro a ha
    by_cases hau : a.userId = u
    · have hne : a._id ≠ aid := fun h => hno a ha h hau
      simp [hau, hne]
    · simp [hau]
  have hmiss : ∀ x ∈ (if body.isDefault.truthy = true then sweepSiblings u aid db.addresses
      else db.addresses), (x._id == aid && x.userId == u) = false := by
    intro x hx
    rw [Bool.eq_false_iff]
    intro hp
    simp only [Bool.and_eq_true, beq_iff_eq] at hp
    split_ifs at hx
    · unfold sweepSiblings at hx
      obtain ⟨a, ha, hxa⟩ := List.mem_map.mp hx
      have h1 : x._id = a._id := by
        rw [← hxa]; split_ifs <;> rfl
      have h2 : x.userId = a.userId := by
        rw [← hxa]; split_ifs <;> rfl
      exact hno a ha (h1.symm.trans hp.1) (h2.symm.trans hp.2)
    · exact hno x hx hp.1 hp.2
  have hany : (if body.isDefault.truthy = true then sweepSiblings u aid db.addresses
      else db.addresses).any (fun a => a._id == aid && a.userId == u) = false := by
    rw [Bool.eq_false_iff]
    intro h
    obtain ⟨x, hx, hp⟩ := List.any_eq_true.mp h
    rw [hmiss x hx] at hp
    exact Bool.false_ne_true hp
  have hupd := updateFirst_none (fun a : Address => a._id == aid && a.userId == u)
    (applyAddressBody body env.now) _ hmiss
  rw [hupd] at hres
  rw [hany] at hres
  refine ⟨by simpa using hres.2, ?_, ?_⟩
  · intro hf
    rw [hres.1]
    simp [hf]
  · intro ht
    rw [hres.1]
    simp only [ht, if_true, hsweep]

/-- C27, at a store in which user 162 has the default address 7 and the address 8, and
user 161 the default address 9: user 162 updates the address 9, which is not theirs, with
`isDefault` truthy; the answer is 404, yet address 7 is no longer a default, and address 9
of user 161 is untouched. -/
theorem C27_update_not_found_sweeps_witness :
    (putAddress sampleEnv threeAddressDb bobId "000000000000000000000009"
        (officeBody (JsVal.bool true))).1 = Response.error 404 "Address not found" ∧
      (putAddress sampleEnv threeAddressDb bobId "000000000000000000000009"
        (officeBody (JsVal.bool true))).2.addresses =
        [addressOf 7 162 false, addressOf 8 162 false, addressOf 9 161 true] ∧
      (putAddress sampleEnv threeAddressDb bobId "000000000000000000000009"
        (officeBody (JsVal.bool false))).2 = threeAddressDb := by
  have hno : ∀ a ∈ threeAddressDb.addresses, a._id = 9 → a.userId ≠ 162 := by
    intro a ha
    simp only [threeAddressDb, List.mem_cons, List.mem_singleton, List.not_mem_nil,
      or_false] at ha
    rcases ha with h | h | h <;> subst h <;> simp [addressOf]
  have h1 := C27_update_not_found_sweeps sampleEnv threeAddressDb bobId
    "000000000000000000000009" (officeBody (JsVal.bool true)) 9 162 rfl rfl hno
  have h2 := C27_update_not_found_sweeps sampleEnv threeAddressDb bobId
    "000000000000000000000009" (officeBody (JsVal.bool false)) 9 162 rfl rfl hno
  refine ⟨h1.1, ?_, h2.2.1 rfl⟩
  rw [h1.2.2 rfl]
  rfl

/-! ## Cart: what a repeat add leaves alone -/

/-- C28: under the conditions of a repeat add (existing user, a cart with one line per
owner and product name that holds the line `l` for the owner and the product, names and
the stored quantity of their declared kinds), the store afterwards is the store before
with the line `l` replaced, in place, by a line that has the id, owner, product name,
price and creation time of `l`, whatever price the request carries; every other cart
line and every other collection is unchanged. -/
theorem C28_repeat_add_keeps_price (env : Env) (db : Db) (reqUserId : JsVal)
    (body : CartBody) (u : ObjectId) (user : User) (w : JsVal) (name : String)
    (l : CartLine) (n : Int)
    (hu : env.objectId reqUserId = some u)
    (huser : db.users.find? (fun x => x._id == u) = some user)
    (hname : usernameOf env user = some w)
    (hpn : body.productName = JsVal.str name)
    (huniq : CartUnique db.cart) (hstr : NamesAreStrings db.cart)
    (hl : l ∈ db.cart) (hlu : l.userId = u) (hln : l.productName = JsVal.str name)
    (hlq : l.quantity = JsVal.num n) :
    ∃ (pre post : List CartLine) (l' : CartLine),
      db.cart = pre ++ l :: post ∧
        (postCart env db reqUserId body).2 = { db with cart := pre ++ l' :: post } ∧
        l'._id = l._id ∧ l'.userId = l.userId ∧ l'.productName = l.productName ∧
        l'.price = l.price ∧ l'.createdAt = l.createdAt ∧
        l'.quantity = JsVal.num (n + 1) ∧ l'.username = w ∧ l'.updatedAt = some env.now := by
  obtain ⟨_, pre, post, hsplit, h2, _⟩ :=
    postCart_repeat_add env db reqUserId body u user w name l n hu huser hname hpn huniq hstr
      hl hlu hln hlq
  exact ⟨pre, post, _, hsplit, h2, rfl, rfl, rfl, rfl, rfl, rfl, rfl, rfl⟩

/-- C28, at the cart that holds one tee at 300 of user 161: a repeat add that carries the
price 999 leaves the line at 300. -/
theorem C28_repeat_add_keeps_price_witness :
    (∃ (pre post : List CartLine) (l' : CartLine),
        oneTeeDb.cart = pre ++ firstTeeLine :: post ∧
          (postCart sampleEnv oneTeeDb aliceId
              { productName := JsVal.str "Tee", price := JsVal.num 999
                quantity := JsVal.num 5 }).2 =
            { oneTeeDb with cart := pre ++ l' :: post } ∧
          l'._id = firstTeeLine._id ∧ l'.userId = firstTeeLine.userId ∧
          l'.productName = firstTeeLine.productName ∧
          l'.price = firstTeeLine.price ∧ l'.createdAt = firstTeeLine.createdAt ∧
          l'.quantity = JsVal.num (1 + 1) ∧ l'.username = JsVal.str "Alice Rao" ∧
          l'.updatedAt = some sampleEnv.now) ∧
      (postCart sampleEnv oneTeeDb aliceId
          { productName := JsVal.str "Tee", price := JsVal.num 999
            quantity := JsVal.num 5 }).2.cart.map (fun x => (x.price, x.quantity)) =
        [(JsVal.num 300, JsVal.num 2)] :=
  ⟨C28_repeat_add_keeps_price sampleEnv oneTeeDb aliceId
      { productName := JsVal.str "Tee", price := JsVal.num 999, quantity := JsVal.num 5 }
      161 _ (JsVal.str "Alice Rao") "Tee" firstTeeLine 1 rfl rfl rfl rfl
      (List.pairwise_singleton _ _)
      (by
        intro l hl
        have h1 : l = firstTeeLine := by simpa [oneTeeDb] using hl
        exact ⟨"Tee", by rw [h1]; rfl⟩)
      (by simp [oneTeeDb]) rfl rfl rfl,
    rfl⟩

/-! ## The client cart mirror -/

theorem entriesOfLines_of_readable (lines : List JsVal)
    (h : ∀ l ∈ lines, l ≠ JsVal.null ∧ l ≠ JsVal.undefined) :
    ∃ entries, entriesOfLines lines = some entries ∧
      List.Forall₂
        (fun line e =>
          line.getProp "_id" = some e.id ∧ line.getProp "productName" = some e.name ∧
            line.getProp "price" = some e.price ∧ line.getProp "quantity" = some e.quantity ∧
            line.getProp "username" = some e.username)
        lines entries := by
  induction lines with
  | nil => exact ⟨[], rfl, List.Forall₂.nil⟩
  | cons line rest ih =>
    obtain ⟨entries, he, hall⟩ := ih (fun j hj => h j (List.mem_cons_of_mem line hj))
    have hline := h line (List.mem_cons_self line rest)
    obtain ⟨v1, h1⟩ := getProp_of_readable line "_id" hline
    obtain ⟨v2, h2⟩ := getProp_of_readable line "productName" hline
    obtain ⟨v3, h3⟩ := getProp_of_readable line "price" hline
    obtain ⟨v4, h4⟩ := getProp_of_readable line "quantity" hline
    obtain ⟨v5, h5⟩ := getProp_of_readable line "username" hline
    refine ⟨{ id := v1, name := v2, price := v3, quantity := v4, username := v5 } :: entries,
      ?_, List.Forall₂.cons ⟨h1, h2, h3, h4, h5⟩ hall⟩
    simp [entriesOfLines, entryOfLine, h1, h2, h3, h4, h5, he]

/-- C26: whatever the mirror held, the sync leaves it empty when no credential is
present, and when a credential is present and the fetch succeeds with the list of server
lines it leaves exactly one entry per line, in order, with `id`, `name`, `price`,
`quantity` and `username` taken from `_id`, `productName`, `price`, `quantity` and
`username` of the line; the result is the same for every prior mirror. -/
theorem C26_sync_overwrites (b : Browser) (cart : List Entry) :
    (hasToken b = false → syncCartWithDatabase b cart = { requests := [], cart := [] }) ∧
      (∀ lines : List JsVal, hasToken b = true →
        b.getCart = FetchResult.ok (JsVal.arr lines) →
        (∀ l ∈ lines, l ≠ JsVal.null ∧ l ≠ JsVal.undefined) →
        ∃ entries : List Entry,
          (syncCartWithDatabase b cart).cart = entries ∧
            List.Forall₂
              (fun line e =>
                line.getProp "_id" = some e.id ∧ line.getProp "productName" = some e.name ∧
                  line.getProp "price" = some e.price ∧
                  line.getProp "quantity" = some e.quantity ∧
                  line.getProp "username" = some e.username)
              lines entries ∧
            ∀ prior : List Entry, (syncCartWithDatabase b prior).cart = entries) := by
  constructor
  · intro h
    simp [syncCartWithDatabase, h]
  · intro lines ht hget hread
    obtain ⟨entries, he, hall⟩ := entriesOfLines_of_readable lines hread
    refine ⟨entries, ?_, hall, ?_⟩
    · simp [syncCartWithDatabase, ht, hget, he]
    · intro prior
      simp [syncCartWithDatabase, ht, hget, he]

/-- C26, at a guest whose mirror holds an entry, and at a signed-in visitor whose server
cart holds two tees: the guest's mirror is wiped, and the visitor's mirror becomes the one
entry of the server line, the prior entry being gone. -/
theorem C26_sync_overwrites_witness :
    syncCartWithDatabase guestBrowser [guestTee] = { requests := [], cart := [] } ∧
      (∃ entries : List Entry,
        (syncCartWithDatabase memberBrowser [guestTee]).cart = entries ∧
          List.Forall₂
            (fun line e =>
              line.getProp "_id" = some e.id ∧ line.getProp "productName" = some e.name ∧
                line.getProp "price" = some e.price ∧
                line.getProp "quantity" = some e.quantity ∧
                line.getProp "username" = some e.username)
            [teeLineJson] entries ∧
          ∀ prior : List Entry, (syncCartWithDatabase memberBrowser prior).cart = entries) ∧
      (syncCartWithDatabase memberBrowser [guestTee]).cart =
        [{ id := JsVal.str "000000000000000000000064", name := JsVal.str "Tee"
           price := JsVal.num 300, quantity := JsVal.num 2
           username := JsVal.str "Alice Rao" }] :=
  ⟨(C26_sync_overwrites guestBrowser [guestTee]).1 rfl,
    (C26_sync_overwrites memberBrowser [guestTee]).2 [teeLineJson] rfl rfl
      (by
        intro l hl
        rw [List.mem_singleton] at hl
        subst hl
        exact ⟨by simp [teeLineJson], by simp [teeLineJson]⟩),
    rfl⟩

/-- C25 as stated fails: a signed-in visitor, whose requests would all succeed, removes
the entry with the id `temp-0`; no request is issued and the entry at index 0 is removed
from the mirror directly. -/
theorem C25_temp_id_skips_the_server :
    hasToken memberBrowser = true ∧ memberBrowser.deleteLine.isOk = true ∧
      removeFromCart memberBrowser [guestTee] (JsVal.str "temp-0") =
        some { requests := [], cart := [] } :=
  ⟨rfl, rfl, rfl⟩

/-- C25, amended: with a credential present, `addToCart` (when the stored user data is
absent or parses), `clearCart`, and `removeFromCart` for an id whose text does not start
with `temp-` issue the corresponding request first; when it succeeds the mirror is the
one the following sync leaves, and when it fails, or when no credential is present, no
further request is issued and the mirror is changed directly (entry appended, entries
with that id filtered out, mirror emptied). With an id whose text starts with `temp-`,
`removeFromCart` issues no request and removes the entry at that index directly,
with or without a credential. -/
theorem C25_server_first (b : Browser) (cart : List Entry) (name price id : JsVal)
    (text : String) (hid : idText b id = some text) :
    ((hasToken b = true → b.userDataThrows = false → b.postCart.isOk = true →
          addToCart b cart name price =
            { requests := Request.postCart name price :: (syncCartWithDatabase b cart).requests
              cart := (syncCartWithDatabase b cart).cart }) ∧
        (hasToken b = true → b.userDataThrows = false → b.postCart.isOk = false →
          addToCart b cart name price =
            { requests := [Request.postCart name price]
              cart := cart ++ [guestEntry name price b.now] }) ∧
        (hasToken b = false →
          addToCart b cart name price =
            { requests := [], cart := cart ++ [guestEntry name price b.now] })) ∧
      ((hasToken b = true → "temp-".data.isPrefixOf text.data = false →
          b.deleteLine.isOk = true →
          removeFromCart b cart id =
            some
              { requests := Request.deleteLine text :: (syncCartWithDatabase b cart).requests
                cart := (syncCartWithDatabase b cart).cart }) ∧
        (hasToken b = true → "temp-".data.isPrefixOf text.data = false →
          b.deleteLine.isOk = false →
          removeFromCart b cart id =
            some
              { requests := [Request.deleteLine text]
                cart := cart.filter (fun item => !strictEq item.id id) }) ∧
        (hasToken b = false → "temp-".data.isPrefixOf text.data = false →
          removeFromCart b cart id =
            some { requests := [], cart := cart.filter (fun item => !strictEq item.id id) }) ∧
        ("temp-".data.isPrefixOf text.data = true →
          removeFromCart b cart id =
            some
              { requests := []
                cart := removeIndex cart (parseIntJs (text.data.drop 5)) })) ∧
      ((hasToken b = true → b.deleteCart.isOk = true →
          clearCart b cart =
            { requests := Request.deleteCart :: (syncCartWithDatabase b cart).requests
              cart := (syncCartWithDatabase b cart).cart }) ∧
        (hasToken b = true → b.deleteCart.isOk = false →
          clearCart b cart = { requests := [Request.deleteCart], cart := [] }) ∧
        (hasToken b = false → clearCart b cart = { requests := [], cart := [] })) := by
  refine ⟨⟨?_, ?_, ?_⟩, ⟨?_, ?_, ?_, ?_⟩, ⟨?_, ?_, ?_⟩⟩
  · intro ht hud hok
    cases hp : b.postCart with
    | ok body => simp [addToCart, ht, hud, hp]
    | notOk => rw [hp] at hok; cases hok
    | throws => rw [hp] at hok; cases hok
  · intro ht hud hok
    cases hp : b.postCart with
    | ok body => rw [hp] at hok; cases hok
    | notOk => simp [addToCart, ht, hud, hp]
    | throws => simp [addToCart, ht, hud, hp]
  · intro ht
    simp [addToCart, ht]
  · intro ht hnt hok
    cases hp : b.deleteLine with
    | ok body => simp [removeFromCart, hid, ht, hnt, hp]
    | notOk => rw [hp] at hok; cases hok
    | throws => rw [hp] at hok; cases hok
  · intro ht hnt hok
    cases hp : b.deleteLine with
    | ok body => rw [hp] at hok; cases hok
    | notOk => simp [removeFromCart, removeLocally, hid, ht, hnt, hp]
    | throws => simp [removeFromCart, removeLocally, hid, ht, hnt, hp]
  · intro ht hnt
    simp [removeFromCart, removeLocally, hid, ht, hnt]
  · intro htemp
    simp [removeFromCart, removeLocally, hid, htemp]
  · intro ht hok
    cases hp : b.deleteCart with
    | ok body => simp [clearCart, ht, hp]
    | notOk => rw [hp] at hok; cases hok
    | throws => rw [hp] at hok; cases hok
  · intro ht hok
    cases hp : b.deleteCart with
    | ok body => rw [hp] at hok; cases hok
    | notOk => simp [clearCart, ht, hp]
    | throws => simp [clearCart, ht, hp]
  · intro ht
    simp [clearCart, ht]

/-- C25, amended, at a signed-in visitor whose requests succeed and at a guest: the
visitor's add, remove by server id and clear each issue their request and then the sync,
and leave the mirror the sync gives; the guest's add, remove and clear issue no request
and change the mirror directly. -/
theorem C25_server_first_witness :
    idText memberBrowser (JsVal.str "000000000000000000000064") =
        some "000000000000000000000064" ∧
      addToCart memberBrowser [guestTee] (JsVal.str "Cap") (JsVal.num 150) =
        { requests := [Request.postCart (JsVal.str "Cap") (JsVal.num 150), Request.getCart]
          cart := (syncCartWithDatabase memberBrowser [guestTee]).cart } ∧
      removeFromCart memberBrowser [guestTee] (JsVal.str "000000000000000000000064") =
        some
          { requests := [Request.deleteLine "000000000000000000000064", Request.getCart]
            cart := (syncCartWithDatabase memberBrowser [guestTee]).cart } ∧
      clearCart memberBrowser [guestTee] =
        { requests := [Request.deleteCart, Request.getCart]
          cart := (syncCartWithDatabase memberBrowser [guestTee]).cart } ∧
      addToCart guestBrowser [guestTee] (JsVal.str "Cap") (JsVal.num 150) =
        { requests := []
          cart := [guestTee] ++ [guestEntry (JsVal.str "Cap") (JsVal.num 150) 1000] } ∧
      clearCart guestBrowser [guestTee] = { requests := [], cart := [] } :=
  ⟨rfl,
    (C25_server_first memberBrowser [guestTee] (JsVal.str "Cap") (JsVal.num 150)
      (JsVal.str "000000000000000000000064") "000000000000000000000064" rfl).1.1 rfl rfl rfl,
    (C25_server_first memberBrowser [guestTee] (JsVal.str "Cap") (JsVal.num 150)
      (JsVal.str "000000000000000000000064") "000000000000000000000064" rfl).2.1.1 rfl rfl rfl,
    (C25_server_first memberBrowser [guestTee] (JsVal.str "Cap") (JsVal.num 150)
      (JsVal.str "000000000000000000000064") "000000000000000000000064" rfl).2.2.1 rfl rfl,
    (C25_server_first guestBrowser [guestTee] (JsVal.str "Cap") (JsVal.num 150)
      (JsVal.str "000000000000000000000064") "000000000000000000000064" rfl).1.2.2 rfl,
    (C25_server_first guestBrowser [guestTee] (JsVal.str "Cap") (JsVal.num 150)
      (JsVal.str "000000000000000000000064") "000000000000000000000064" rfl).2.2.2.2 rfl⟩

theorem digitChar_ne_t (k : Nat) : Nat.digitChar k ≠ 't' := by
  rcases Nat.lt_or_ge k 16 with h | h
  · interval_cases k <;> decide
  · have hstar : Nat.digitChar k = '*' := by
      unfold Nat.digitChar
      repeat rw [if_neg (by omega)]
    rw [hstar]
    decide

theorem toDigitsCore_no_t (base : Nat) (fuel n : Nat) (ds : List Char)
    (h : ∀ c ∈ ds, c ≠ 't') : ∀ c ∈ Nat.toDigitsCore base fuel n ds, c ≠ 't' := by
  induction fuel generalizing n ds with
  | zero => simpa [Nat.toDigitsCore] using h
  | succ fuel ih =>
    have hcons : ∀ c ∈ Nat.digitChar (n % base) :: ds, c ≠ 't' := by
      intro c hc
      rcases List.mem_cons.mp hc with h1 | h1
      · rw [h1]; exact digitChar_ne_t _
      · exact h c h1
    simp only [Nat.toDigitsCore]
    split_ifs
    · exact hcons
    · exact ih _ _ hcons

theorem natText_no_t (n : Nat) : ∀ c ∈ (toString n).data, c ≠ 't' := by
  show ∀ c ∈ (Nat.repr n).data, c ≠ 't'
  unfold Nat.repr Nat.toDigits
  exact toDigitsCore_no_t 10 _ n [] (by simp)

/-- The decimal text of a number holds no letter `t`. -/
theorem intText_no_t (n : Int) : ∀ c ∈ (toString n).data, c ≠ 't' := by
  cases n with
  | ofNat m => exact natText_no_t m
  | negSucc m =>
    show ∀ c ∈ ("-" ++ toString (Nat.succ m)).data, c ≠ 't'
    intro c hc
    rw [String.data_append] at hc
    rcases List.mem_append.mp hc with h | h
    · have : c = '-' := by simpa using h
      rw [this]; decide
    · exact natText_no_t _ c h

/-- The decimal text of a number does not start with `temp-`. -/
theorem intText_not_temp (n : Int) : "temp-".data.isPrefixOf (toString n).data = false := by
  cases hp : "temp-".data.isPrefixOf (toString n).data with
  | false => rfl
  | true =>
    have hpre : "temp-".data <+: (toString n).data := List.isPrefixOf_iff_prefix.mp hp
    have hmem : 't' ∈ (toString n).data := hpre.subset (by decide)
    exact absurd rfl (intText_no_t n 't' hmem)

/-- C29: on the local path of `removeFromCart` (no credential, or the request to the
server failed), with an id whose text does not start with `temp-`, the mirror afterwards
is exactly the entries whose id is not strictly equal to the argument, in their order.
The guest path of `addToCart` appends an entry whose id is the number of the clock; for an
entry whose id is a non-zero number the Remove button passes the decimal text of that
number, and calling `removeFromCart` with that text leaves the entry in the mirror. -/
theorem C29_local_removal_is_strict (b : Browser) (cart : List Entry)
    (hlocal : hasToken b = false ∨ b.deleteLine.isOk = false) :
    (∀ (id : JsVal) (text : String), idText b id = some text →
        "temp-".data.isPrefixOf text.data = false →
        ∃ run : Run, removeFromCart b cart id = some run ∧
          run.cart = cart.filter (fun item => !strictEq item.id id)) ∧
      (∀ name price : JsVal, hasToken b = false →
        (addToCart b cart name price).cart = cart ++ [guestEntry name price b.now] ∧
          (guestEntry name price b.now).id = JsVal.num b.now) ∧
      (∀ (e : Entry) (n : Int) (index : Nat), e ∈ cart → e.id = JsVal.num n → n ≠ 0 →
        removeArg b e index = some (toString n) ∧
          ∃ run : Run, removeFromCart b cart (JsVal.str (toString n)) = some run ∧
            e ∈ run.cart) := by
  have hfirst : ∀ (id : JsVal) (text : String), idText b id = some text →
      "temp-".data.isPrefixOf text.data = false →
      ∃ run : Run, removeFromCart b cart id = some run ∧
        run.cart = cart.filter (fun item => !strictEq item.id id) := by
    intro id text hid hnt
    rcases hlocal with ht | hfail
    · exact ⟨{ requests := [], cart := removeLocally cart id text },
        by simp [removeFromCart, hid, ht], by simp [removeLocally, hnt]⟩
    · by_cases ht : hasToken b = true
      · cases hp : b.deleteLine with
        | ok body => rw [hp] at hfail; cases hfail
        | notOk =>
          exact ⟨{ requests := [Request.deleteLine text], cart := removeLocally cart id text },
            by simp [removeFromCart, hid, ht, hnt, hp], by simp [removeLocally, hnt]⟩
        | throws =>
          exact ⟨{ requests := [Request.deleteLine text], cart := removeLocally cart id text },
            by simp [removeFromCart, hid, ht, hnt, hp], by simp [removeLocally, hnt]⟩
      · exact ⟨{ requests := [], cart := removeLocally cart id text },
          by simp [removeFromCart, hid, ht], by simp [removeLocally, hnt]⟩
  refine ⟨hfirst, ?_, ?_⟩
  · intro name price ht
    exact ⟨by simp [addToCart, ht], rfl⟩
  · intro e n index hmem hnum hn
    constructor
    · simp [removeArg, hnum, JsVal.or, JsVal.truthy, hn, idText]
    · obtain ⟨run, hrun, hcart⟩ :=
        hfirst (JsVal.str (toString n)) (toString n) rfl (intText_not_temp n)
      refine ⟨run, hrun, ?_⟩
      rw [hcart, List.mem_filter]
      refine ⟨hmem, ?_⟩
      rw [hnum]
      rfl

/-- C29, at a guest: the guest adds a tee to the empty mirror at clock 1000, the entry
gets the number 1000 as id, the Remove button passes the text `1000`, and removing with
that text leaves the mirror as it was; removing with the number 1000 itself empties it. -/
theorem C29_local_removal_is_strict_witness :
    (hasToken guestBrowser = false ∨ guestBrowser.deleteLine.isOk = false) ∧
      (addToCart guestBrowser [] (JsVal.str "Tee") (JsVal.num 300)).cart = [guestTee] ∧
      removeArg guestBrowser guestTee 0 = some "1000" ∧
      (∃ run : Run, removeFromCart guestBrowser [guestTee] (JsVal.str "1000") = some run ∧
        run.cart = [guestTee].filter (fun item => !strictEq item.id (JsVal.str "1000"))) ∧
      (∃ run : Run, removeFromCart guestBrowser [guestTee] (JsVal.str (toString (1000 : Int))) =
          some run ∧ guestTee ∈ run.cart) ∧
      removeFromCart guestBrowser [guestTee] (JsVal.str "1000") =
        some { requests := [], cart := [guestTee] } ∧
      removeFromCart guestBrowser [guestTee] (JsVal.num 1000) =
        some { requests := [], cart := [] } :=
  ⟨Or.inl rfl, rfl, rfl,
    (C29_local_removal_is_strict guestBrowser [guestTee] (Or.inl rfl)).1
      (JsVal.str "1000") "1000" rfl rfl,
    ((C29_local_removal_is_strict guestBrowser [guestTee] (Or.inl rfl)).2.2
      guestTee 1000 0 (List.mem_singleton.mpr rfl) rfl (by decide)).2,
    rfl, rfl⟩

end Clothy
